import Mathlib

/-!
Window geometry negotiation of `src/terminal-window.c`.

A shallow embedding of the geometry-string parser
(`terminal_window_ReadInteger`, `terminal_window_XParseGeometry`) and of the
size negotiation (`terminal_window_update_geometry`,
`terminal_window_update_size_set_geometry`) and of the tab handlers
(`notebook_page_selected_callback`, `notebook_page_removed_callback`,
`update_tab_visibility`, `terminal_window_update_tabs_menu_sensitivity`),
followed by theorems about them.

Conventions of the embedding.

* A C string is the list of its characters; reading the character under a
  pointer (`*p`) is `deref`, which yields the terminating NUL once the list is
  exhausted.  A pointer into the string is the suffix that starts there, so
  two pointers into the same string are equal exactly when the suffixes are.
* `int` is `Int` reduced to the 32-bit two's complement range by `toInt` after
  every arithmetic step; `unsigned int` is `Nat` reduced by `toUInt`.
* `return (0)` inside the parser is `none` in the stage functions.
* Calls into the toolkit are recorded, in order, in the `requests` log of the
  window.
-/

namespace MateTerminal

/-! ## Machine integers -/

/-- Value of an integer expression stored in a 32-bit `int`. -/
def toInt (z : Int) : Int := (z + 2147483648) % 4294967296 - 2147483648

/-- Value of an integer expression stored in a 32-bit `unsigned int`. -/
def toUInt (z : Int) : Nat := (z % 4294967296).toNat

/-! ## C strings -/

/-- The character under a string pointer: `*p`. -/
def deref (p : List Char) : Char := p.headD (Char.ofNat 0)

/-- A list of characters is the content of a C string when it holds no NUL. -/
def IsCString (s : List Char) : Prop := ∀ c ∈ s, c ≠ Char.ofNat 0

instance (s : List Char) : Decidable (IsCString s) := by
  unfold IsCString; infer_instance

/-! ## `terminal_window_ReadInteger` -/

/-- The `for` loop of `terminal_window_ReadInteger`: accumulate decimal digits
into `Result` and return it with the pointer to the first non-digit. -/
def ReadInteger_loop : Int → List Char → Int × List Char
  | Result, [] => (Result, [])
  | Result, c :: cs =>
    if '0' ≤ c ∧ c ≤ '9' then
      ReadInteger_loop (toInt (Result * 10 + ((c.toNat : Int) - ('0'.toNat : Int)))) cs
    else (Result, c :: cs)

/-- Embedding of `terminal_window_ReadInteger (string, &NextString)`: the pair of
the returned `int` and the value stored in `*NextString`. -/
def terminal_window_ReadInteger (string : List Char) : Int × List Char :=
  let start : List Char × Int :=
    if deref string = '+' then (string.tail, 1)
    else if deref string = '-' then (string.tail, -1)
    else (string, 1)
  let r := ReadInteger_loop 0 start.1
  if start.2 ≥ 0 then (r.1, r.2) else (toInt (-r.1), r.2)

/-! ## `terminal_window_XParseGeometry` -/

def NoValue : Nat := 0x0000
def XValue : Nat := 0x0001
def YValue : Nat := 0x0002
def WidthValue : Nat := 0x0004
def HeightValue : Nat := 0x0008
def XNegative : Nat := 0x0010
def YNegative : Nat := 0x0020

/-- The local variables of `terminal_window_XParseGeometry`. -/
structure Locals where
  mask : Nat
  strind : List Char
  tempWidth : Nat
  tempHeight : Nat
  tempX : Int
  tempY : Int
deriving DecidableEq, Repr

/-- What the caller sees after `terminal_window_XParseGeometry`: the returned
mask and the contents of `*x`, `*y`, `*width`, `*height`. -/
structure Geometry where
  mask : Nat
  x : Int
  y : Int
  width : Nat
  height : Nat
deriving DecidableEq, Repr

/-- The width block (source lines 426-432). -/
def parse_width (l : Locals) : Option Locals :=
  if deref l.strind ≠ '+' ∧ deref l.strind ≠ '-' ∧ deref l.strind ≠ 'x' then
    let r := terminal_window_ReadInteger l.strind
    if l.strind = r.2 then none
    else some { l with tempWidth := toUInt r.1, strind := r.2, mask := l.mask ||| WidthValue }
  else some l

/-- The height block (source lines 434-441). -/
def parse_height (l : Locals) : Option Locals :=
  if deref l.strind = 'x' ∨ deref l.strind = 'X' then
    let strind := l.strind.tail
    let r := terminal_window_ReadInteger strind
    if strind = r.2 then none
    else some { l with tempHeight := toUInt r.1, strind := r.2, mask := l.mask ||| HeightValue }
  else some l

/-- The y-offset block (source lines 461-480), entered after the x offset. -/
def parse_y (l : Locals) : Option Locals :=
  if deref l.strind = '+' ∨ deref l.strind = '-' then
    if deref l.strind = '-' then
      let strind := l.strind.tail
      let r := terminal_window_ReadInteger strind
      if strind = r.2 then none
      else some { l with tempY := toInt (-r.1), strind := r.2,
                         mask := (l.mask ||| YNegative) ||| YValue }
    else
      let strind := l.strind.tail
      let r := terminal_window_ReadInteger strind
      if strind = r.2 then none
      else some { l with tempY := r.1, strind := r.2, mask := l.mask ||| YValue }
  else some l

/-- The x-offset part of the offset block (source lines 444-460), entered with
`strind` at a `+` or `-`. -/
def parse_x (l : Locals) : Option Locals :=
  if deref l.strind = '-' then
    let strind := l.strind.tail
    let r := terminal_window_ReadInteger strind
    if strind = r.2 then none
    else some { l with tempX := toInt (-r.1), strind := r.2,
                       mask := (l.mask ||| XNegative) ||| XValue }
  else
    let strind := l.strind.tail
    let r := terminal_window_ReadInteger strind
    if strind = r.2 then none
    else some { l with tempX := r.1, strind := r.2, mask := l.mask ||| XValue }

/-- The offset block (source lines 443-481): when `strind` is at a `+` or `-`,
the x offset and then the y-offset block. -/
def parse_offsets (l : Locals) : Option Locals :=
  if deref l.strind = '+' ∨ deref l.strind = '-' then (parse_x l).bind parse_y
  else some l

/-- The locals as initialised at source lines 415-425, `strind` already past
the optional leading `=`. -/
def initLocals (string : List Char) : Locals :=
  { mask := NoValue
    strind := if deref string = '=' then string.tail else string
    tempWidth := 0, tempHeight := 0, tempX := 0, tempY := 0 }

/-- The locals after the width block. -/
def afterWidth (string : List Char) : Option Locals := parse_width (initLocals string)

/-- The locals after the height block. -/
def afterHeight (string : List Char) : Option Locals := (afterWidth string).bind parse_height

/-- The locals after the offset block, that is at source line 483. -/
def afterOffsets (string : List Char) : Option Locals :=
  (afterHeight string).bind parse_offsets

/-- The locals after the x offset, when the offset block is entered. -/
def afterX (string : List Char) : Option Locals :=
  (afterHeight string).bind fun l =>
    if deref l.strind = '+' ∨ deref l.strind = '-' then parse_x l else none

/-- The parser, run on `string`, is about to read a component with the locals
`l`: `strind` is at the `x`/`X` separator after the width block, or at the sign
of the x offset after the height block, or at the sign of the y offset after the
x offset. -/
def BeginsComponent (string : List Char) (l : Locals) : Prop :=
  (afterWidth string = some l ∧ (deref l.strind = 'x' ∨ deref l.strind = 'X')) ∨
  (afterHeight string = some l ∧ (deref l.strind = '+' ∨ deref l.strind = '-')) ∨
  (afterX string = some l ∧ (deref l.strind = '+' ∨ deref l.strind = '-'))

instance (string : List Char) (l : Locals) : Decidable (BeginsComponent string l) := by
  unfold BeginsComponent; infer_instance

/-- The end of `terminal_window_XParseGeometry` (source lines 486-496): reject
trailing characters, otherwise store the components found. -/
def storeResult (l : Locals) (x y : Int) (width height : Nat) : Geometry :=
  if deref l.strind ≠ Char.ofNat 0 then ⟨0, x, y, width, height⟩
  else
    { mask := l.mask
      x := if l.mask &&& XValue ≠ 0 then l.tempX else x
      y := if l.mask &&& YValue ≠ 0 then l.tempY else y
      width := if l.mask &&& WidthValue ≠ 0 then l.tempWidth else width
      height := if l.mask &&& HeightValue ≠ 0 then l.tempHeight else height }

/-- Embedding of `terminal_window_XParseGeometry (string, &x, &y, &width, &height)`.
`string = none` is the NULL pointer; `x y width height` are the values the
caller's variables hold before the call. -/
def terminal_window_XParseGeometry (string : Option (List Char)) (x y : Int)
    (width height : Nat) : Geometry :=
  match string with
  | none => ⟨NoValue, x, y, width, height⟩
  | some string =>
    if deref string = Char.ofNat 0 then ⟨NoValue, x, y, width, height⟩
    else
      match afterOffsets string with
      | none => ⟨0, x, y, width, height⟩
      | some l => storeResult l x y width height

/-! ## Decimal formatting -/

/-- The sign character written in front of an offset. -/
def signChar (neg : Bool) : Char := if neg then '-' else '+'

/-- The text `<w>x<h><sx><x><sy><y>` with every number in decimal. -/
def formatGeometry (w h x y : Nat) (xneg yneg : Bool) : List Char :=
  Nat.toDigits 10 w ++ 'x' :: (Nat.toDigits 10 h ++ signChar xneg ::
    (Nat.toDigits 10 x ++ signChar yneg :: Nat.toDigits 10 y))

/-- Value of a run of decimal digit characters read after the value `acc`. -/
def digitsVal (acc : Nat) (ds : List Char) : Nat :=
  ds.foldl (fun a c => a * 10 + (c.toNat - 48)) acc

/-- The characters the loop of `terminal_window_ReadInteger` consumes. -/
def IsDigit (c : Char) : Prop := '0' ≤ c ∧ c ≤ '9'

instance (c : Char) : Decidable (IsDigit c) := by unfold IsDigit; infer_instance

/-! ## The window and the toolkit -/

/-- 32-bit `int` addition. -/
def int_add (a b : Int) : Int := toInt (a + b)

/-- 32-bit `int` subtraction. -/
def int_sub (a b : Int) : Int := toInt (a - b)

/-- 32-bit `int` multiplication. -/
def int_mul (a b : Int) : Int := toInt (a * b)

/-- GDK's `GDK_WINDOW_STATE_MAXIMIZED` (`1 << 2`). -/
def GDK_WINDOW_STATE_MAXIMIZED : Nat := 4

/-- GDK's `GDK_WINDOW_STATE_TILED` (`1 << 8`). -/
def GDK_WINDOW_STATE_TILED : Nat := 256

/-- The `GdkGravity` values the window code uses. -/
inductive GdkGravity where
  | GDK_GRAVITY_NORTH_WEST
  | GDK_GRAVITY_NORTH_EAST
  | GDK_GRAVITY_SOUTH_WEST
  | GDK_GRAVITY_SOUTH_EAST
deriving DecidableEq, Repr

/-- The geometry hints handed to `gtk_window_set_geometry_hints`. -/
structure GdkGeometry where
  base_width : Int
  base_height : Int
  width_inc : Int
  height_inc : Int
  min_width : Int
  min_height : Int
deriving DecidableEq, Repr

/-- The toolkit calls the size negotiation makes on the toplevel window. -/
inductive Request where
  | set_geometry_hints (hints : GdkGeometry)
  | resize (width height : Int)
  | set_default_size (width height : Int)
  | set_gravity (gravity : GdkGravity)
  | move (x y : Int)
deriving DecidableEq, Repr

/-- A tab as the window code sees it: the identity of its widget (the pointer
value), what `terminal_screen_get_size` and `terminal_screen_get_cell_size`
report, and the padding of its style context. -/
structure TerminalScreen where
  widget : Nat
  grid_width : Int
  grid_height : Int
  char_width : Int
  char_height : Int
  padding_left : Int
  padding_right : Int
  padding_top : Int
  padding_bottom : Int
deriving DecidableEq, Repr

/-- The geometry fields of `struct _TerminalWindowPrivate`. -/
structure TerminalWindowPrivate where
  active_screen : Option TerminalScreen
  old_char_width : Int
  old_char_height : Int
  old_chrome_width : Int
  old_chrome_height : Int
  old_padding_width : Int
  old_padding_height : Int
  old_geometry_widget : Option Nat
deriving DecidableEq, Repr

/-- A window together with what the toolkit reports about it.
`gdk_window` is `none` while the widget has no `GdkWindow` (not realized) and
otherwise holds `gdk_window_get_state`; `mapped` is `gtk_widget_get_mapped` of
the toplevel; `vbox_request_*` is the preferred size of `priv->main_vbox`;
`screen_*` is `WidthOfScreen` / `HeightOfScreen`; `requests` lists the toolkit
calls issued so far, oldest first. -/
structure TerminalWindow where
  priv : TerminalWindowPrivate
  gdk_window : Option Nat
  mapped : Bool
  vbox_request_width : Int
  vbox_request_height : Int
  screen_width : Int
  screen_height : Int
  requests : List Request
deriving DecidableEq, Repr

def MIN_WIDTH_CHARS : Int := 4
def MIN_HEIGHT_CHARS : Int := 1

/-- Embedding of `terminal_window_update_geometry (window)`. -/
def terminal_window_update_geometry (window : TerminalWindow) : TerminalWindow :=
  let priv := window.priv
  match priv.active_screen with
  | none => window
  | some active_screen =>
    let widget := active_screen.widget
    let char_width := active_screen.char_width
    let char_height := active_screen.char_height
    let grid_width := active_screen.grid_width
    let grid_height := active_screen.grid_height
    let padding_width := int_add active_screen.padding_left active_screen.padding_right
    let padding_height := int_add active_screen.padding_top active_screen.padding_bottom
    let chrome_width := int_sub window.vbox_request_width (int_mul char_width grid_width)
    let chrome_height := int_sub window.vbox_request_height (int_mul char_height grid_height)
    let window1 : TerminalWindow :=
      if char_width ≠ priv.old_char_width ∨
         char_height ≠ priv.old_char_height ∨
         padding_width ≠ priv.old_padding_width ∨
         padding_height ≠ priv.old_padding_height ∨
         chrome_width ≠ priv.old_chrome_width ∨
         chrome_height ≠ priv.old_chrome_height ∨
         some widget ≠ priv.old_geometry_widget then
        let hints : GdkGeometry :=
          { base_width := chrome_width
            base_height := chrome_height
            width_inc := char_width
            height_inc := char_height
            min_width := int_add chrome_width (int_mul char_width MIN_WIDTH_CHARS)
            min_height := int_add chrome_height (int_mul char_height MIN_HEIGHT_CHARS) }
        { window with
          requests := window.requests ++ [Request.set_geometry_hints hints]
          priv := { priv with old_geometry_widget := some widget } }
      else window
    { window1 with
      priv := { window1.priv with
        old_char_width := char_width
        old_char_height := char_height
        old_chrome_width := chrome_width
        old_chrome_height := chrome_height
        old_padding_width := padding_width
        old_padding_height := padding_height } }

/-- The guard at source lines 2786-2788: the window has a `GdkWindow` whose
state has the maximized or the tiled bit. -/
def maximized_or_tiled (window : TerminalWindow) : Bool :=
  match window.gdk_window with
  | none => false
  | some state =>
    decide (state &&& (GDK_WINDOW_STATE_MAXIMIZED ||| GDK_WINDOW_STATE_TILED) ≠ 0)

/-- The gravity chosen from the parse mask (source lines 2842-2848). -/
def pos_gravity_of (geom_result : Nat) : GdkGravity :=
  if geom_result &&& XNegative ≠ 0 ∧ geom_result &&& YNegative ≠ 0 then
    GdkGravity.GDK_GRAVITY_SOUTH_EAST
  else if geom_result &&& XNegative ≠ 0 then GdkGravity.GDK_GRAVITY_NORTH_EAST
  else if geom_result &&& YNegative ≠ 0 then GdkGravity.GDK_GRAVITY_SOUTH_WEST
  else GdkGravity.GDK_GRAVITY_NORTH_WEST

/-- The parse step of `terminal_window_update_size_set_geometry` (source lines
2808-2819): `geom_result` as the mask, and `force_pos_x`, `force_pos_y`,
`force_grid_width`, `force_grid_height`, all initialised to 0, after it. -/
def parse_override (geometry_string : Option (List Char)) : Geometry :=
  match geometry_string with
  | some s => terminal_window_XParseGeometry (some s) 0 0 0 0
  | none => { mask := NoValue, x := 0, y := 0, width := 0, height := 0 }

/-- The grid width used for the size (source lines 2807 and 2821-2822): the
tab's column count, replaced by `force_grid_width` when the mask has the width
bit. -/
def override_grid_width (screen : TerminalScreen) (geom : Geometry) : Int :=
  if geom.mask &&& WidthValue ≠ 0 then toInt geom.width else screen.grid_width

/-- The grid height used for the size (source lines 2807 and 2823-2824). -/
def override_grid_height (screen : TerminalScreen) (geom : Geometry) : Int :=
  if geom.mask &&& HeightValue ≠ 0 then toInt geom.height else screen.grid_height

/-- The statement `pixel_width = priv->old_chrome_width + grid_width *
priv->old_char_width` (source line 2827). -/
def pixel_width_of (priv : TerminalWindowPrivate) (grid_width : Int) : Int :=
  int_add priv.old_chrome_width (int_mul grid_width priv.old_char_width)

/-- The statement `pixel_height = priv->old_chrome_height + grid_height *
priv->old_char_height` (source line 2828). -/
def pixel_height_of (priv : TerminalWindowPrivate) (grid_height : Int) : Int :=
  int_add priv.old_chrome_height (int_mul grid_height priv.old_char_height)

/-- The final `force_pos_x` (source lines 2850-2851, 2855-2858, 2867-2868). -/
def force_pos_x_of (window : TerminalWindow) (geom : Geometry) (pixel_width : Int) : Int :=
  let pos_gravity := pos_gravity_of geom.mask
  let force_pos_x := if geom.mask &&& XValue = 0 then 0 else geom.x
  let force_pos_x :=
    if pos_gravity = GdkGravity.GDK_GRAVITY_SOUTH_EAST ∨
       pos_gravity = GdkGravity.GDK_GRAVITY_NORTH_EAST then
      int_add (int_sub window.screen_width pixel_width) force_pos_x
    else force_pos_x
  if force_pos_x < 0 then 0 else force_pos_x

/-- The final `force_pos_y` (source lines 2852-2853, 2859-2862, 2869-2870). -/
def force_pos_y_of (window : TerminalWindow) (geom : Geometry) (pixel_height : Int) : Int :=
  let pos_gravity := pos_gravity_of geom.mask
  let force_pos_y := if geom.mask &&& YValue = 0 then 0 else geom.y
  let force_pos_y :=
    if pos_gravity = GdkGravity.GDK_GRAVITY_SOUTH_WEST ∨
       pos_gravity = GdkGravity.GDK_GRAVITY_SOUTH_EAST then
      int_add (int_sub window.screen_height pixel_height) force_pos_y
    else force_pos_y
  if force_pos_y < 0 then 0 else force_pos_y

/-- The size call (source lines 2872-2875). -/
def size_request (even_if_mapped mapped : Bool) (pixel_width pixel_height : Int) : Request :=
  if even_if_mapped ∧ mapped then Request.resize pixel_width pixel_height
  else Request.set_default_size pixel_width pixel_height

/-- The gravity and move calls (source lines 2877-2881). -/
def position_requests (geom_result : Nat) (force_pos_x force_pos_y : Int) : List Request :=
  if geom_result &&& XValue ≠ 0 ∨ geom_result &&& YValue ≠ 0 then
    [Request.set_gravity (pos_gravity_of geom_result), Request.move force_pos_x force_pos_y]
  else []

/-- Embedding of `terminal_window_update_size_set_geometry (window, screen,
even_if_mapped, geometry_string)`: the returned flag and the window
afterwards.  The toplevel of `screen` is taken to be `window` itself. -/
def terminal_window_update_size_set_geometry (window : TerminalWindow)
    (screen : TerminalScreen) (even_if_mapped : Bool) (geometry_string : Option (List Char)) :
    Bool × TerminalWindow :=
  let result := true
  if maximized_or_tiled window then (result, window)
  else
    let window := terminal_window_update_geometry window
    let priv := window.priv
    let geom := parse_override geometry_string
    let geom_result := geom.mask
    let result := if geometry_string ≠ none ∧ geom_result = NoValue then false else result
    let grid_width := override_grid_width screen geom
    let grid_height := override_grid_height screen geom
    let pixel_width := pixel_width_of priv grid_width
    let pixel_height := pixel_height_of priv grid_height
    let force_pos_x := force_pos_x_of window geom pixel_width
    let force_pos_y := force_pos_y_of window geom pixel_height
    (result,
      { window with
        requests := window.requests ++
          size_request even_if_mapped window.mapped pixel_width pixel_height ::
            position_requests geom_result force_pos_x force_pos_y })

/-- Embedding of `terminal_window_update_size (window, screen, even_if_mapped)`. -/
def terminal_window_update_size (window : TerminalWindow) (screen : TerminalScreen)
    (even_if_mapped : Bool) : TerminalWindow :=
  (terminal_window_update_size_set_geometry window screen even_if_mapped none).2

/-- The mask of a string with all four components. -/
def fullMask (xneg yneg : Bool) : Nat :=
  (((((NoValue ||| WidthValue) ||| HeightValue) ||| (if xneg then XNegative else 0)) ||| XValue)
    ||| (if yneg then YNegative else 0)) ||| YValue

/-- The locals with one more character at the end of the text under `strind`. -/
def appendChar (c : Char) (l : Locals) : Locals := { l with strind := l.strind ++ [c] }

/-- A tab of 80x24 cells of 10x20 pixels, used in the instances below. -/
def exampleScreen : TerminalScreen :=
  { widget := 1, grid_width := 80, grid_height := 24, char_width := 10, char_height := 20
    padding_left := 1, padding_right := 1, padding_top := 1, padding_bottom := 1 }

/-- A freshly initialised window (caches at -1 as set by `terminal_window_init`)
showing `exampleScreen`, not yet realized or mapped, whose content area requests
850x520 pixels on a 1920x1080 screen. -/
def exampleWindow : TerminalWindow :=
  { priv :=
      { active_screen := some exampleScreen
        old_char_width := -1, old_char_height := -1
        old_chrome_width := -1, old_chrome_height := -1
        old_padding_width := -1, old_padding_height := -1
        old_geometry_widget := none }
    gdk_window := none, mapped := false
    vbox_request_width := 850, vbox_request_height := 520
    screen_width := 1920, screen_height := 1080
    requests := [] }

/-- The masks `terminal_window_XParseGeometry` can build: width and height
bits freely, then nothing, x, or x with y, a negative bit only with its value
bit. -/
def validMasks : List Nat :=
  [0, 1, 3, 17, 19, 35, 51, 4, 5, 7, 21, 23, 39, 55, 8, 9, 11, 25, 27, 43, 59,
   12, 13, 15, 29, 31, 47, 63]

/-- The window position after a list of toolkit calls, starting from `pos`:
`gtk_window_move (x, y)` places the window at `(x, y)`, the other calls leave
the position alone. -/
def position_after (pos : Int × Int) : List Request → Int × Int
  | [] => pos
  | Request.move x y :: rs => position_after (x, y) rs
  | Request.set_geometry_hints _ :: rs => position_after pos rs
  | Request.resize _ _ :: rs => position_after pos rs
  | Request.set_default_size _ _ :: rs => position_after pos rs
  | Request.set_gravity _ :: rs => position_after pos rs

/-- A tab of 80x24 cells of 10x25 pixels. -/
def wideScreen : TerminalScreen :=
  { widget := 2, grid_width := 80, grid_height := 24, char_width := 10, char_height := 25
    padding_left := 0, padding_right := 0, padding_top := 0, padding_bottom := 0 }

/-- A fresh window showing `wideScreen` with no chrome (the content area
requests 800x600 pixels) on a 1920x1080 screen. -/
def wideWindow : TerminalWindow :=
  { priv :=
      { active_screen := some wideScreen
        old_char_width := -1, old_char_height := -1
        old_chrome_width := -1, old_chrome_height := -1
        old_padding_width := -1, old_padding_height := -1
        old_geometry_widget := none }
    gdk_window := none, mapped := false
    vbox_request_width := 800, vbox_request_height := 600
    screen_width := 1920, screen_height := 1080
    requests := [] }

/-! ## The hint refresh in closed form and its always-emitting variant -/

/-- The value `padding.left + padding.right` of the hint refresh. -/
def padding_width_of (a : TerminalScreen) : Int := int_add a.padding_left a.padding_right

/-- The value `padding.top + padding.bottom` of the hint refresh. -/
def padding_height_of (a : TerminalScreen) : Int := int_add a.padding_top a.padding_bottom

/-- The value `chrome_width` of the hint refresh (source line 3394). -/
def chrome_width_of (window : TerminalWindow) (a : TerminalScreen) : Int :=
  int_sub window.vbox_request_width (int_mul a.char_width a.grid_width)

/-- The value `chrome_height` of the hint refresh (source line 3395). -/
def chrome_height_of (window : TerminalWindow) (a : TerminalScreen) : Int :=
  int_sub window.vbox_request_height (int_mul a.char_height a.grid_height)

/-- The hints built at source lines 3411-3422 from chrome and cell size. -/
def geometry_hints_of (chrome_width chrome_height char_width char_height : Int) : GdkGeometry :=
  { base_width := chrome_width
    base_height := chrome_height
    width_inc := char_width
    height_inc := char_height
    min_width := int_add chrome_width (int_mul char_width MIN_WIDTH_CHARS)
    min_height := int_add chrome_height (int_mul char_height MIN_HEIGHT_CHARS) }

/-- The condition of source lines 3403-3409 for the active tab `a`: a computed
value differs from its cached one. -/
def hints_changed (window : TerminalWindow) (a : TerminalScreen) : Prop :=
  a.char_width ≠ window.priv.old_char_width ∨
  a.char_height ≠ window.priv.old_char_height ∨
  padding_width_of a ≠ window.priv.old_padding_width ∨
  padding_height_of a ≠ window.priv.old_padding_height ∨
  chrome_width_of window a ≠ window.priv.old_chrome_width ∨
  chrome_height_of window a ≠ window.priv.old_chrome_height ∨
  some a.widget ≠ window.priv.old_geometry_widget

instance (window : TerminalWindow) (a : TerminalScreen) : Decidable (hints_changed window a) := by
  unfold hints_changed; infer_instance

/-- The hints in force on the window after a list of toolkit calls: those of
the last `gtk_window_set_geometry_hints`, if any. -/
def hints_in_force (requests : List Request) : Option GdkGeometry :=
  requests.foldl
    (fun acc r =>
      match r with
      | Request.set_geometry_hints hints => some hints
      | _ => acc)
    none

/-- What one call of `terminal_window_update_geometry` reads from the window and
the toolkit: the active tab and the preferred size of the content area. -/
structure GeometryInputs where
  active_screen : Option TerminalScreen
  vbox_request_width : Int
  vbox_request_height : Int
deriving DecidableEq, Repr

/-- The window with the inputs of the next hint refresh in place. -/
def set_inputs (window : TerminalWindow) (i : GeometryInputs) : TerminalWindow :=
  { window with
    priv := { window.priv with active_screen := i.active_screen }
    vbox_request_width := i.vbox_request_width
    vbox_request_height := i.vbox_request_height }

/-- The comparison variant of the hint refresh, which emits hints on every call
with an active tab: `terminal_window_update_geometry` without the test of
source lines 3403-3409. -/
def update_geometry_always_emit (window : TerminalWindow) : TerminalWindow :=
  match window.priv.active_screen with
  | none => window
  | some a =>
    { window with
      requests := window.requests ++
        [Request.set_geometry_hints
          (geometry_hints_of (chrome_width_of window a) (chrome_height_of window a)
            a.char_width a.char_height)]
      priv :=
        { active_screen := window.priv.active_screen
          old_char_width := a.char_width
          old_char_height := a.char_height
          old_chrome_width := chrome_width_of window a
          old_chrome_height := chrome_height_of window a
          old_padding_width := padding_width_of a
          old_padding_height := padding_height_of a
          old_geometry_widget := some a.widget } }

/-- A sequence of hint refreshes, each with its own inputs. -/
def run_update_geometry (window : TerminalWindow) (inputs : List GeometryInputs) :
    TerminalWindow :=
  inputs.foldl (fun w i => terminal_window_update_geometry (set_inputs w i)) window

/-- The same sequence run with the always-emitting variant. -/
def run_update_geometry_always_emit (window : TerminalWindow) (inputs : List GeometryInputs) :
    TerminalWindow :=
  inputs.foldl (fun w i => update_geometry_always_emit (set_inputs w i)) window

/-- The geometry caches as `terminal_window_init` leaves them (source lines
2245-2253): every cached size -1 and no cached widget. -/
def freshly_initialised (window : TerminalWindow) : Prop :=
  window.priv.old_char_width = -1 ∧ window.priv.old_char_height = -1 ∧
  window.priv.old_chrome_width = -1 ∧ window.priv.old_chrome_height = -1 ∧
  window.priv.old_padding_width = -1 ∧ window.priv.old_padding_height = -1 ∧
  window.priv.old_geometry_widget = none

instance (window : TerminalWindow) : Decidable (freshly_initialised window) := by
  unfold freshly_initialised; infer_instance

/-- Inputs of a hint refresh showing `exampleScreen` in a content area of
850x520 pixels. -/
def exampleInputs : GeometryInputs :=
  { active_screen := some exampleScreen, vbox_request_width := 850, vbox_request_height := 520 }

/-! ## Tabs: the notebook, its actions and the tab handlers -/

/-- A window with the state the tab handlers work on, besides the geometry state
of `TerminalWindow`: the `disposed`, `present_on_insert`, `menubar_visible` and
`use_default_menubar_visibility` bits of `struct _TerminalWindowPrivate`;
whether `gtk_widget_destroy` has been called on the window; what the notebook
reports (`gtk_notebook_get_n_pages`, `gtk_notebook_get_current_page`) and its
show-tabs property; and the visibility of the `Tabs` action and the
sensitivity of the tab actions.  Window titles and the copy, zoom, search,
encoding and profile menu items are not part of this state.  During a handler
`vbox_request_*` is what the toolkit reports when the handler's size negotiation
asks for it. -/
structure TabbedWindow extends TerminalWindow where
  disposed : Bool
  destroyed : Bool
  present_on_insert : Bool
  menubar_visible : Bool
  use_default_menubar_visibility : Bool
  n_pages : Nat
  current_page : Int
  show_tabs : Bool
  tabs_visible : Bool
  tabs_previous_sensitive : Bool
  tabs_next_sensitive : Bool
  tabs_move_left_sensitive : Bool
  tabs_move_right_sensitive : Bool
  tabs_detach_sensitive : Bool
  file_close_tab_sensitive : Bool
deriving DecidableEq, Repr

/-- Embedding of `terminal_window_update_tabs_menu_sensitivity (window)`. -/
def terminal_window_update_tabs_menu_sensitivity (window : TabbedWindow) : TabbedWindow :=
  if window.disposed then window
  else
    let num_pages : Int := window.n_pages
    let page_num : Int := window.current_page
    let not_first : Bool := decide (page_num > 0)
    let not_last : Bool := decide (int_add page_num 1 < num_pages)
    { window with
      tabs_visible := decide (num_pages > 1)
      tabs_previous_sensitive := decide (num_pages > 1)
      tabs_next_sensitive := decide (num_pages > 1)
      tabs_move_left_sensitive := not_first
      tabs_move_right_sensitive := not_last
      tabs_detach_sensitive := decide (num_pages > 1)
      file_close_tab_sensitive := decide (num_pages > 1) }

/-- Embedding of `update_tab_visibility (window, change)`.  `num` is a `guint`,
so `num + change` is computed in `unsigned int` and compared with 1 there. -/
def update_tab_visibility (window : TabbedWindow) (change : Int) : TabbedWindow :=
  let num : Nat := toUInt window.n_pages
  let show_tabs : Bool := decide (toUInt ((num : Int) + change) > 1)
  { window with show_tabs := show_tabs }

/-- Embedding of `handle_tab_droped_on_desktop`: the source window and the
window `new_window` that `terminal_app_new_window` returned, afterwards. -/
def handle_tab_droped_on_desktop (source_window new_window : TabbedWindow) :
    TabbedWindow × TabbedWindow :=
  let new_window := { new_window with present_on_insert := true }
  (update_tab_visibility source_window (-1), update_tab_visibility new_window 1)

/-- Embedding of `terminal_window_set_menubar_visible (window, setting)`. -/
def terminal_window_set_menubar_visible (window : TabbedWindow) (setting : Bool) :
    TabbedWindow :=
  let window := { window with use_default_menubar_visibility := false }
  if setting = window.menubar_visible then window
  else
    let window := { window with menubar_visible := setting }
    match window.priv.active_screen with
    | some active_screen =>
      { window with
        toTerminalWindow :=
          terminal_window_update_size window.toTerminalWindow active_screen true }
    | none => window

/-- What `vte_terminal_set_size (screen, columns, rows)` does to a tab. -/
def vte_terminal_set_size (screen : TerminalScreen) (columns rows : Int) : TerminalScreen :=
  { screen with grid_width := columns, grid_height := rows }

/-- Embedding of `notebook_page_selected_callback` for the page holding `screen`:
the window and the tab afterwards.  `default_show_menubar` is the
default-show-menubar setting of the profile of `screen`.  The comparison
`priv->active_screen == screen` is a comparison of widget identities. -/
def notebook_page_selected_callback (window : TabbedWindow) (screen : TerminalScreen)
    (default_show_menubar : Bool) : TabbedWindow × TerminalScreen :=
  if window.disposed then (window, screen)
  else if window.priv.active_screen.map TerminalScreen.widget = some screen.widget then
    (window, screen)
  else
    let screen :=
      match window.priv.active_screen with
      | some active_screen =>
        vte_terminal_set_size screen active_screen.grid_width active_screen.grid_height
      | none => screen
    let window : TabbedWindow :=
      { window with priv := { window.priv with active_screen := some screen } }
    let window :=
      if window.use_default_menubar_visibility then
        terminal_window_set_menubar_visible window default_show_menubar
      else window
    let window : TabbedWindow :=
      { window with
        toTerminalWindow := terminal_window_update_size window.toTerminalWindow screen true }
    let window := terminal_window_update_tabs_menu_sensitivity window
    (window, screen)

/-- The call `terminal_window_update_size (window, priv->active_screen, TRUE)`.
With no active tab the call passes a NULL screen: a maximized or tiled window
returns before the screen is used, otherwise the grid is read through the NULL
pointer and the result is `none`. -/
def update_size_for_active (window : TerminalWindow) : Option TerminalWindow :=
  match window.priv.active_screen with
  | some active_screen => some (terminal_window_update_size window active_screen true)
  | none => if maximized_or_tiled window then some window else none

/-- Embedding of `notebook_page_removed_callback`, run after the notebook has
dropped the page, so that `n_pages` is the number of remaining tabs. -/
def notebook_page_removed_callback (window : TabbedWindow) : Option TabbedWindow :=
  if window.disposed then some window
  else
    let window := terminal_window_update_tabs_menu_sensitivity window
    let window := update_tab_visibility window 0
    let pages : Int := window.n_pages
    if pages = 1 then
      (update_size_for_active window.toTerminalWindow).map
        fun w => { window with toTerminalWindow := w }
    else if pages = 0 then some { window with destroyed := true }
    else some window

/-- A live window around `exampleWindow` with `n` tabs, the first one current,
as left by `terminal_window_init`: tab bar hidden, menubar shown and still on
its default. -/
def exampleTabbedWindow (n : Nat) : TabbedWindow :=
  { toTerminalWindow := exampleWindow
    disposed := false, destroyed := false, present_on_insert := false
    menubar_visible := true, use_default_menubar_visibility := true
    n_pages := n, current_page := 0, show_tabs := false
    tabs_visible := false
    tabs_previous_sensitive := false, tabs_next_sensitive := false
    tabs_move_left_sensitive := false, tabs_move_right_sensitive := false
    tabs_detach_sensitive := false, file_close_tab_sensitive := false }

/-- A second tab, of 100x30 cells of 9x18 pixels. -/
def otherScreen : TerminalScreen :=
  { widget := 7, grid_width := 100, grid_height := 30, char_width := 9, char_height := 18
    padding_left := 1, padding_right := 1, padding_top := 1, padding_bottom := 1 }

/-! ## The saved geometry string -/

/-- The text that `printf` writes for a `%d` conversion of the `int` `z`. -/
def formatInt (z : Int) : List Char :=
  if z < 0 then '-' :: Nat.toDigits 10 z.natAbs else Nat.toDigits 10 z.natAbs

/-- The geometry string that `terminal_window_save_state` writes for the active
tab (source lines 4497-4502): `g_strdup_printf ("%dx%d+%d+%d", w, h, x, y)`, with
`w`, `h` from `terminal_screen_get_size` and `x`, `y` from
`gtk_window_get_position`. -/
def save_state_geometry (w h x y : Int) : List Char :=
  formatInt w ++ 'x' :: (formatInt h ++ '+' :: (formatInt x ++ '+' :: formatInt y))

/-! ## The close flow: the notebook, its tabs and the confirmation dialog -/

/-- A tab as the close flow sees it: the identity of its `TerminalScreen` and
what `terminal_screen_has_foreground_process` answers for it. -/
structure Tab where
  screen : Nat
  has_foreground_process : Bool
deriving DecidableEq, Repr

/-- The three texts `confirm_close_window_or_tab` puts in `description_text`:
processes running in some terminals of the window, a process running in this
terminal, multiple tabs open in this window. -/
inductive ConfirmMessage where
  | processes_in_window
  | process_in_terminal
  | multiple_tabs
deriving DecidableEq, Repr

/-- A confirm-close dialog: the object the builder returned (`id`), its
`"close-screen"` data, whether it asks `Close this window?` (otherwise
`Close this terminal?`), and its description text. -/
structure ConfirmDialog where
  id : Nat
  close_screen : Option Nat
  close_window_question : Bool
  description_text : ConfirmMessage
deriving DecidableEq, Repr

/-- The notebook of a window: its pages in order, the index of the current page
(-1 when there is none) and the show-tabs property. -/
structure GtkNotebook where
  pages : List Tab
  current_page : Int
  show_tabs : Bool
deriving DecidableEq, Repr

/-- The state of a live window that the close flow and the tab keys work on: the
notebook, whether `gtk_widget_destroy` has been called on the window,
`priv->confirm_close_dialog`, the confirm-close dialogs that exist, how many
dialogs the builder has made so far (the next dialog is a new object), and the
file's `detach_tab` flag. -/
structure NotebookWindow where
  notebook : GtkNotebook
  destroyed : Bool
  confirm_close_dialog : Option Nat
  dialogs : List ConfirmDialog
  dialogs_created : Nat
  detach_tab : Bool
deriving DecidableEq, Repr

def GTK_RESPONSE_ACCEPT : Int := -3
def GTK_RESPONSE_DELETE_EVENT : Int := -4
def GTK_RESPONSE_CANCEL : Int := -6
def GDK_CONTROL_MASK : Nat := 4
def GDK_KEY_Tab : Nat := 0xff09
def GDK_KEY_ISO_Left_Tab : Nat := 0xfe20

/-- What `gtk_notebook_get_n_pages` returns, a `gint`. -/
def gtk_notebook_get_n_pages (notebook : GtkNotebook) : Int :=
  toInt notebook.pages.length

/-- What `gtk_notebook_page_num` returns for the page holding `screen`: its
index, or -1 when the notebook has no such page. -/
def gtk_notebook_page_num (notebook : GtkNotebook) (screen : Nat) : Int :=
  match notebook.pages.findIdx? (fun t => t.screen == screen) with
  | some i => (i : Int)
  | none => -1

/-- What `gtk_notebook_set_current_page (notebook, page_num)` does: a negative
`page_num` stands for the last page, and an index with no page changes nothing. -/
def gtk_notebook_set_current_page (notebook : GtkNotebook) (page_num : Int) : GtkNotebook :=
  let index : Int := if page_num < 0 then (notebook.pages.length : Int) - 1 else page_num
  if 0 ≤ index ∧ index < notebook.pages.length then { notebook with current_page := index }
  else notebook

/-- What `gtk_notebook_next_page` does: nothing on the last page. -/
def gtk_notebook_next_page (notebook : GtkNotebook) : GtkNotebook :=
  if 0 ≤ notebook.current_page ∧ notebook.current_page + 1 < notebook.pages.length then
    { notebook with current_page := notebook.current_page + 1 }
  else notebook

/-- What `gtk_notebook_prev_page` does: nothing on the first page. -/
def gtk_notebook_prev_page (notebook : GtkNotebook) : GtkNotebook :=
  if 0 < notebook.current_page ∧ notebook.current_page < notebook.pages.length then
    { notebook with current_page := notebook.current_page - 1 }
  else notebook

/-- What `gtk_notebook_remove_page (notebook, page_num)` does to the notebook: a
negative `page_num` stands for the last page, and an index with no page changes
nothing.  The pages after the removed one move down by one, so the current page
keeps its tab when another page goes; when the current page itself goes the
toolkit makes a neighbour current, the next one first if `prefer_next` and the
previous one first otherwise. -/
def gtk_notebook_remove_page (prefer_next : Bool) (notebook : GtkNotebook) (page_num : Int) :
    GtkNotebook :=
  let n : Int := notebook.pages.length
  let index : Int := if page_num < 0 then n - 1 else page_num
  if 0 ≤ index ∧ index < n then
    let current_page : Int :=
      if notebook.current_page = index then
        if prefer_next then (if index + 1 < n then index else index - 1)
        else (if 0 < index then index - 1 else if 1 < n then 0 else -1)
      else if index < notebook.current_page then notebook.current_page - 1
      else notebook.current_page
    { notebook with pages := notebook.pages.eraseIdx index.toNat, current_page := current_page }
  else notebook

/-- The tab `priv->active_screen` stands for in a live window: the tab of the
current page, which `notebook_page_selected_callback` records on every switch. -/
def active_screen_of (window : NotebookWindow) : Option Tab :=
  if 0 ≤ window.notebook.current_page then
    window.notebook.pages[window.notebook.current_page.toNat]?
  else none

/-- The function `update_tab_visibility (window, change)` on this state: `num`
is a `guint`, so `num + change` is computed in `unsigned int`. -/
def notebook_update_tab_visibility (window : NotebookWindow) (change : Int) : NotebookWindow :=
  let num : Nat := toUInt window.notebook.pages.length
  let show_tabs : Bool := decide (toUInt ((num : Int) + change) > 1)
  { window with notebook := { window.notebook with show_tabs := show_tabs } }

/-- What `notebook_page_removed_callback` does to this state once a page has
left the notebook: the tab bar follows the number of pages that remain, and the
window is destroyed when none remains. -/
def notebook_page_removed (window : NotebookWindow) : NotebookWindow :=
  let window := notebook_update_tab_visibility window 0
  let pages : Int := gtk_notebook_get_n_pages window.notebook
  if pages = 0 then { window with destroyed := true } else window

/-- The removal of the page at `page_num` together with the `page-removed`
signal the notebook emits when a page has in fact left. -/
def remove_page_and_notify (prefer_next : Bool) (window : NotebookWindow) (page_num : Int) :
    NotebookWindow :=
  let notebook := gtk_notebook_remove_page prefer_next window.notebook page_num
  if notebook.pages.length < window.notebook.pages.length then
    notebook_page_removed { window with notebook := notebook }
  else window

/-- Embedding of `terminal_window_remove_screen (window, screen)`.  The
`g_return_if_fail` holds exactly for a screen inside this window, that is one
held by a page of its notebook.  `gtk_notebook_detach_tab` and
`gtk_container_remove` both take the page out of the notebook. -/
def terminal_window_remove_screen (prefer_next : Bool) (window : NotebookWindow)
    (screen : Nat) : NotebookWindow :=
  if gtk_notebook_page_num window.notebook screen < 0 then window
  else
    let window := notebook_update_tab_visibility window (-1)
    let window : NotebookWindow := { window with detach_tab := false }
    remove_page_and_notify prefer_next window (gtk_notebook_page_num window.notebook screen)

/-- The loop of source lines 3575-3583 over the tabs not yet visited;
`has_processes` is `none` while the variable has not been assigned. -/
def has_processes_loop : Option Bool → List Tab → Option Bool
  | has_processes, [] => has_processes
  | _, t :: ts =>
    if t.has_foreground_process then some true else has_processes_loop (some false) ts

/-- Source lines 3563-3585 of `confirm_close_window_or_tab`: the values of
`has_processes` and `n_tabs` when the message is chosen. -/
def close_probe (window : NotebookWindow) (screen : Option Tab) : Option Bool × Int :=
  match screen with
  | some s => (some s.has_foreground_process, 1)
  | none => (has_processes_loop none window.notebook.pages, toInt window.notebook.pages.length)

/-- Embedding of `confirm_close_window_or_tab (window, screen)`, with the
`confirm-window-close` setting as a parameter: the returned `gboolean` and the
window afterwards.  `screen = none` is the NULL of a window close.  The result is
`none` when `has_processes` is read without having been assigned, which happens
only for a window close on a window with no tab. -/
def confirm_close_window_or_tab (confirm_window_close : Bool) (window : NotebookWindow)
    (screen : Option Tab) : Option (Bool × NotebookWindow) :=
  if !confirm_window_close then some (false, window)
  else
    match (close_probe window screen).1 with
    | none => none
    | some has_processes =>
      let n_tabs : Int := (close_probe window screen).2
      let confirm_msg : Option ConfirmMessage :=
        if has_processes then
          (if n_tabs > 1 then some ConfirmMessage.processes_in_window
           else some ConfirmMessage.process_in_terminal)
        else if n_tabs > 1 then some ConfirmMessage.multiple_tabs
        else none
      match confirm_msg with
      | none => some (false, window)
      | some msg =>
        let dialog : ConfirmDialog :=
          { id := window.dialogs_created
            close_screen := screen.map Tab.screen
            close_window_question := decide (n_tabs > 1)
            description_text := msg }
        some (true,
          { window with
            confirm_close_dialog := some dialog.id
            dialogs := window.dialogs ++ [dialog]
            dialogs_created := window.dialogs_created + 1 })

/-- What `gtk_widget_destroy (dialog)` does: the dialog is gone, and its
`destroy` handler `gtk_widget_destroyed` clears `priv->confirm_close_dialog`. -/
def destroy_dialog (window : NotebookWindow) (dialog : ConfirmDialog) : NotebookWindow :=
  { window with
    dialogs := window.dialogs.filter (fun d => d.id != dialog.id)
    confirm_close_dialog := none }

/-- Embedding of `confirm_close_response_cb (dialog, response, window)`. -/
def confirm_close_response_cb (prefer_next : Bool) (dialog : ConfirmDialog) (response : Int)
    (window : NotebookWindow) : NotebookWindow :=
  let screen := dialog.close_screen
  let window := destroy_dialog window dialog
  if response ≠ GTK_RESPONSE_ACCEPT then window
  else
    match screen with
    | some screen => terminal_window_remove_screen prefer_next window screen
    | none => { window with destroyed := true }

/-- The tabs a close request affects, in the words of the specification: the
single given tab for a tab close, all tabs of the window for a window close. -/
def affected_tabs (window : NotebookWindow) (screen : Option Tab) : List Tab :=
  match screen with
  | some s => [s]
  | none => window.notebook.pages

/-- Source lines 2936-2942 of `notebook_button_press_cb`: the close of the
clicked tab, which is the active one by now, unless
`confirm_close_window_or_tab` defers it. -/
def close_clicked_tab (confirm_window_close prefer_next : Bool) (window : NotebookWindow)
    (tab_clicked : Int) : Option NotebookWindow :=
  match confirm_close_window_or_tab confirm_window_close window (active_screen_of window) with
  | none => none
  | some (deferred, window) =>
    if !deferred then
      some (remove_page_and_notify prefer_next (notebook_update_tab_visibility window (-1))
        tab_clicked)
    else some window

/-- Source lines 2944-2953 of `notebook_button_press_cb`: the page made current
after the close attempt. -/
def restore_current_page (notebook : GtkNotebook) (before_pages page_num tab_clicked : Int) :
    GtkNotebook :=
  let later_pages := gtk_notebook_get_n_pages notebook
  if before_pages > later_pages then
    if tab_clicked > page_num then gtk_notebook_set_current_page notebook page_num
    else if tab_clicked < page_num then
      gtk_notebook_set_current_page notebook (int_sub page_num 1)
    else notebook
  else gtk_notebook_set_current_page notebook page_num

/-- Embedding of `notebook_button_press_cb` for a press of button 2 (source
lines 2925-2956; for such an event the rest of the handler returns FALSE at its
first test).  `tab_clicked` is what `find_tab_num_at_pos` returned. -/
def notebook_button_press_cb (middle_click_closes_tabs confirm_window_close prefer_next : Bool)
    (window : NotebookWindow) (tab_clicked : Int) : Option NotebookWindow :=
  if middle_click_closes_tabs = true ∧ tab_clicked ≥ 0 then
    let before_pages := gtk_notebook_get_n_pages window.notebook
    let page_num := window.notebook.current_page
    let window : NotebookWindow :=
      { window with notebook := gtk_notebook_set_current_page window.notebook tab_clicked }
    (close_clicked_tab confirm_window_close prefer_next window tab_clicked).map fun window =>
      { window with
        notebook := restore_current_page window.notebook before_pages page_num tab_clicked }
  else some window

/-- Embedding of `window_key_press_cb`, with the `ctrl-tab-switch-tabs` setting
as a parameter and `state`, `keyval` from the key event: the returned `gboolean`
and the window afterwards. -/
def window_key_press_cb (ctrl_tab_switch_tabs : Bool) (state keyval : Nat)
    (window : NotebookWindow) : Bool × NotebookWindow :=
  if ctrl_tab_switch_tabs = true ∧ state &&& GDK_CONTROL_MASK ≠ 0 then
    let pages := gtk_notebook_get_n_pages window.notebook
    let page_num := window.notebook.current_page
    if keyval = GDK_KEY_ISO_Left_Tab then
      if page_num ≠ 0 then
        (true, { window with notebook := gtk_notebook_prev_page window.notebook })
      else
        (true, { window with
                 notebook := gtk_notebook_set_current_page window.notebook (int_sub pages 1) })
    else if keyval = GDK_KEY_Tab then
      if page_num ≠ int_sub pages 1 then
        (true, { window with notebook := gtk_notebook_next_page window.notebook })
      else
        (true, { window with notebook := gtk_notebook_set_current_page window.notebook 0 })
    else (false, window)
  else (false, window)

/-- A live window with the given tabs, the page `current_page` current and no
dialog so far. -/
def exampleNotebookWindow (pages : List Tab) (current_page : Int) : NotebookWindow :=
  { notebook :=
      { pages := pages, current_page := current_page, show_tabs := decide (pages.length > 1) }
    destroyed := false, confirm_close_dialog := none, dialogs := [], dialogs_created := 0
    detach_tab := false }

/-- Three idle tabs with the screens 10, 11 and 12. -/
def idleTabs : List Tab := [⟨10, false⟩, ⟨11, false⟩, ⟨12, false⟩]

/-- Three tabs, the middle one with a foreground process. -/
def busyTabs : List Tab := [⟨10, false⟩, ⟨11, true⟩, ⟨12, false⟩]

/-! ## Actions on the active tab -/

/-- A call on the terminal or screen of the active tab.  `Scale` stands for the
`double` of a font scale. -/
inductive TerminalCall (Scale : Type) where
  | set_font_scale (scale : Scale)
  | set_profile (profile : Nat)
  | search_find_next
  | search_find_previous
  | search_set_regex_null

/-- The window as the menu actions see it: the geometry state with
`priv->active_screen` and the toolkit requests, the calls made on the terminal
of the active tab so far (oldest first), and the sensitivity of the `ViewZoomIn`
and `ViewZoomOut` actions. -/
structure ActionWindow (Scale : Type) extends TerminalWindow where
  terminal_calls : List (TerminalCall Scale)
  zoom_in_sensitive : Bool
  zoom_out_sensitive : Bool

/-- Embedding of `terminal_size_to_cb`; `width` and `height` are the two `guint`
read from the name of the action. -/
def terminal_size_to_cb {Scale : Type} (width height : Nat) (window : ActionWindow Scale) :
    ActionWindow Scale :=
  match window.priv.active_screen with
  | none => window
  | some active_screen =>
    let active_screen := vte_terminal_set_size active_screen width height
    let window : ActionWindow Scale :=
      { window with priv := { window.priv with active_screen := some active_screen } }
    { window with
      toTerminalWindow := terminal_window_update_size window.toTerminalWindow active_screen true }

/-- Embedding of `terminal_window_update_zoom_sensitivity`.  The searches in the
table of zoom factors compare `double`s and are parameters; `current` is what
`terminal_screen_get_font_scale` answers for the active tab. -/
def terminal_window_update_zoom_sensitivity {Scale : Type}
    (find_larger_zoom_factor find_smaller_zoom_factor : Scale → Option Scale)
    (current : Scale) (window : ActionWindow Scale) : ActionWindow Scale :=
  match window.priv.active_screen with
  | none => window
  | some _ =>
    { window with
      zoom_out_sensitive := (find_smaller_zoom_factor current).isSome
      zoom_in_sensitive := (find_larger_zoom_factor current).isSome }

/-- Embedding of `view_zoom_in_callback`. -/
def view_zoom_in_callback {Scale : Type}
    (find_larger_zoom_factor find_smaller_zoom_factor : Scale → Option Scale)
    (current : Scale) (window : ActionWindow Scale) : ActionWindow Scale :=
  match window.priv.active_screen with
  | none => window
  | some _ =>
    match find_larger_zoom_factor current with
    | none => window
    | some current =>
      terminal_window_update_zoom_sensitivity find_larger_zoom_factor find_smaller_zoom_factor
        current
        { window with
          terminal_calls := window.terminal_calls ++ [TerminalCall.set_font_scale current] }

/-- Embedding of `view_zoom_out_callback`. -/
def view_zoom_out_callback {Scale : Type}
    (find_larger_zoom_factor find_smaller_zoom_factor : Scale → Option Scale)
    (current : Scale) (window : ActionWindow Scale) : ActionWindow Scale :=
  match window.priv.active_screen with
  | none => window
  | some _ =>
    match find_smaller_zoom_factor current with
    | none => window
    | some current =>
      terminal_window_update_zoom_sensitivity find_larger_zoom_factor find_smaller_zoom_factor
        current
        { window with
          terminal_calls := window.terminal_calls ++ [TerminalCall.set_font_scale current] }

/-- Embedding of `view_zoom_normal_callback`; `medium` is `PANGO_SCALE_MEDIUM`. -/
def view_zoom_normal_callback {Scale : Type}
    (find_larger_zoom_factor find_smaller_zoom_factor : Scale → Option Scale)
    (medium : Scale) (window : ActionWindow Scale) : ActionWindow Scale :=
  match window.priv.active_screen with
  | none => window
  | some _ =>
    terminal_window_update_zoom_sensitivity find_larger_zoom_factor find_smaller_zoom_factor
      medium
      { window with
        terminal_calls := window.terminal_calls ++ [TerminalCall.set_font_scale medium] }

/-- Embedding of `search_find_next_callback`. -/
def search_find_next_callback {Scale : Type} (window : ActionWindow Scale) :
    ActionWindow Scale :=
  match window.priv.active_screen with
  | none => window
  | some _ =>
    { window with terminal_calls := window.terminal_calls ++ [TerminalCall.search_find_next] }

/-- Embedding of `search_find_prev_callback`. -/
def search_find_prev_callback {Scale : Type} (window : ActionWindow Scale) :
    ActionWindow Scale :=
  match window.priv.active_screen with
  | none => window
  | some _ =>
    { window with
      terminal_calls := window.terminal_calls ++ [TerminalCall.search_find_previous] }

/-- Embedding of `search_clear_highlight_callback`. -/
def search_clear_highlight_callback {Scale : Type} (window : ActionWindow Scale) :
    ActionWindow Scale :=
  match window.priv.active_screen with
  | none => window
  | some _ =>
    { window with
      terminal_calls := window.terminal_calls ++ [TerminalCall.search_set_regex_null] }

/-- Embedding of `terminal_set_profile_toggled_callback`: `action_active` is
`gtk_toggle_action_get_active`, `profile` the profile stored on the action and
`forgotten` what `_terminal_profile_get_forgotten` answers for it. -/
def terminal_set_profile_toggled_callback {Scale : Type} (action_active : Bool) (profile : Nat)
    (forgotten : Bool) (window : ActionWindow Scale) : ActionWindow Scale :=
  if !action_active then window
  else
    match window.priv.active_screen with
    | none => window
    | some _ =>
      if forgotten then window
      else
        { window with
          terminal_calls := window.terminal_calls ++ [TerminalCall.set_profile profile] }

/-- The profile `terminal_next_or_previous_profile_cb` picks (source lines
4150-4171): the neighbour of the first occurrence of `active_profile` in the
list, wrapping at either end; none when the list does not hold it. -/
def next_or_previous_profile (profiles : List Nat) (active_profile : Nat) (backwards : Bool) :
    Option Nat :=
  match profiles.indexOf? active_profile with
  | none => none
  | some i =>
    if backwards then
      (if i = 0 then profiles.getLast? else profiles[i - 1]?)
    else
      (if i + 1 < profiles.length then profiles[i + 1]? else profiles.head?)

/-- Embedding of `terminal_next_or_previous_profile_cb`: `profiles` is the list
from `terminal_app_get_profile_list`, `active_profile` what
`terminal_screen_get_profile` answers for the active tab, `backwards` whether the
action is `ProfilePrevious`. -/
def terminal_next_or_previous_profile_cb {Scale : Type} (profiles : List Nat)
    (active_profile : Nat) (backwards : Bool) (window : ActionWindow Scale) :
    ActionWindow Scale :=
  if profiles = [] then window
  else
    match window.priv.active_screen with
    | none => window
    | some _ =>
      match next_or_previous_profile profiles active_profile backwards with
      | some new_profile =>
        { window with
          terminal_calls := window.terminal_calls ++ [TerminalCall.set_profile new_profile] }
      | none => window

/-- The window `exampleWindow` with the given active tab, no terminal call so
far and both zoom actions sensitive. -/
def exampleActionWindow (active_screen : Option TerminalScreen) : ActionWindow Nat :=
  { toTerminalWindow :=
      { exampleWindow with priv := { exampleWindow.priv with active_screen := active_screen } }
    terminal_calls := [], zoom_in_sensitive := true, zoom_out_sensitive := true }

/-! ## Theorems: reading integers -/

theorem toInt_of_range {z : Int} (h0 : -2147483648 ≤ z) (h1 : z < 2147483648) : toInt z = z := by
  unfold toInt; omega

theorem deref_cons (c : Char) (cs : List Char) : deref (c :: cs) = c := rfl

theorem deref_nil : deref [] = Char.ofNat 0 := rfl

theorem not_isDigit_nul : ¬ IsDigit (Char.ofNat 0) := by decide

theorem IsDigit.ne_plus {c : Char} (h : IsDigit c) : c ≠ '+' := by
  rintro rfl; exact absurd h (by decide)

theorem IsDigit.ne_minus {c : Char} (h : IsDigit c) : c ≠ '-' := by
  rintro rfl; exact absurd h (by decide)

theorem IsDigit.ne_x {c : Char} (h : IsDigit c) : c ≠ 'x' := by
  rintro rfl; exact absurd h (by decide)

theorem IsDigit.ne_X {c : Char} (h : IsDigit c) : c ≠ 'X' := by
  rintro rfl; exact absurd h (by decide)

theorem IsDigit.ne_eq {c : Char} (h : IsDigit c) : c ≠ '=' := by
  rintro rfl; exact absurd h (by decide)

theorem IsDigit.ne_nul {c : Char} (h : IsDigit c) : c ≠ Char.ofNat 0 := by
  rintro rfl; exact absurd h (by decide)

theorem IsDigit.toNat_ge {c : Char} (h : IsDigit c) : 48 ≤ c.toNat := by
  have := h.1
  rw [Char.le_def] at this
  exact this

theorem IsDigit.toNat_le {c : Char} (h : IsDigit c) : c.toNat ≤ 57 := by
  have := h.2
  rw [Char.le_def] at this
  exact this

theorem ReadInteger_loop_cons_digit (acc : Int) (c : Char) (cs : List Char) (h : IsDigit c) :
    ReadInteger_loop acc (c :: cs) =
      ReadInteger_loop (toInt (acc * 10 + ((c.toNat : Int) - 48))) cs := by
  have h2 : '0' ≤ c ∧ c ≤ '9' := h
  simp only [ReadInteger_loop, h2, and_self, if_true]
  rfl

theorem ReadInteger_loop_not_digit (acc : Int) (s : List Char) (h : ¬ IsDigit (deref s)) :
    ReadInteger_loop acc s = (acc, s) := by
  cases s with
  | nil => rfl
  | cons c cs =>
    have h2 : ¬ ('0' ≤ c ∧ c ≤ '9') := h
    simp only [ReadInteger_loop, h2, if_false]

theorem le_digitsVal (ds : List Char) : ∀ acc : Nat, acc ≤ digitsVal acc ds := by
  induction ds with
  | nil => intro acc; exact Nat.le_refl _
  | cons d ds ih =>
    intro acc
    have := ih (acc * 10 + (d.toNat - 48))
    simp only [digitsVal, List.foldl_cons] at this ⊢
    omega

/-- The loop reads a run of digits exactly when the value fits an `int`. -/
theorem ReadInteger_loop_digits (ds rest : List Char) (hds : ∀ c ∈ ds, IsDigit c)
    (hrest : ¬ IsDigit (deref rest)) :
    ∀ acc : Nat, digitsVal acc ds < 2147483648 →
      ReadInteger_loop (acc : Int) (ds ++ rest) = (((digitsVal acc ds : Nat) : Int), rest) := by
  induction ds with
  | nil =>
    intro acc _
    simpa [digitsVal] using ReadInteger_loop_not_digit (acc : Int) rest hrest
  | cons d ds ih =>
    intro acc hlt
    have hd : IsDigit d := hds d (List.mem_cons_self _ _)
    have hge := hd.toNat_ge
    have hstep : digitsVal acc (d :: ds) = digitsVal (acc * 10 + (d.toNat - 48)) ds := rfl
    have hle := le_digitsVal ds (acc * 10 + (d.toNat - 48))
    rw [List.cons_append, ReadInteger_loop_cons_digit _ _ _ hd, hstep]
    have hcast : ((acc : Int) * 10 + ((d.toNat : Int) - 48)) =
        ((acc * 10 + (d.toNat - 48) : Nat) : Int) := by
      push_cast [Nat.cast_sub hge]; ring
    rw [hcast, toInt_of_range (by omega) (by omega)]
    exact ih (fun c hc => hds c (List.mem_cons_of_mem _ hc)) _ (by rw [← hstep]; exact hlt)

/-- Reading an unsigned run of digits: the value and the pointer after it. -/
theorem ReadInteger_digits (ds rest : List Char) (hne : ds ≠ []) (hds : ∀ c ∈ ds, IsDigit c)
    (hrest : ¬ IsDigit (deref rest)) (hlt : digitsVal 0 ds < 2147483648) :
    terminal_window_ReadInteger (ds ++ rest) = (((digitsVal 0 ds : Nat) : Int), rest) := by
  obtain ⟨d, ds', rfl⟩ := List.exists_cons_of_ne_nil hne
  have hd : IsDigit d := hds d (List.mem_cons_self _ _)
  have h := ReadInteger_loop_digits (d :: ds') rest hds hrest 0 hlt
  simp only [terminal_window_ReadInteger, List.cons_append, deref_cons, hd.ne_plus, hd.ne_minus,
    if_false]
  rw [List.cons_append] at h
  simp only [Nat.cast_zero] at h
  rw [h]
  simp

/-! ## Theorems: decimal formatting -/

theorem digitChar_isDigit : ∀ m, m < 10 → IsDigit (Nat.digitChar m) ∧ (Nat.digitChar m).toNat - 48 = m := by
  decide

theorem digitsVal_append_singleton (acc : Nat) (ds : List Char) (d : Char) :
    digitsVal acc (ds ++ [d]) = digitsVal acc ds * 10 + (d.toNat - 48) := by
  simp [digitsVal, List.foldl_append]

/-- What `Nat.toDigitsCore 10` puts in front of its accumulator. -/
theorem toDigitsCore_decimal (fuel : Nat) : ∀ (n : Nat) (tl : List Char), n < fuel →
    ∃ ds : List Char, Nat.toDigitsCore 10 fuel n tl = ds ++ tl ∧ ds ≠ [] ∧
      (∀ c ∈ ds, IsDigit c) ∧ digitsVal 0 ds = n := by
  induction fuel with
  | zero => intro n tl h; omega
  | succ fuel ih =>
    intro n tl hn
    have hd := digitChar_isDigit (n % 10) (Nat.mod_lt _ (by decide))
    unfold Nat.toDigitsCore
    by_cases hq : n / 10 = 0
    · refine ⟨[Nat.digitChar (n % 10)], by simp [hq], by simp, ?_, ?_⟩
      · intro c hc
        rw [List.mem_singleton] at hc
        exact hc ▸ hd.1
      · have := digitsVal_append_singleton 0 [] (Nat.digitChar (n % 10))
        simp only [List.nil_append] at this
        rw [this, hd.2]
        simp only [digitsVal, List.foldl_nil]
        omega
    · obtain ⟨ds, hds, _, hall, hval⟩ := ih (n / 10) (Nat.digitChar (n % 10) :: tl) (by omega)
      refine ⟨ds ++ [Nat.digitChar (n % 10)], by simp [hq, hds], by simp, ?_, ?_⟩
      · intro c hc
        rcases List.mem_append.mp hc with hc | hc
        · exact hall c hc
        · rw [List.mem_singleton] at hc
          exact hc ▸ hd.1
      · rw [digitsVal_append_singleton, hval, hd.2]
        omega

/-- The decimal text of `n` is a non-empty run of digits whose value is `n`. -/
theorem toDigits_decimal (n : Nat) :
    Nat.toDigits 10 n ≠ [] ∧ (∀ c ∈ Nat.toDigits 10 n, IsDigit c) ∧
      digitsVal 0 (Nat.toDigits 10 n) = n := by
  obtain ⟨ds, hds, hne, hall, hval⟩ := toDigitsCore_decimal (n + 1) n [] (Nat.lt_succ_self n)
  have : Nat.toDigits 10 n = ds := by
    unfold Nat.toDigits
    rw [hds, List.append_nil]
  rw [this]
  exact ⟨hne, hall, hval⟩

/-- Reading back the decimal text of `n`, up to the first non-digit. -/
theorem ReadInteger_toDigits (n : Nat) (rest : List Char) (hn : n < 2147483648)
    (hrest : ¬ IsDigit (deref rest)) :
    terminal_window_ReadInteger (Nat.toDigits 10 n ++ rest) = ((n : Int), rest) := by
  obtain ⟨hne, hall, hval⟩ := toDigits_decimal n
  have := ReadInteger_digits (Nat.toDigits 10 n) rest hne hall hrest (by rw [hval]; exact hn)
  rw [this, hval]

theorem deref_toDigits_append (n : Nat) (rest : List Char) :
    IsDigit (deref (Nat.toDigits 10 n ++ rest)) := by
  obtain ⟨hne, hall, _⟩ := toDigits_decimal n
  obtain ⟨d, ds, h⟩ := List.exists_cons_of_ne_nil hne
  rw [h, List.cons_append, deref_cons]
  exact hall d (by rw [h]; exact List.mem_cons_self _ _)

theorem toDigits_append_ne (n : Nat) (rest : List Char) : Nat.toDigits 10 n ++ rest ≠ rest := by
  intro h
  have := congrArg List.length h
  have hne := (toDigits_decimal n).1
  have := List.length_pos.mpr hne
  simp only [List.length_append] at *
  omega

theorem not_isDigit_signChar (b : Bool) : ¬ IsDigit (signChar b) := by
  cases b <;> decide

/-! ## Theorems: the parser on well-formed components -/

theorem toUInt_natCast {n : Nat} (h : n < 4294967296) : toUInt (n : Int) = n := by
  unfold toUInt; omega

theorem parse_width_toDigits (l : Locals) (n : Nat) (rest : List Char)
    (hs : l.strind = Nat.toDigits 10 n ++ rest) (hn : n < 2147483648)
    (hrest : ¬ IsDigit (deref rest)) :
    parse_width l = some { l with tempWidth := n, strind := rest, mask := l.mask ||| WidthValue } := by
  have hd := deref_toDigits_append n rest
  have hne : ¬ (Nat.toDigits 10 n ++ rest = rest) := toDigits_append_ne n rest
  simp only [parse_width, hs, ReadInteger_toDigits n rest hn hrest, hd.ne_plus, hd.ne_minus,
    hd.ne_x, ne_eq, not_false_eq_true, and_self, if_true, hne, if_false,
    toUInt_natCast (show n < 4294967296 by omega)]

theorem parse_height_toDigits (l : Locals) (c : Char) (n : Nat) (rest : List Char)
    (hs : l.strind = c :: (Nat.toDigits 10 n ++ rest)) (hc : c = 'x' ∨ c = 'X')
    (hn : n < 2147483648) (hrest : ¬ IsDigit (deref rest)) :
    parse_height l =
      some { l with tempHeight := n, strind := rest, mask := l.mask ||| HeightValue } := by
  have hne : ¬ (Nat.toDigits 10 n ++ rest = rest) := toDigits_append_ne n rest
  simp only [parse_height, hs, deref_cons, hc, if_true, List.tail_cons,
    ReadInteger_toDigits n rest hn hrest, hne, if_false,
    toUInt_natCast (show n < 4294967296 by omega)]

theorem parse_y_toDigits (l : Locals) (neg : Bool) (n : Nat) (rest : List Char)
    (hs : l.strind = signChar neg :: (Nat.toDigits 10 n ++ rest))
    (hn : n < 2147483648) (hrest : ¬ IsDigit (deref rest)) :
    parse_y l =
      some { l with tempY := if neg then -(n : Int) else (n : Int), strind := rest,
                    mask := if neg then (l.mask ||| YNegative) ||| YValue
                            else l.mask ||| YValue } := by
  have hne : ¬ (Nat.toDigits 10 n ++ rest = rest) := toDigits_append_ne n rest
  have hneg : toInt (-(n : Int)) = -(n : Int) := toInt_of_range (by omega) (by omega)
  cases neg
  · have h1 : ¬ ('+' = '-') := by decide
    simp only [parse_y, hs, signChar, deref_cons, List.tail_cons, true_or, if_true, h1, if_false,
      ReadInteger_toDigits n rest hn hrest, hne, Bool.false_eq_true]
  · simp only [parse_y, hs, signChar, deref_cons, List.tail_cons, or_true, if_true,
      ReadInteger_toDigits n rest hn hrest, hne, if_false, hneg]

theorem parse_x_toDigits (l : Locals) (neg : Bool) (n : Nat) (rest : List Char)
    (hs : l.strind = signChar neg :: (Nat.toDigits 10 n ++ rest))
    (hn : n < 2147483648) (hrest : ¬ IsDigit (deref rest)) :
    parse_x l =
      some { l with tempX := if neg then -(n : Int) else (n : Int), strind := rest,
                    mask := if neg then (l.mask ||| XNegative) ||| XValue
                            else l.mask ||| XValue } := by
  have hne : ¬ (Nat.toDigits 10 n ++ rest = rest) := toDigits_append_ne n rest
  have hneg : toInt (-(n : Int)) = -(n : Int) := toInt_of_range (by omega) (by omega)
  cases neg
  · have h1 : ¬ ('+' = '-') := by decide
    simp only [parse_x, hs, signChar, deref_cons, List.tail_cons, h1, if_false,
      ReadInteger_toDigits n rest hn hrest, hne, Bool.false_eq_true]
  · simp only [parse_x, hs, signChar, deref_cons, List.tail_cons, if_true,
      ReadInteger_toDigits n rest hn hrest, hne, if_false, hneg]

/-- The parse of a formatted tuple, in closed form. -/
theorem XParseGeometry_formatGeometry (w h x y : Nat) (xneg yneg : Bool)
    (hw : w < 2147483648) (hh : h < 2147483648) (hx : x < 2147483648) (hy : y < 2147483648)
    (x0 y0 : Int) (w0 h0 : Nat) :
    terminal_window_XParseGeometry (some (formatGeometry w h x y xneg yneg)) x0 y0 w0 h0 =
      { mask := fullMask xneg yneg
        x := if xneg then -(x : Int) else (x : Int)
        y := if yneg then -(y : Int) else (y : Int)
        width := w, height := h } := by
  have hd := deref_toDigits_append w
    ('x' :: (Nat.toDigits 10 h ++ signChar xneg :: (Nat.toDigits 10 x ++ signChar yneg ::
      Nat.toDigits 10 y)))
  have hxd : ¬ IsDigit (deref ('x' :: (Nat.toDigits 10 h ++ signChar xneg ::
      (Nat.toDigits 10 x ++ signChar yneg :: Nat.toDigits 10 y)))) := by
    rw [deref_cons]; decide
  have hsx : ¬ IsDigit (deref (signChar xneg ::
      (Nat.toDigits 10 x ++ signChar yneg :: Nat.toDigits 10 y))) := by
    rw [deref_cons]; exact not_isDigit_signChar xneg
  have hsy : ¬ IsDigit (deref (signChar yneg :: Nat.toDigits 10 y)) := by
    rw [deref_cons]; exact not_isDigit_signChar yneg
  have hend : ¬ IsDigit (deref ([] : List Char)) := not_isDigit_nul
  have hW := parse_width_toDigits (initLocals (formatGeometry w h x y xneg yneg)) w _
    (by simp only [initLocals, formatGeometry, hd.ne_eq, if_false]) hw hxd
  have hH := parse_height_toDigits
    { initLocals (formatGeometry w h x y xneg yneg) with
      tempWidth := w
      strind := 'x' :: (Nat.toDigits 10 h ++ signChar xneg ::
        (Nat.toDigits 10 x ++ signChar yneg :: Nat.toDigits 10 y))
      mask := (initLocals (formatGeometry w h x y xneg yneg)).mask ||| WidthValue }
    'x' h _ rfl (Or.inl rfl) hh hsx
  have hX := parse_x_toDigits
    { mask := (NoValue ||| WidthValue) ||| HeightValue
      strind := signChar xneg :: (Nat.toDigits 10 x ++ signChar yneg :: Nat.toDigits 10 y)
      tempWidth := w, tempHeight := h, tempX := 0, tempY := 0 }
    xneg x _ rfl hx hsy
  have hY := parse_y_toDigits
    { mask := if xneg then (((NoValue ||| WidthValue) ||| HeightValue) ||| XNegative) ||| XValue
              else ((NoValue ||| WidthValue) ||| HeightValue) ||| XValue
      strind := signChar yneg :: (Nat.toDigits 10 y ++ [])
      tempWidth := w, tempHeight := h
      tempX := if xneg then -(x : Int) else (x : Int), tempY := 0 }
    yneg y [] rfl hy hend
  rw [List.append_nil] at hY
  have hA : afterOffsets (formatGeometry w h x y xneg yneg) =
      some { mask := if yneg then
                (if xneg then (((NoValue ||| WidthValue) ||| HeightValue) ||| XNegative) ||| XValue
                 else ((NoValue ||| WidthValue) ||| HeightValue) ||| XValue) ||| YNegative
                  ||| YValue
              else
                (if xneg then (((NoValue ||| WidthValue) ||| HeightValue) ||| XNegative) ||| XValue
                 else ((NoValue ||| WidthValue) ||| HeightValue) ||| XValue) ||| YValue
             strind := []
             tempWidth := w, tempHeight := h
             tempX := if xneg then -(x : Int) else (x : Int)
             tempY := if yneg then -(y : Int) else (y : Int) } := by
    unfold afterOffsets afterHeight afterWidth
    rw [hW, Option.some_bind, hH, Option.some_bind]
    have hsign : deref (signChar xneg ::
        (Nat.toDigits 10 x ++ signChar yneg :: Nat.toDigits 10 y)) = '+' ∨
        deref (signChar xneg ::
        (Nat.toDigits 10 x ++ signChar yneg :: Nat.toDigits 10 y)) = '-' := by
      rw [deref_cons]; cases xneg <;> simp [signChar]
    simp only [initLocals] at hX ⊢
    simp only [parse_offsets, hsign, if_true]
    rw [hX, Option.some_bind, hY]
  have hnn : deref (formatGeometry w h x y xneg yneg) ≠ Char.ofNat 0 := hd.ne_nul
  simp only [terminal_window_XParseGeometry, hnn, if_false, hA, storeResult, deref_nil,
    ne_eq, not_true_eq_false]
  cases xneg <;> cases yneg <;> simp [fullMask, NoValue, WidthValue, HeightValue, XValue, YValue,
    XNegative, YNegative]

/-! ## Theorems: the geometry parser -/

theorem fullMask_bits : ∀ xneg yneg : Bool,
    fullMask xneg yneg &&& WidthValue ≠ 0 ∧ fullMask xneg yneg &&& HeightValue ≠ 0 ∧
    fullMask xneg yneg &&& XValue ≠ 0 ∧ fullMask xneg yneg &&& YValue ≠ 0 ∧
    (fullMask xneg yneg &&& XNegative ≠ 0 ↔ xneg = true) ∧
    (fullMask xneg yneg &&& YNegative ≠ 0 ↔ yneg = true) := by
  decide

/-- C1. Geometry parse round trip: for `w h x y` below `2^31` and any signs,
parsing the text `<w>x<h><sx><x><sy><y>` returns a mask with width, height, x
and y present, with the x-negative bit set iff `xneg` and the y-negative bit set
iff `yneg`, and stores width `w`, height `h` and the offsets `x` and `y`, each
negated exactly when its negative bit is set. -/
theorem geometry_parse_round_trip (w h x y : Nat) (xneg yneg : Bool)
    (hw : w < 2147483648) (hh : h < 2147483648) (hx : x < 2147483648) (hy : y < 2147483648)
    (x0 y0 : Int) (w0 h0 : Nat) :
    (terminal_window_XParseGeometry (some (formatGeometry w h x y xneg yneg)) x0 y0 w0 h0).mask
        &&& WidthValue ≠ 0 ∧
    (terminal_window_XParseGeometry (some (formatGeometry w h x y xneg yneg)) x0 y0 w0 h0).mask
        &&& HeightValue ≠ 0 ∧
    (terminal_window_XParseGeometry (some (formatGeometry w h x y xneg yneg)) x0 y0 w0 h0).mask
        &&& XValue ≠ 0 ∧
    (terminal_window_XParseGeometry (some (formatGeometry w h x y xneg yneg)) x0 y0 w0 h0).mask
        &&& YValue ≠ 0 ∧
    ((terminal_window_XParseGeometry (some (formatGeometry w h x y xneg yneg)) x0 y0 w0 h0).mask
        &&& XNegative ≠ 0 ↔ xneg = true) ∧
    ((terminal_window_XParseGeometry (some (formatGeometry w h x y xneg yneg)) x0 y0 w0 h0).mask
        &&& YNegative ≠ 0 ↔ yneg = true) ∧
    (terminal_window_XParseGeometry (some (formatGeometry w h x y xneg yneg)) x0 y0 w0 h0).width
        = w ∧
    (terminal_window_XParseGeometry (some (formatGeometry w h x y xneg yneg)) x0 y0 w0 h0).height
        = h ∧
    (terminal_window_XParseGeometry (some (formatGeometry w h x y xneg yneg)) x0 y0 w0 h0).x
        = (if (terminal_window_XParseGeometry (some (formatGeometry w h x y xneg yneg))
                x0 y0 w0 h0).mask &&& XNegative ≠ 0 then -(x : Int) else (x : Int)) ∧
    (terminal_window_XParseGeometry (some (formatGeometry w h x y xneg yneg)) x0 y0 w0 h0).y
        = (if (terminal_window_XParseGeometry (some (formatGeometry w h x y xneg yneg))
                x0 y0 w0 h0).mask &&& YNegative ≠ 0 then -(y : Int) else (y : Int)) := by
  rw [XParseGeometry_formatGeometry w h x y xneg yneg hw hh hx hy x0 y0 w0 h0]
  obtain ⟨h1, h2, h3, h4, h5, h6⟩ := fullMask_bits xneg yneg
  refine ⟨h1, h2, h3, h4, h5, h6, rfl, rfl, ?_, ?_⟩
  · simp only [h5]
  · simp only [h6]

/-- Instance of C1 at `"80x24+10-10"`, read over stale caller values. -/
theorem geometry_parse_round_trip_witness :
    formatGeometry 80 24 10 10 false true = "80x24+10-10".toList ∧
    ((terminal_window_XParseGeometry (some (formatGeometry 80 24 10 10 false true)) 7 7 7 7).mask
        &&& WidthValue ≠ 0 ∧
    (terminal_window_XParseGeometry (some (formatGeometry 80 24 10 10 false true)) 7 7 7 7).mask
        &&& HeightValue ≠ 0 ∧
    (terminal_window_XParseGeometry (some (formatGeometry 80 24 10 10 false true)) 7 7 7 7).mask
        &&& XValue ≠ 0 ∧
    (terminal_window_XParseGeometry (some (formatGeometry 80 24 10 10 false true)) 7 7 7 7).mask
        &&& YValue ≠ 0 ∧
    ((terminal_window_XParseGeometry (some (formatGeometry 80 24 10 10 false true)) 7 7 7 7).mask
        &&& XNegative ≠ 0 ↔ false = true) ∧
    ((terminal_window_XParseGeometry (some (formatGeometry 80 24 10 10 false true)) 7 7 7 7).mask
        &&& YNegative ≠ 0 ↔ true = true) ∧
    (terminal_window_XParseGeometry (some (formatGeometry 80 24 10 10 false true)) 7 7 7 7).width
        = 80 ∧
    (terminal_window_XParseGeometry (some (formatGeometry 80 24 10 10 false true)) 7 7 7 7).height
        = 24 ∧
    (terminal_window_XParseGeometry (some (formatGeometry 80 24 10 10 false true)) 7 7 7 7).x
        = (if (terminal_window_XParseGeometry (some (formatGeometry 80 24 10 10 false true))
                7 7 7 7).mask &&& XNegative ≠ 0 then -((10 : Nat) : Int) else ((10 : Nat) : Int)) ∧
    (terminal_window_XParseGeometry (some (formatGeometry 80 24 10 10 false true)) 7 7 7 7).y
        = (if (terminal_window_XParseGeometry (some (formatGeometry 80 24 10 10 false true))
                7 7 7 7).mask &&& YNegative ≠ 0 then -((10 : Nat) : Int) else ((10 : Nat) : Int))) :=
  ⟨by decide,
   geometry_parse_round_trip 80 24 10 10 false true (by decide) (by decide) (by decide)
     (by decide) 7 7 7 7⟩

/-- A parse that fails before the end-of-string test returns `NoValue` and
stores nothing. -/
theorem XParseGeometry_of_afterOffsets_none (s : List Char) (hs : afterOffsets s = none)
    (x y : Int) (w h : Nat) :
    terminal_window_XParseGeometry (some s) x y w h = ⟨NoValue, x, y, w, h⟩ := by
  unfold terminal_window_XParseGeometry
  simp only [hs]
  split <;> rfl

/-- C2. Parse failure set: each of `""`, `"abc"`, `"80x"`, `"80x24+"` and
`"80x24+5+"` makes `terminal_window_XParseGeometry` return `NoValue` and leaves
the caller's x, y, width and height as they were. -/
theorem parse_failure_set (x y : Int) (w h : Nat) :
    terminal_window_XParseGeometry (some "".toList) x y w h = ⟨NoValue, x, y, w, h⟩ ∧
    terminal_window_XParseGeometry (some "abc".toList) x y w h = ⟨NoValue, x, y, w, h⟩ ∧
    terminal_window_XParseGeometry (some "80x".toList) x y w h = ⟨NoValue, x, y, w, h⟩ ∧
    terminal_window_XParseGeometry (some "80x24+".toList) x y w h = ⟨NoValue, x, y, w, h⟩ ∧
    terminal_window_XParseGeometry (some "80x24+5+".toList) x y w h = ⟨NoValue, x, y, w, h⟩ :=
  ⟨XParseGeometry_of_afterOffsets_none _ (by decide) x y w h,
   XParseGeometry_of_afterOffsets_none _ (by decide) x y w h,
   XParseGeometry_of_afterOffsets_none _ (by decide) x y w h,
   XParseGeometry_of_afterOffsets_none _ (by decide) x y w h,
   XParseGeometry_of_afterOffsets_none _ (by decide) x y w h⟩

/-- Where no sign and no digit follows, `terminal_window_ReadInteger` returns 0
and does not advance. -/
theorem ReadInteger_no_progress (t : List Char) (hd : ¬ IsDigit (deref t))
    (hp : deref t ≠ '+') (hm : deref t ≠ '-') :
    terminal_window_ReadInteger t = (0, t) := by
  simp only [terminal_window_ReadInteger, hp, hm, if_false, ReadInteger_loop_not_digit 0 t hd]
  rfl

theorem parse_height_none (l : Locals) (hsep : deref l.strind = 'x' ∨ deref l.strind = 'X')
    (hd : ¬ IsDigit (deref l.strind.tail)) (hp : deref l.strind.tail ≠ '+')
    (hm : deref l.strind.tail ≠ '-') : parse_height l = none := by
  simp only [parse_height, hsep, if_true, ReadInteger_no_progress _ hd hp hm]

theorem parse_x_none (l : Locals)
    (hd : ¬ IsDigit (deref l.strind.tail)) (hp : deref l.strind.tail ≠ '+')
    (hm : deref l.strind.tail ≠ '-') : parse_x l = none := by
  unfold parse_x
  split <;> simp only [ReadInteger_no_progress _ hd hp hm, if_true]

theorem parse_y_none (l : Locals) (hsep : deref l.strind = '+' ∨ deref l.strind = '-')
    (hd : ¬ IsDigit (deref l.strind.tail)) (hp : deref l.strind.tail ≠ '+')
    (hm : deref l.strind.tail ≠ '-') : parse_y l = none := by
  unfold parse_y
  simp only [hsep, if_true]
  split <;> simp only [ReadInteger_no_progress _ hd hp hm, if_true]

/-- A sign with no digit after it still counts as progress for the pointer test:
`"80x+"` parses with width 80 and height 0. -/
theorem XParseGeometry_sign_without_digits :
    terminal_window_XParseGeometry (some "80x+".toList) 0 0 0 0 =
      ⟨WidthValue ||| HeightValue, 0, 0, 80, 0⟩ := by
  decide

/-- C3, counterexample to the claim as stated: in `"80x+24"` the height
component begins at the `x`, what follows is the character `+` and not a digit,
and yet the parse succeeds with width 80 and height 24. -/
theorem malformed_component_counterexample :
    BeginsComponent "80x+24".toList ⟨WidthValue, "x+24".toList, 80, 0, 0, 0⟩ ∧
    ¬ IsDigit (deref "+24".toList) ∧
    terminal_window_XParseGeometry (some "80x+24".toList) 0 0 0 0 =
      ⟨WidthValue ||| HeightValue, 0, 0, 80, 24⟩ ∧
    WidthValue ||| HeightValue ≠ NoValue := by
  decide

/-- C3, amended: once the parser has begun a component (after the `x`/`X`
separator or after the sign of an offset), if the character that follows is
neither a decimal digit nor a `+` or `-`, the whole parse returns `NoValue` and
nothing is stored. -/
theorem malformed_component_hard_failure (s : List Char) (l : Locals)
    (hbegin : BeginsComponent s l)
    (hd : ¬ IsDigit (deref l.strind.tail)) (hp : deref l.strind.tail ≠ '+')
    (hm : deref l.strind.tail ≠ '-') (x y : Int) (w h : Nat) :
    terminal_window_XParseGeometry (some s) x y w h = ⟨NoValue, x, y, w, h⟩ := by
  apply XParseGeometry_of_afterOffsets_none
  rcases hbegin with ⟨hw, hsep⟩ | ⟨hh, hsep⟩ | ⟨hx, hsep⟩
  · simp only [afterOffsets, afterHeight, hw, Option.some_bind,
      parse_height_none l hsep hd hp hm, Option.none_bind]
  · simp only [afterOffsets, hh, Option.some_bind, parse_offsets, hsep, if_true,
      parse_x_none l hd hp hm, Option.none_bind]
  · unfold afterX at hx
    unfold afterOffsets
    cases hH : afterHeight s with
    | none => rfl
    | some l0 =>
      rw [hH, Option.some_bind] at hx
      rw [Option.some_bind]
      by_cases hs0 : deref l0.strind = '+' ∨ deref l0.strind = '-'
      · simp only [hs0, if_true] at hx
        simp only [parse_offsets, hs0, if_true, hx, Option.some_bind,
          parse_y_none l hsep hd hp hm]
      · simp only [hs0, if_false] at hx
        exact absurd hx (by simp)

/-- Instance of the amended C3 at `"80x24+5+z"`: the y offset begins at the
second `+` and `z` follows. -/
theorem malformed_component_hard_failure_witness :
    terminal_window_XParseGeometry (some "80x24+5+z".toList) 1 2 3 4 = ⟨NoValue, 1, 2, 3, 4⟩ :=
  malformed_component_hard_failure "80x24+5+z".toList
    ⟨((NoValue ||| WidthValue) ||| HeightValue) ||| XValue, "+z".toList, 80, 24, 5, 0⟩
    (by decide) (by decide) (by decide) (by decide) 1 2 3 4

/-! ## Theorems: trailing characters -/

theorem ReadInteger_loop_suffix (t : List Char) : ∀ acc : Int, (ReadInteger_loop acc t).2 <:+ t := by
  induction t with
  | nil => intro acc; exact List.suffix_refl _
  | cons d t ih =>
    intro acc
    unfold ReadInteger_loop
    split
    · exact (ih _).trans (List.suffix_cons d t)
    · exact List.suffix_refl _

theorem ReadInteger_suffix (t : List Char) : (terminal_window_ReadInteger t).2 <:+ t := by
  unfold terminal_window_ReadInteger
  have key : ∀ u : List Char × Int, u.1 <:+ t →
      (if u.2 ≥ 0 then ((ReadInteger_loop 0 u.1).1, (ReadInteger_loop 0 u.1).2)
        else (toInt (-(ReadInteger_loop 0 u.1).1), (ReadInteger_loop 0 u.1).2)).2 <:+ t := by
    intro u hu
    split <;> exact (ReadInteger_loop_suffix u.1 0).trans hu
  apply key
  split
  · exact List.tail_suffix t
  · split
    · exact List.tail_suffix t
    · exact List.suffix_refl t

theorem parse_width_suffix {l l' : Locals} (h : parse_width l = some l') :
    l'.strind <:+ l.strind := by
  unfold parse_width at h
  dsimp only at h
  split at h
  · split at h
    · exact absurd h (by simp)
    · cases h; exact ReadInteger_suffix _
  · cases h; exact List.suffix_refl _

theorem parse_height_suffix {l l' : Locals} (h : parse_height l = some l') :
    l'.strind <:+ l.strind := by
  unfold parse_height at h
  dsimp only at h
  split at h
  · split at h
    · exact absurd h (by simp)
    · cases h; exact (ReadInteger_suffix _).trans (List.tail_suffix _)
  · cases h; exact List.suffix_refl _

theorem parse_x_suffix {l l' : Locals} (h : parse_x l = some l') :
    l'.strind <:+ l.strind := by
  unfold parse_x at h
  dsimp only at h
  split at h <;> split at h
  · exact absurd h (by simp)
  · cases h; exact (ReadInteger_suffix _).trans (List.tail_suffix _)
  · exact absurd h (by simp)
  · cases h; exact (ReadInteger_suffix _).trans (List.tail_suffix _)

theorem parse_y_suffix {l l' : Locals} (h : parse_y l = some l') :
    l'.strind <:+ l.strind := by
  unfold parse_y at h
  dsimp only at h
  split at h
  · split at h <;> split at h
    · exact absurd h (by simp)
    · cases h; exact (ReadInteger_suffix _).trans (List.tail_suffix _)
    · exact absurd h (by simp)
    · cases h; exact (ReadInteger_suffix _).trans (List.tail_suffix _)
  · cases h; exact List.suffix_refl _

theorem parse_offsets_suffix {l l' : Locals} (h : parse_offsets l = some l') :
    l'.strind <:+ l.strind := by
  unfold parse_offsets at h
  split at h
  · cases hx : parse_x l with
    | none => rw [hx] at h; exact absurd h (by simp)
    | some l1 =>
      rw [hx, Option.some_bind] at h
      exact (parse_y_suffix h).trans (parse_x_suffix hx)
  · cases h; exact List.suffix_refl _

theorem initLocals_suffix (s : List Char) : (initLocals s).strind <:+ s := by
  unfold initLocals
  simp only
  split
  · exact List.tail_suffix s
  · exact List.suffix_refl s

/-- The pointer left by the three blocks points into the string parsed. -/
theorem afterOffsets_suffix {s : List Char} {l : Locals} (h : afterOffsets s = some l) :
    l.strind <:+ s := by
  unfold afterOffsets afterHeight afterWidth at h
  cases hw : parse_width (initLocals s) with
  | none => rw [hw] at h; exact absurd h (by simp)
  | some l1 =>
    rw [hw, Option.some_bind] at h
    cases hh : parse_height l1 with
    | none => rw [hh] at h; exact absurd h (by simp)
    | some l2 =>
      rw [hh, Option.some_bind] at h
      exact (((parse_offsets_suffix h).trans (parse_height_suffix hh)).trans
        (parse_width_suffix hw)).trans (initLocals_suffix s)

theorem ReadInteger_plus (t : List Char) :
    terminal_window_ReadInteger ('+' :: t) =
      ((ReadInteger_loop 0 t).1, (ReadInteger_loop 0 t).2) := by
  simp [terminal_window_ReadInteger, deref_cons]

theorem ReadInteger_minus (t : List Char) :
    terminal_window_ReadInteger ('-' :: t) =
      (toInt (-(ReadInteger_loop 0 t).1), (ReadInteger_loop 0 t).2) := by
  have h : ¬ ('-' = '+') := by decide
  simp [terminal_window_ReadInteger, deref_cons, h]

theorem ReadInteger_unsigned (d : Char) (t : List Char) (hp : d ≠ '+') (hm : d ≠ '-') :
    terminal_window_ReadInteger (d :: t) =
      ((ReadInteger_loop 0 (d :: t)).1, (ReadInteger_loop 0 (d :: t)).2) := by
  simp [terminal_window_ReadInteger, deref_cons, hp, hm]

theorem ReadInteger_loop_append (c : Char) (hc : ¬ IsDigit c) (t : List Char) :
    ∀ acc : Int, ReadInteger_loop acc (t ++ [c]) =
      ((ReadInteger_loop acc t).1, (ReadInteger_loop acc t).2 ++ [c]) := by
  induction t with
  | nil =>
    intro acc
    rw [List.nil_append, ReadInteger_loop_not_digit acc [c] hc]
    rfl
  | cons d t ih =>
    intro acc
    by_cases hd : IsDigit d
    · rw [List.cons_append, ReadInteger_loop_cons_digit _ _ _ hd,
        ReadInteger_loop_cons_digit _ _ _ hd]
      exact ih _
    · rw [List.cons_append, ReadInteger_loop_not_digit acc (d :: (t ++ [c])) hd,
        ReadInteger_loop_not_digit acc (d :: t) hd]
      rfl

/-- A character that is no digit and no sign, put at the end of the text, is
left unread by `terminal_window_ReadInteger`. -/
theorem ReadInteger_append (c : Char) (hc : ¬ IsDigit c) (hp : c ≠ '+') (hm : c ≠ '-')
    (t : List Char) :
    terminal_window_ReadInteger (t ++ [c]) =
      ((terminal_window_ReadInteger t).1, (terminal_window_ReadInteger t).2 ++ [c]) := by
  cases t with
  | nil =>
    rw [List.nil_append, ReadInteger_no_progress [c] hc hp hm,
      ReadInteger_no_progress [] not_isDigit_nul (by decide) (by decide)]
    rfl
  | cons d t =>
    by_cases h1 : d = '+'
    · subst h1
      rw [List.cons_append, ReadInteger_plus, ReadInteger_plus, ReadInteger_loop_append c hc t 0]
    · by_cases h2 : d = '-'
      · subst h2
        rw [List.cons_append, ReadInteger_minus, ReadInteger_minus,
          ReadInteger_loop_append c hc t 0]
      · rw [List.cons_append, ReadInteger_unsigned _ _ h1 h2, ReadInteger_unsigned _ _ h1 h2,
          ← List.cons_append, ReadInteger_loop_append c hc (d :: t) 0]

theorem deref_append_singleton_of_ne_nil {t : List Char} (c : Char) (h : t ≠ []) :
    deref (t ++ [c]) = deref t := by
  cases t with
  | nil => exact absurd rfl h
  | cons d t => rfl

theorem tail_append_singleton_of_ne_nil {t : List Char} (c : Char) (h : t ≠ []) :
    (t ++ [c]).tail = t.tail ++ [c] := by
  cases t with
  | nil => exact absurd rfl h
  | cons d t => rfl

theorem ne_nil_of_deref_ne_nul {t : List Char} (h : deref t ≠ Char.ofNat 0) : t ≠ [] := by
  rintro rfl; exact h rfl

theorem parse_width_appendChar (c : Char) (hc : ¬ IsDigit c) (hp : c ≠ '+') (hm : c ≠ '-')
    (hx : c ≠ 'x') (l : Locals) :
    parse_width (appendChar c l) = (parse_width l).map (appendChar c) := by
  obtain ⟨mask, strind, tw, th, tx, ty⟩ := l
  cases strind with
  | nil =>
    have h0 : terminal_window_ReadInteger [] = (0, []) :=
      ReadInteger_no_progress [] not_isDigit_nul (by decide) (by decide)
    have hnul : deref [] ≠ '+' ∧ deref [] ≠ '-' ∧ deref [] ≠ 'x' := by decide
    simp only [parse_width, appendChar, List.nil_append, deref_cons, ne_eq, hp, hm, hx,
      not_false_eq_true, and_self, if_true, ReadInteger_no_progress [c] hc hp hm, h0, hnul,
      Option.map_none']
  | cons d t =>
    simp only [parse_width, appendChar, List.cons_append, deref_cons]
    split
    · rw [← List.cons_append, ReadInteger_append c hc hp hm (d :: t)]
      simp only [List.append_cancel_right_eq]
      split
      · rfl
      · rfl
    · rfl

theorem parse_height_appendChar (c : Char) (hc : ¬ IsDigit c) (hp : c ≠ '+') (hm : c ≠ '-')
    (hx : c ≠ 'x') (hX : c ≠ 'X') (l : Locals) :
    parse_height (appendChar c l) = (parse_height l).map (appendChar c) := by
  obtain ⟨mask, strind, tw, th, tx, ty⟩ := l
  cases strind with
  | nil =>
    have hnul : ¬ (deref [] = 'x' ∨ deref [] = 'X') := by decide
    simp only [parse_height, appendChar, List.nil_append, deref_cons, hx, hX, or_self, if_false,
      hnul, Option.map_some']
  | cons d t =>
    simp only [parse_height, appendChar, List.cons_append, deref_cons, List.tail_cons]
    split
    · rw [ReadInteger_append c hc hp hm t]
      simp only [List.append_cancel_right_eq]
      split
      · rfl
      · rfl
    · rfl

theorem parse_x_appendChar (c : Char) (hc : ¬ IsDigit c) (hp : c ≠ '+') (hm : c ≠ '-')
    (l : Locals) (hl : l.strind ≠ []) :
    parse_x (appendChar c l) = (parse_x l).map (appendChar c) := by
  obtain ⟨mask, strind, tw, th, tx, ty⟩ := l
  cases strind with
  | nil => exact absurd rfl hl
  | cons d t =>
    simp only [parse_x, appendChar, List.cons_append, deref_cons, List.tail_cons]
    split
    · rw [ReadInteger_append c hc hp hm t]
      simp only [List.append_cancel_right_eq]
      split
      · rfl
      · rfl
    · rw [ReadInteger_append c hc hp hm t]
      simp only [List.append_cancel_right_eq]
      split
      · rfl
      · rfl

theorem parse_y_appendChar (c : Char) (hc : ¬ IsDigit c) (hp : c ≠ '+') (hm : c ≠ '-')
    (l : Locals) :
    parse_y (appendChar c l) = (parse_y l).map (appendChar c) := by
  obtain ⟨mask, strind, tw, th, tx, ty⟩ := l
  cases strind with
  | nil =>
    have hnul : ¬ (deref [] = '+' ∨ deref [] = '-') := by decide
    simp only [parse_y, appendChar, List.nil_append, deref_cons, hp, hm, or_self, if_false,
      hnul, Option.map_some']
  | cons d t =>
    simp only [parse_y, appendChar, List.cons_append, deref_cons, List.tail_cons]
    split
    · split
      · rw [ReadInteger_append c hc hp hm t]
        simp only [List.append_cancel_right_eq]
        split
        · rfl
        · rfl
      · rw [ReadInteger_append c hc hp hm t]
        simp only [List.append_cancel_right_eq]
        split
        · rfl
        · rfl
    · rfl

theorem parse_offsets_appendChar (c : Char) (hc : ¬ IsDigit c) (hp : c ≠ '+') (hm : c ≠ '-')
    (l : Locals) :
    parse_offsets (appendChar c l) = (parse_offsets l).map (appendChar c) := by
  by_cases hl : l.strind = []
  · have hnul : ¬ (deref [] = '+' ∨ deref [] = '-') := by decide
    simp only [parse_offsets, appendChar, hl, List.nil_append, deref_cons, hp, hm, or_self,
      if_false, hnul, Option.map_some']
  · have hd : deref (appendChar c l).strind = deref l.strind :=
      deref_append_singleton_of_ne_nil c hl
    unfold parse_offsets
    rw [hd]
    split
    · rw [parse_x_appendChar c hc hp hm l hl]
      cases parse_x l with
      | none => rfl
      | some l1 =>
        simp only [Option.map_some', Option.some_bind]
        exact parse_y_appendChar c hc hp hm l1
    · rfl

theorem initLocals_append (c : Char) {s : List Char} (hs : s ≠ []) :
    initLocals (s ++ [c]) = appendChar c (initLocals s) := by
  cases s with
  | nil => exact absurd rfl hs
  | cons d t =>
    simp only [initLocals, appendChar, List.cons_append, deref_cons, List.tail_cons]
    split <;> rfl

/-- The three blocks read the same components when a character that no block
accepts is put at the end of the string. -/
theorem afterOffsets_append (c : Char) (hc : ¬ IsDigit c) (hp : c ≠ '+') (hm : c ≠ '-')
    (hx : c ≠ 'x') (hX : c ≠ 'X') {s : List Char} (hs : s ≠ []) :
    afterOffsets (s ++ [c]) = (afterOffsets s).map (appendChar c) := by
  unfold afterOffsets afterHeight afterWidth
  rw [initLocals_append c hs, parse_width_appendChar c hc hp hm hx]
  cases parse_width (initLocals s) with
  | none => rfl
  | some l1 =>
    simp only [Option.map_some', Option.some_bind]
    rw [parse_height_appendChar c hc hp hm hx hX]
    cases parse_height l1 with
    | none => rfl
    | some l2 =>
      simp only [Option.map_some', Option.some_bind]
      exact parse_offsets_appendChar c hc hp hm l2

/-- The two ways `terminal_window_XParseGeometry` returns: `NoValue` with
nothing stored, or the stores of source lines 488-496 from the locals at the end
of the three blocks, with `strind` at the terminating NUL. -/
theorem XParseGeometry_cases (string : Option (List Char)) (x y : Int) (w h : Nat) :
    terminal_window_XParseGeometry string x y w h = ⟨NoValue, x, y, w, h⟩ ∨
    ∃ s l, string = some s ∧ deref s ≠ Char.ofNat 0 ∧ afterOffsets s = some l ∧
      deref l.strind = Char.ofNat 0 ∧
      terminal_window_XParseGeometry string x y w h =
        { mask := l.mask
          x := if l.mask &&& XValue ≠ 0 then l.tempX else x
          y := if l.mask &&& YValue ≠ 0 then l.tempY else y
          width := if l.mask &&& WidthValue ≠ 0 then l.tempWidth else w
          height := if l.mask &&& HeightValue ≠ 0 then l.tempHeight else h } := by
  cases string with
  | none => exact Or.inl rfl
  | some s =>
    by_cases h0 : deref s = Char.ofNat 0
    · left
      unfold terminal_window_XParseGeometry
      simp only [h0, if_true]
    · cases hA : afterOffsets s with
      | none => exact Or.inl (XParseGeometry_of_afterOffsets_none s hA x y w h)
      | some l =>
        by_cases hend : deref l.strind = Char.ofNat 0
        · right
          refine ⟨s, l, rfl, h0, hA, hend, ?_⟩
          unfold terminal_window_XParseGeometry
          simp only [h0, if_false, hA, storeResult, hend, ne_eq, not_true_eq_false]
        · left
          unfold terminal_window_XParseGeometry
          simp only [h0, if_false, hA, storeResult, ne_eq, hend, not_false_eq_true, if_true]
          rfl

/-- A non-zero mask comes from the locals at the end of the three blocks, with
`strind` at the terminating NUL. -/
theorem XParseGeometry_success {s : List Char} {x y : Int} {w h : Nat}
    (hmask : (terminal_window_XParseGeometry (some s) x y w h).mask ≠ NoValue) :
    deref s ≠ Char.ofNat 0 ∧ ∃ l, afterOffsets s = some l ∧ deref l.strind = Char.ofNat 0 ∧
      terminal_window_XParseGeometry (some s) x y w h =
        { mask := l.mask
          x := if l.mask &&& XValue ≠ 0 then l.tempX else x
          y := if l.mask &&& YValue ≠ 0 then l.tempY else y
          width := if l.mask &&& WidthValue ≠ 0 then l.tempWidth else w
          height := if l.mask &&& HeightValue ≠ 0 then l.tempHeight else h } := by
  rcases XParseGeometry_cases (some s) x y w h with hfail | ⟨s', l, hs, h0, hA, hend, hform⟩
  · rw [hfail] at hmask
    exact absurd rfl hmask
  · cases hs
    exact ⟨h0, l, hA, hend, hform⟩

theorem eq_nil_of_suffix_of_deref_nul {s t : List Char} (hs : IsCString s) (ht : t <:+ s)
    (h0 : deref t = Char.ofNat 0) : t = [] := by
  cases t with
  | nil => rfl
  | cons d t =>
    have hmem : d ∈ s := ht.subset (List.mem_cons_self d t)
    exact absurd h0 (hs d hmem)

/-- C4. Trailing characters are a failure: a non-zero mask is returned only when
the three blocks consumed the string up to its terminating NUL, and a string
that parses successfully, followed by one more character that is not a decimal
digit, `x`, `X`, `+` or `-`, parses to `NoValue` with nothing stored. -/
theorem trailing_characters_fail (s : List Char) (x y : Int) (w h : Nat)
    (hmask : (terminal_window_XParseGeometry (some s) x y w h).mask ≠ NoValue) :
    (∃ l, afterOffsets s = some l ∧ l.strind <:+ s ∧ deref l.strind = Char.ofNat 0 ∧
      (IsCString s → l.strind = [])) ∧
    (∀ c : Char, IsCString (s ++ [c]) → ¬ IsDigit c → c ≠ 'x' → c ≠ 'X' → c ≠ '+' → c ≠ '-' →
      terminal_window_XParseGeometry (some (s ++ [c])) x y w h = ⟨NoValue, x, y, w, h⟩) := by
  obtain ⟨hs0, l, hA, hend, -⟩ := XParseGeometry_success hmask
  have hsuf := afterOffsets_suffix hA
  refine ⟨⟨l, hA, hsuf, hend, fun hs => eq_nil_of_suffix_of_deref_nul hs hsuf hend⟩, ?_⟩
  intro c hcs hc hx hX hp hm
  have hne : s ≠ [] := ne_nil_of_deref_ne_nul hs0
  have hs : IsCString s := fun d hd => hcs d (List.mem_append_left _ hd)
  have hc0 : c ≠ Char.ofNat 0 := hcs c (List.mem_append_right _ (List.mem_singleton_self c))
  have hnil : l.strind = [] := eq_nil_of_suffix_of_deref_nul hs hsuf hend
  have hA2 := afterOffsets_append c hc hp hm hx hX hne
  rw [hA, Option.map_some'] at hA2
  have hd : deref (s ++ [c]) = deref s := deref_append_singleton_of_ne_nil c hne
  simp only [terminal_window_XParseGeometry, hd, hs0, if_false, hA2, storeResult, appendChar,
    hnil, List.nil_append, deref_cons, ne_eq, hc0, not_false_eq_true, if_true]
  rfl

/-- Instance of C4: `"80x24+10-10"` parses, `"80x24+10-10 "` does not. -/
theorem trailing_characters_fail_witness :
    terminal_window_XParseGeometry (some ("80x24+10-10".toList ++ [' '])) 1 2 3 4 =
      ⟨NoValue, 1, 2, 3, 4⟩ :=
  (trailing_characters_fail "80x24+10-10".toList 1 2 3 4 (by decide)).2 ' '
    (by decide) (by decide) (by decide) (by decide) (by decide) (by decide)

/-! ## Theorems: what the parser stores -/

/-- C5. Values not found are left unchanged: after
`terminal_window_XParseGeometry` each of the four outputs whose bit is clear in
the returned mask holds its initial value and each whose bit is set holds the
value the parser read for it (the temporary of that component); when the mask is
`NoValue` all four outputs are unchanged. -/
theorem values_not_found_unchanged (string : Option (List Char)) (x y : Int) (w h : Nat)
    (g : Geometry) (hg : g = terminal_window_XParseGeometry string x y w h) :
    (g.mask &&& XValue = 0 → g.x = x) ∧
    (g.mask &&& YValue = 0 → g.y = y) ∧
    (g.mask &&& WidthValue = 0 → g.width = w) ∧
    (g.mask &&& HeightValue = 0 → g.height = h) ∧
    (g.mask = NoValue → g.x = x ∧ g.y = y ∧ g.width = w ∧ g.height = h) ∧
    (g.mask ≠ NoValue → ∃ s l, string = some s ∧ afterOffsets s = some l ∧ g.mask = l.mask ∧
      (g.mask &&& XValue ≠ 0 → g.x = l.tempX) ∧
      (g.mask &&& YValue ≠ 0 → g.y = l.tempY) ∧
      (g.mask &&& WidthValue ≠ 0 → g.width = l.tempWidth) ∧
      (g.mask &&& HeightValue ≠ 0 → g.height = l.tempHeight)) := by
  by_cases hmask : g.mask = NoValue
  · have hun : g.x = x ∧ g.y = y ∧ g.width = w ∧ g.height = h := by
      rcases XParseGeometry_cases string x y w h with hfail | ⟨s, l, -, -, -, -, hform⟩
      · rw [hg, hfail]
        exact ⟨rfl, rfl, rfl, rfl⟩
      · rw [← hg] at hform
        have hl : l.mask = 0 := by
          have : g.mask = l.mask := by rw [hform]
          rw [← this]; exact hmask
        rw [hform]
        simp only [hl, Nat.zero_and, ne_eq, not_true_eq_false, if_false, and_self]
    exact ⟨fun _ => hun.1, fun _ => hun.2.1, fun _ => hun.2.2.1, fun _ => hun.2.2.2,
      fun _ => hun, fun hne => absurd hmask hne⟩
  · cases string with
    | none => rw [hg] at hmask; exact absurd rfl hmask
    | some s =>
      rw [hg] at hmask
      obtain ⟨-, l, hA, -, hform⟩ := XParseGeometry_success hmask
      rw [← hg] at hform
      have hm : g.mask = l.mask := by rw [hform]
      have hgx : g.x = if l.mask &&& XValue ≠ 0 then l.tempX else x := by rw [hform]
      have hgy : g.y = if l.mask &&& YValue ≠ 0 then l.tempY else y := by rw [hform]
      have hgw : g.width = if l.mask &&& WidthValue ≠ 0 then l.tempWidth else w := by rw [hform]
      have hgh : g.height = if l.mask &&& HeightValue ≠ 0 then l.tempHeight else h := by
        rw [hform]
      rw [hm]
      refine ⟨fun hb => by rw [hgx, if_neg (not_not.mpr hb)],
        fun hb => by rw [hgy, if_neg (not_not.mpr hb)],
        fun hb => by rw [hgw, if_neg (not_not.mpr hb)],
        fun hb => by rw [hgh, if_neg (not_not.mpr hb)],
        fun hz => absurd (hm.trans hz) (by rw [hg]; exact hmask),
        fun _ => ⟨s, l, rfl, hA, rfl, fun hb => by rw [hgx, if_pos hb],
          fun hb => by rw [hgy, if_pos hb], fun hb => by rw [hgw, if_pos hb],
          fun hb => by rw [hgh, if_pos hb]⟩⟩

/-- Instance of C5 at `"80x24"` over the caller values `1 2 3 4`: x and y keep
1 and 2. -/
theorem values_not_found_unchanged_witness :
    (⟨WidthValue ||| HeightValue, 1, 2, 80, 24⟩ : Geometry).x = 1 ∧
    (⟨WidthValue ||| HeightValue, 1, 2, 80, 24⟩ : Geometry).y = 2 :=
  ⟨(values_not_found_unchanged (some "80x24".toList) 1 2 3 4
      ⟨WidthValue ||| HeightValue, 1, 2, 80, 24⟩ (by decide)).1 (by decide),
   (values_not_found_unchanged (some "80x24".toList) 1 2 3 4
      ⟨WidthValue ||| HeightValue, 1, 2, 80, 24⟩ (by decide)).2.1 (by decide)⟩

/-! ## Theorems: the leading `=` -/

theorem afterOffsets_none_of_deref_nul (s : List Char) (h0 : deref s = Char.ofNat 0) :
    afterOffsets s = none := by
  have h1 : ¬ IsDigit (deref s) := by rw [h0]; exact not_isDigit_nul
  have h2 : deref s ≠ '+' := by rw [h0]; decide
  have h3 : deref s ≠ '-' := by rw [h0]; decide
  have h4 : deref s ≠ 'x' := by rw [h0]; decide
  have h5 : deref s ≠ '=' := by rw [h0]; decide
  simp only [afterOffsets, afterHeight, afterWidth, initLocals, h5, if_false, parse_width, ne_eq,
    h2, h3, h4, not_false_eq_true, and_self, if_true, ReadInteger_no_progress s h1 h2 h3,
    Option.none_bind]

/-- C6. The leading `=` is optional and ignored: for a string `s` that does not
itself begin with `=`, parsing `"=" ++ s` returns the same mask and stores the
same values as parsing `s`. -/
theorem leading_equals_ignored (s : List Char) (hs : deref s ≠ '=') (x y : Int) (w h : Nat) :
    terminal_window_XParseGeometry (some ('=' :: s)) x y w h =
      terminal_window_XParseGeometry (some s) x y w h := by
  have hA : afterOffsets ('=' :: s) = afterOffsets s := by
    simp only [afterOffsets, afterHeight, afterWidth, initLocals, deref_cons, if_true,
      List.tail_cons, hs, if_false]
  have hne : deref ('=' :: s) ≠ Char.ofNat 0 := by rw [deref_cons]; decide
  unfold terminal_window_XParseGeometry
  simp only [hne, if_false, hA]
  by_cases h0 : deref s = Char.ofNat 0
  · simp only [h0, if_true, afterOffsets_none_of_deref_nul s h0]
    rfl
  · simp only [h0, if_false]

/-- Instance of C6: `"=80x24+300-49"` against `"80x24+300-49"`. -/
theorem leading_equals_ignored_witness :
    terminal_window_XParseGeometry (some ('=' :: "80x24+300-49".toList)) 1 2 3 4 =
      terminal_window_XParseGeometry (some "80x24+300-49".toList) 1 2 3 4 :=
  leading_equals_ignored "80x24+300-49".toList (by decide) 1 2 3 4

/-! ## Theorems: applying a size -/

theorem lor_eq_zero_iff (a b : Nat) : a ||| b = 0 ↔ a = 0 ∧ b = 0 := by
  constructor
  · intro h
    have key : ∀ i, a.testBit i = false ∧ b.testBit i = false := by
      intro i
      have := congrArg (fun n => Nat.testBit n i) h
      simpa [Nat.testBit_or] using this
    exact ⟨Nat.eq_of_testBit_eq (fun i => by simp [(key i).1]),
      Nat.eq_of_testBit_eq (fun i => by simp [(key i).2])⟩
  · rintro ⟨rfl, rfl⟩
    rfl

/-- The guard of the size negotiation, in terms of the two state bits. -/
theorem maximized_or_tiled_iff (window : TerminalWindow) :
    maximized_or_tiled window = true ↔
      ∃ state, window.gdk_window = some state ∧
        (state &&& GDK_WINDOW_STATE_MAXIMIZED ≠ 0 ∨ state &&& GDK_WINDOW_STATE_TILED ≠ 0) := by
  unfold maximized_or_tiled
  cases hw : window.gdk_window with
  | none => simp
  | some state =>
    simp only [decide_eq_true_eq, Option.some.injEq, exists_eq_left', ne_eq,
      Nat.and_or_distrib_left, lor_eq_zero_iff]
    tauto

theorem toInt_add_toInt (a b : Int) : toInt (a + toInt b) = toInt (a + b) := by
  unfold toInt; omega

/-- C7. Success flag: for a window that is not maximized or tiled,
`terminal_window_update_size_set_geometry` returns FALSE exactly when a geometry
string is supplied and `terminal_window_XParseGeometry` returns `NoValue` for it,
the empty string included, and TRUE otherwise, also when no string is given
(which is how `terminal_window_update_size` calls it). -/
theorem success_flag (window : TerminalWindow) (screen : TerminalScreen) (even_if_mapped : Bool)
    (geometry_string : Option (List Char)) (hnm : maximized_or_tiled window = false) :
    ((terminal_window_update_size_set_geometry window screen even_if_mapped geometry_string).1
        = false ↔
      ∃ s, geometry_string = some s ∧
        (terminal_window_XParseGeometry (some s) 0 0 0 0).mask = NoValue) ∧
    ((terminal_window_update_size_set_geometry window screen even_if_mapped geometry_string).1
        = true ↔
      ¬ ∃ s, geometry_string = some s ∧
        (terminal_window_XParseGeometry (some s) 0 0 0 0).mask = NoValue) ∧
    (terminal_window_update_size_set_geometry window screen even_if_mapped none).1 = true ∧
    (terminal_window_update_size_set_geometry window screen even_if_mapped (some [])).1
        = false := by
  have hflag : ∀ gs : Option (List Char),
      (terminal_window_update_size_set_geometry window screen even_if_mapped gs).1 =
        (if gs ≠ none ∧ (parse_override gs).mask = NoValue then false else true) := by
    intro gs
    simp only [terminal_window_update_size_set_geometry, hnm, Bool.false_eq_true, if_false]
  have hiff : ∀ gs : Option (List Char),
      (gs ≠ none ∧ (parse_override gs).mask = NoValue) ↔
        ∃ s, gs = some s ∧ (terminal_window_XParseGeometry (some s) 0 0 0 0).mask = NoValue := by
    intro gs
    cases gs with
    | none => simp
    | some s => simp [parse_override]
  refine ⟨?_, ?_, ?_, ?_⟩
  · rw [hflag, ← hiff]
    by_cases hc : geometry_string ≠ none ∧ (parse_override geometry_string).mask = NoValue
    · rw [if_pos hc]
      exact ⟨fun _ => hc, fun _ => rfl⟩
    · rw [if_neg hc]
      exact ⟨fun hf => absurd hf (by decide), fun hf => absurd hf hc⟩
  · rw [hflag, ← hiff]
    by_cases hc : geometry_string ≠ none ∧ (parse_override geometry_string).mask = NoValue
    · rw [if_pos hc]
      exact ⟨fun hf => absurd hf (by decide), fun hf => absurd hc hf⟩
    · rw [if_neg hc]
      exact ⟨fun _ => hc, fun _ => rfl⟩
  · rw [hflag]
    simp
  · rw [hflag]
    have : (parse_override (some [])).mask = NoValue := by decide
    simp [this]

/-- Instance of C7: on a window without a `GdkWindow`, the string `"80x"` gives
FALSE. -/
theorem success_flag_witness :
    (terminal_window_update_size_set_geometry
      ⟨⟨none, -1, -1, -1, -1, -1, -1, none⟩, none, false, 0, 0, 1920, 1080, []⟩
      ⟨1, 80, 24, 10, 20, 1, 1, 1, 1⟩ true (some "80x".toList)).1 = false :=
  (success_flag ⟨⟨none, -1, -1, -1, -1, -1, -1, none⟩, none, false, 0, 0, 1920, 1080, []⟩
    ⟨1, 80, 24, 10, 20, 1, 1, 1, 1⟩ true (some "80x".toList) (by decide)).1.mpr
    ⟨"80x".toList, rfl, by decide⟩

/-- C8. Maximized skip: when the window has a `GdkWindow` whose state has the
maximized or the tiled bit, `terminal_window_update_size_set_geometry` returns
TRUE and leaves the window as it was: no request is issued (no resize, default
size, gravity, move or hints) and every cached geometry field is unchanged,
whatever the tab, the `even_if_mapped` flag and the geometry string. -/
theorem maximized_skip (window : TerminalWindow) (screen : TerminalScreen)
    (even_if_mapped : Bool) (geometry_string : Option (List Char)) (state : Nat)
    (hrealized : window.gdk_window = some state)
    (hstate : state &&& GDK_WINDOW_STATE_MAXIMIZED ≠ 0 ∨ state &&& GDK_WINDOW_STATE_TILED ≠ 0) :
    terminal_window_update_size_set_geometry window screen even_if_mapped geometry_string =
      (true, window) := by
  have hm : maximized_or_tiled window = true :=
    (maximized_or_tiled_iff window).mpr ⟨state, hrealized, hstate⟩
  simp only [terminal_window_update_size_set_geometry, hm, if_true]

/-- Instance of C8: a tiled, mapped window asked to resize with the unparseable
string `"abc"`. -/
theorem maximized_skip_witness :
    terminal_window_update_size_set_geometry
      ⟨⟨some ⟨1, 80, 24, 10, 20, 1, 1, 1, 1⟩, -1, -1, -1, -1, -1, -1, none⟩,
        some GDK_WINDOW_STATE_TILED, true, 850, 520, 1920, 1080, []⟩
      ⟨1, 80, 24, 10, 20, 1, 1, 1, 1⟩ true (some "abc".toList) =
    (true, ⟨⟨some ⟨1, 80, 24, 10, 20, 1, 1, 1, 1⟩, -1, -1, -1, -1, -1, -1, none⟩,
        some GDK_WINDOW_STATE_TILED, true, 850, 520, 1920, 1080, []⟩) :=
  maximized_skip _ _ true (some "abc".toList) GDK_WINDOW_STATE_TILED rfl (Or.inr (by decide))

theorem update_geometry_mapped (window : TerminalWindow) :
    (terminal_window_update_geometry window).mapped = window.mapped := by
  unfold terminal_window_update_geometry
  dsimp only
  split
  · rfl
  · split <;> rfl

/-- The requests issued by a size negotiation that is not skipped: those of the
hint refresh, the size call, then the gravity and move calls if any. -/
theorem update_size_requests (window : TerminalWindow) (screen : TerminalScreen)
    (even_if_mapped : Bool) (geometry_string : Option (List Char))
    (hnm : maximized_or_tiled window = false) :
    (terminal_window_update_size_set_geometry window screen even_if_mapped
        geometry_string).2.requests =
      (terminal_window_update_geometry window).requests ++
        size_request even_if_mapped window.mapped
            (pixel_width_of (terminal_window_update_geometry window).priv
              (override_grid_width screen (parse_override geometry_string)))
            (pixel_height_of (terminal_window_update_geometry window).priv
              (override_grid_height screen (parse_override geometry_string))) ::
          position_requests (parse_override geometry_string).mask
            (force_pos_x_of (terminal_window_update_geometry window)
              (parse_override geometry_string)
              (pixel_width_of (terminal_window_update_geometry window).priv
                (override_grid_width screen (parse_override geometry_string))))
            (force_pos_y_of (terminal_window_update_geometry window)
              (parse_override geometry_string)
              (pixel_height_of (terminal_window_update_geometry window).priv
                (override_grid_height screen (parse_override geometry_string)))) := by
  simp only [terminal_window_update_size_set_geometry, hnm, Bool.false_eq_true, if_false,
    update_geometry_mapped]

/-- C9. Size computation: for a window that is not maximized or tiled the
requested size is `pixel_width = old_chrome_width + grid_width * old_char_width`
and `pixel_height = old_chrome_height + grid_height * old_char_height` in `int`
arithmetic, with chrome and cell as cached by the hint refresh that runs first,
`grid_width` the override's width when the width bit is in the mask and the
tab's column count otherwise, and `grid_height` likewise; the arithmetic is
exact whenever the exact value fits an `int`.  The size is issued as a resize
exactly when `even_if_mapped` holds and the window is mapped, as the default
size otherwise, and no other size call is issued. -/
theorem size_computation (window : TerminalWindow) (screen : TerminalScreen)
    (even_if_mapped : Bool) (geometry_string : Option (List Char))
    (hnm : maximized_or_tiled window = false) :
    let priv := (terminal_window_update_geometry window).priv
    let geom := parse_override geometry_string
    let grid_width := if geom.mask &&& WidthValue ≠ 0 then toInt geom.width else screen.grid_width
    let grid_height :=
      if geom.mask &&& HeightValue ≠ 0 then toInt geom.height else screen.grid_height
    let pixel_width := int_add priv.old_chrome_width (int_mul grid_width priv.old_char_width)
    let pixel_height := int_add priv.old_chrome_height (int_mul grid_height priv.old_char_height)
    (∃ rest : List Request,
      (terminal_window_update_size_set_geometry window screen even_if_mapped
          geometry_string).2.requests =
        (terminal_window_update_geometry window).requests ++
          (if even_if_mapped = true ∧ window.mapped = true then
              Request.resize pixel_width pixel_height
            else Request.set_default_size pixel_width pixel_height) :: rest ∧
      ∀ r ∈ rest, ∀ a b : Int, r ≠ Request.resize a b ∧ r ≠ Request.set_default_size a b) ∧
    (geom.mask &&& WidthValue ≠ 0 → geom.width < 2147483648 → grid_width = (geom.width : Int)) ∧
    (geom.mask &&& HeightValue ≠ 0 → geom.height < 2147483648 →
      grid_height = (geom.height : Int)) ∧
    (geom.mask &&& WidthValue = 0 → grid_width = screen.grid_width) ∧
    (geom.mask &&& HeightValue = 0 → grid_height = screen.grid_height) ∧
    (-2147483648 ≤ priv.old_chrome_width + grid_width * priv.old_char_width →
      priv.old_chrome_width + grid_width * priv.old_char_width < 2147483648 →
      pixel_width = priv.old_chrome_width + grid_width * priv.old_char_width) ∧
    (-2147483648 ≤ priv.old_chrome_height + grid_height * priv.old_char_height →
      priv.old_chrome_height + grid_height * priv.old_char_height < 2147483648 →
      pixel_height = priv.old_chrome_height + grid_height * priv.old_char_height) := by
  intro priv geom grid_width grid_height pixel_width pixel_height
  refine ⟨⟨_, update_size_requests window screen even_if_mapped geometry_string hnm, ?_⟩,
    ?_, ?_, ?_, ?_, ?_, ?_⟩
  · intro r hr a b
    unfold position_requests at hr
    split at hr
    · simp only [List.mem_cons, List.mem_singleton, List.not_mem_nil, or_false] at hr
      rcases hr with rfl | rfl <;> exact ⟨by simp, by simp⟩
    · exact absurd hr (List.not_mem_nil r)
  · intro hb hlt
    show (if geom.mask &&& WidthValue ≠ 0 then toInt geom.width else screen.grid_width) = _
    rw [if_pos hb, toInt_of_range (by omega) (by omega)]
  · intro hb hlt
    show (if geom.mask &&& HeightValue ≠ 0 then toInt geom.height else screen.grid_height) = _
    rw [if_pos hb, toInt_of_range (by omega) (by omega)]
  · intro hb
    show (if geom.mask &&& WidthValue ≠ 0 then toInt geom.width else screen.grid_width) = _
    rw [if_neg (not_not.mpr hb)]
  · intro hb
    show (if geom.mask &&& HeightValue ≠ 0 then toInt geom.height else screen.grid_height) = _
    rw [if_neg (not_not.mpr hb)]
  · intro h0 h1
    show toInt (priv.old_chrome_width + toInt (grid_width * priv.old_char_width)) = _
    rw [toInt_add_toInt, toInt_of_range h0 h1]
  · intro h0 h1
    show toInt (priv.old_chrome_height + toInt (grid_height * priv.old_char_height)) = _
    rw [toInt_add_toInt, toInt_of_range h0 h1]

/-- Instance of C9: `exampleWindow` with the override `"100x30"`: chrome 50x40
and cells of 10x20 give 1050x640. -/
theorem size_computation_witness :
    int_add 50 (int_mul 100 10) = 50 + 100 * 10 ∧ int_add 40 (int_mul 30 20) = 40 + 30 * 20 :=
  ⟨(size_computation exampleWindow exampleScreen true (some "100x30".toList)
      (by decide)).2.2.2.2.2.1 (by decide) (by decide),
   (size_computation exampleWindow exampleScreen true (some "100x30".toList)
      (by decide)).2.2.2.2.2.2 (by decide) (by decide)⟩

/-- C10. Gravity resolution: for every mask the gravity chosen is south-east
when both the x-negative and the y-negative bit are set, north-east when only
x-negative is set, south-west when only y-negative is set and north-west
otherwise; and a size negotiation that is not skipped issues, after the size
call, the gravity and the move call when the mask of the override has an x or a
y component, and nothing more when it has neither. -/
theorem gravity_resolution (mask : Nat) (window : TerminalWindow) (screen : TerminalScreen)
    (even_if_mapped : Bool) (geometry_string : Option (List Char))
    (hnm : maximized_or_tiled window = false) :
    (mask &&& XNegative ≠ 0 → mask &&& YNegative ≠ 0 →
      pos_gravity_of mask = GdkGravity.GDK_GRAVITY_SOUTH_EAST) ∧
    (mask &&& XNegative ≠ 0 → mask &&& YNegative = 0 →
      pos_gravity_of mask = GdkGravity.GDK_GRAVITY_NORTH_EAST) ∧
    (mask &&& XNegative = 0 → mask &&& YNegative ≠ 0 →
      pos_gravity_of mask = GdkGravity.GDK_GRAVITY_SOUTH_WEST) ∧
    (mask &&& XNegative = 0 → mask &&& YNegative = 0 →
      pos_gravity_of mask = GdkGravity.GDK_GRAVITY_NORTH_WEST) ∧
    ((parse_override geometry_string).mask &&& XValue ≠ 0 ∨
        (parse_override geometry_string).mask &&& YValue ≠ 0 →
      ∃ (size : Request) (x y : Int),
        (terminal_window_update_size_set_geometry window screen even_if_mapped
            geometry_string).2.requests =
          (terminal_window_update_geometry window).requests ++
            [size, Request.set_gravity (pos_gravity_of (parse_override geometry_string).mask),
              Request.move x y] ∧
        ∃ a b : Int, size = Request.resize a b ∨ size = Request.set_default_size a b) ∧
    (¬ ((parse_override geometry_string).mask &&& XValue ≠ 0 ∨
        (parse_override geometry_string).mask &&& YValue ≠ 0) →
      ∃ size : Request,
        (terminal_window_update_size_set_geometry window screen even_if_mapped
            geometry_string).2.requests =
          (terminal_window_update_geometry window).requests ++ [size] ∧
        ∃ a b : Int, size = Request.resize a b ∨ size = Request.set_default_size a b) := by
  have hsize : ∀ (e m : Bool) (pw ph : Int), ∃ a b : Int,
      size_request e m pw ph = Request.resize a b ∨
        size_request e m pw ph = Request.set_default_size a b := by
    intro e m pw ph
    unfold size_request
    split
    · exact ⟨pw, ph, Or.inl rfl⟩
    · exact ⟨pw, ph, Or.inr rfl⟩
  refine ⟨?_, ?_, ?_, ?_, ?_, ?_⟩
  · intro hx hy
    simp only [pos_gravity_of, hx, hy, ne_eq, not_false_eq_true, and_self, if_true]
  · intro hx hy
    simp only [pos_gravity_of, hx, hy, ne_eq, not_false_eq_true, not_true_eq_false, and_false,
      if_false, if_true]
  · intro hx hy
    simp only [pos_gravity_of, hx, hy, ne_eq, not_false_eq_true, not_true_eq_false, false_and,
      if_false, if_true]
  · intro hx hy
    simp only [pos_gravity_of, hx, hy, ne_eq, not_true_eq_false, and_self, if_false]
  · intro hpos
    rw [update_size_requests window screen even_if_mapped geometry_string hnm]
    simp only [position_requests, hpos, if_true]
    exact ⟨_, _, _, rfl, hsize _ _ _ _⟩
  · intro hpos
    rw [update_size_requests window screen even_if_mapped geometry_string hnm]
    simp only [position_requests, hpos, if_false]
    exact ⟨_, rfl, hsize _ _ _ _⟩

/-- Instance of C10: the mask of `"80x24-10-10"` resolves to south-east, the
mask of `"-10"` to north-east. -/
theorem gravity_resolution_witness :
    pos_gravity_of (parse_override (some "80x24-10-10".toList)).mask =
      GdkGravity.GDK_GRAVITY_SOUTH_EAST ∧
    pos_gravity_of (parse_override (some "-10".toList)).mask =
      GdkGravity.GDK_GRAVITY_NORTH_EAST :=
  ⟨(gravity_resolution (parse_override (some "80x24-10-10".toList)).mask exampleWindow
      exampleScreen true none (by decide)).1 (by decide) (by decide),
   (gravity_resolution (parse_override (some "-10".toList)).mask exampleWindow
      exampleScreen true none (by decide)).2.1 (by decide) (by decide)⟩

/-! ## Theorems: the shape of the parse mask -/

theorem parse_width_mask {l l' : Locals} (h : parse_width l = some l') :
    l'.mask = l.mask ∨ l'.mask = l.mask ||| WidthValue := by
  unfold parse_width at h
  dsimp only at h
  split at h
  · split at h
    · exact absurd h (by simp)
    · cases h; exact Or.inr rfl
  · cases h; exact Or.inl rfl

theorem parse_height_mask {l l' : Locals} (h : parse_height l = some l') :
    l'.mask = l.mask ∨ l'.mask = l.mask ||| HeightValue := by
  unfold parse_height at h
  dsimp only at h
  split at h
  · split at h
    · exact absurd h (by simp)
    · cases h; exact Or.inr rfl
  · cases h; exact Or.inl rfl

theorem parse_x_mask {l l' : Locals} (h : parse_x l = some l') :
    l'.mask = (l.mask ||| XNegative) ||| XValue ∨ l'.mask = l.mask ||| XValue := by
  unfold parse_x at h
  dsimp only at h
  split at h <;> split at h
  · exact absurd h (by simp)
  · cases h; exact Or.inl rfl
  · exact absurd h (by simp)
  · cases h; exact Or.inr rfl

theorem parse_y_mask {l l' : Locals} (h : parse_y l = some l') :
    l'.mask = l.mask ∨ l'.mask = (l.mask ||| YNegative) ||| YValue ∨
      l'.mask = l.mask ||| YValue := by
  unfold parse_y at h
  dsimp only at h
  split at h
  · split at h <;> split at h
    · exact absurd h (by simp)
    · cases h; exact Or.inr (Or.inl rfl)
    · exact absurd h (by simp)
    · cases h; exact Or.inr (Or.inr rfl)
  · cases h; exact Or.inl rfl

theorem parse_offsets_mask {l l' : Locals} (h : parse_offsets l = some l') :
    l'.mask = l.mask ∨
    ∃ mx, (mx = (l.mask ||| XNegative) ||| XValue ∨ mx = l.mask ||| XValue) ∧
      (l'.mask = mx ∨ l'.mask = (mx ||| YNegative) ||| YValue ∨ l'.mask = mx ||| YValue) := by
  unfold parse_offsets at h
  split at h
  · cases hx : parse_x l with
    | none => rw [hx] at h; exact absurd h (by simp)
    | some l1 =>
      rw [hx, Option.some_bind] at h
      exact Or.inr ⟨l1.mask, parse_x_mask hx, parse_y_mask h⟩
  · cases h; exact Or.inl rfl

/-- Every mask the three blocks can leave is one of `validMasks`. -/
theorem afterOffsets_mask_mem {s : List Char} {l : Locals} (h : afterOffsets s = some l) :
    l.mask ∈ validMasks := by
  unfold afterOffsets afterHeight afterWidth at h
  cases hw : parse_width (initLocals s) with
  | none => rw [hw] at h; exact absurd h (by simp)
  | some l1 =>
    rw [hw, Option.some_bind] at h
    cases hh : parse_height l1 with
    | none => rw [hh] at h; exact absurd h (by simp)
    | some l2 =>
      rw [hh, Option.some_bind] at h
      have h0 : (initLocals s).mask = 0 := rfl
      have h1 := parse_width_mask hw
      have h2 := parse_height_mask hh
      have h3 := parse_offsets_mask h
      rw [h0] at h1
      rcases h1 with h1 | h1 <;> rw [h1] at h2 <;> rcases h2 with h2 | h2 <;> rw [h2] at h3 <;>
        rcases h3 with h3 | ⟨mx, hmx | hmx, h3 | h3 | h3⟩ <;>
        (try subst hmx) <;> rw [h3] <;> decide

/-- The mask returned by `terminal_window_XParseGeometry` is one of `validMasks`. -/
theorem XParseGeometry_mask_mem (string : Option (List Char)) (x y : Int) (w h : Nat) :
    (terminal_window_XParseGeometry string x y w h).mask ∈ validMasks := by
  rcases XParseGeometry_cases string x y w h with hfail | ⟨s, l, -, -, hA, -, hform⟩
  · rw [hfail]
    show NoValue ∈ validMasks
    decide
  · rw [hform]; exact afterOffsets_mask_mem hA

theorem parse_override_mask_mem (geometry_string : Option (List Char)) :
    (parse_override geometry_string).mask ∈ validMasks := by
  cases geometry_string with
  | none => decide
  | some s => exact XParseGeometry_mask_mem (some s) 0 0 0 0

/-- What holds of every mask in `validMasks`: a negative bit comes with its
value bit and a y bit with the x bit. -/
theorem validMasks_bits : ∀ m ∈ validMasks,
    (m &&& YValue ≠ 0 → m &&& XValue ≠ 0) ∧ (m &&& XNegative ≠ 0 → m &&& XValue ≠ 0) ∧
    (m &&& YNegative ≠ 0 → m &&& YValue ≠ 0) := by
  decide

/-! ## Theorems: the position of the window -/

theorem update_geometry_screen_width (window : TerminalWindow) :
    (terminal_window_update_geometry window).screen_width = window.screen_width := by
  unfold terminal_window_update_geometry
  dsimp only
  split
  · rfl
  · split <;> rfl

theorem update_geometry_screen_height (window : TerminalWindow) :
    (terminal_window_update_geometry window).screen_height = window.screen_height := by
  unfold terminal_window_update_geometry
  dsimp only
  split
  · rfl
  · split <;> rfl

/-- The gravity is an eastern one exactly when the x-negative bit is set. -/
theorem pos_gravity_east_iff (m : Nat) :
    (pos_gravity_of m = GdkGravity.GDK_GRAVITY_SOUTH_EAST ∨
      pos_gravity_of m = GdkGravity.GDK_GRAVITY_NORTH_EAST) ↔ m &&& XNegative ≠ 0 := by
  unfold pos_gravity_of
  by_cases hx : m &&& XNegative ≠ 0 <;> by_cases hy : m &&& YNegative ≠ 0 <;> simp [hx, hy]

/-- The gravity is a southern one exactly when the y-negative bit is set. -/
theorem pos_gravity_south_iff (m : Nat) :
    (pos_gravity_of m = GdkGravity.GDK_GRAVITY_SOUTH_WEST ∨
      pos_gravity_of m = GdkGravity.GDK_GRAVITY_SOUTH_EAST) ↔ m &&& YNegative ≠ 0 := by
  unfold pos_gravity_of
  by_cases hx : m &&& XNegative ≠ 0 <;> by_cases hy : m &&& YNegative ≠ 0 <;> simp [hx, hy]

/-- An offset the override does not supply is 0 after the parse step. -/
theorem parse_override_absent (geometry_string : Option (List Char)) :
    ((parse_override geometry_string).mask &&& XValue = 0 →
      (parse_override geometry_string).x = 0) ∧
    ((parse_override geometry_string).mask &&& YValue = 0 →
      (parse_override geometry_string).y = 0) := by
  cases geometry_string with
  | none => exact ⟨fun _ => rfl, fun _ => rfl⟩
  | some s =>
    unfold parse_override
    dsimp only
    rcases XParseGeometry_cases (some s) 0 0 0 0 with hfail | ⟨s', l, -, -, -, -, hform⟩
    · rw [hfail]; exact ⟨fun _ => rfl, fun _ => rfl⟩
    · rw [hform]
      dsimp only
      exact ⟨fun hb => by rw [if_neg (not_not.mpr hb)],
        fun hb => by rw [if_neg (not_not.mpr hb)]⟩

theorem force_pos_x_of_eq (window : TerminalWindow) (geom : Geometry) (pixel_width : Int)
    (hx0 : geom.mask &&& XValue = 0 → geom.x = 0) :
    force_pos_x_of window geom pixel_width =
      if geom.mask &&& XNegative ≠ 0 then
        max 0 (int_add (int_sub window.screen_width pixel_width) geom.x)
      else max 0 geom.x := by
  have hx : (if geom.mask &&& XValue = 0 then (0 : Int) else geom.x) = geom.x := by
    split
    · next h => exact (hx0 h).symm
    · rfl
  unfold force_pos_x_of
  simp only [hx, pos_gravity_east_iff]
  split <;> split <;> omega

theorem force_pos_y_of_eq (window : TerminalWindow) (geom : Geometry) (pixel_height : Int)
    (hy0 : geom.mask &&& YValue = 0 → geom.y = 0) :
    force_pos_y_of window geom pixel_height =
      if geom.mask &&& YNegative ≠ 0 then
        max 0 (int_add (int_sub window.screen_height pixel_height) geom.y)
      else max 0 geom.y := by
  have hy : (if geom.mask &&& YValue = 0 then (0 : Int) else geom.y) = geom.y := by
    split
    · next h => exact (hy0 h).symm
    · rfl
  unfold force_pos_y_of
  simp only [hy, pos_gravity_south_iff]
  split <;> split <;> omega

/-- The requests of a negotiation whose override supplies a position, with the
move coordinates in closed form. -/
theorem update_size_position (window : TerminalWindow) (screen : TerminalScreen)
    (even_if_mapped : Bool) (geometry_string : Option (List Char))
    (hnm : maximized_or_tiled window = false)
    (hpos : (parse_override geometry_string).mask &&& XValue ≠ 0 ∨
      (parse_override geometry_string).mask &&& YValue ≠ 0) :
    (terminal_window_update_size_set_geometry window screen even_if_mapped
        geometry_string).2.requests =
      (terminal_window_update_geometry window).requests ++
        [size_request even_if_mapped window.mapped
            (pixel_width_of (terminal_window_update_geometry window).priv
              (override_grid_width screen (parse_override geometry_string)))
            (pixel_height_of (terminal_window_update_geometry window).priv
              (override_grid_height screen (parse_override geometry_string))),
          Request.set_gravity (pos_gravity_of (parse_override geometry_string).mask),
          Request.move
            (if (parse_override geometry_string).mask &&& XNegative ≠ 0 then
              max 0 (int_add (int_sub window.screen_width
                (pixel_width_of (terminal_window_update_geometry window).priv
                  (override_grid_width screen (parse_override geometry_string))))
                (parse_override geometry_string).x)
             else max 0 (parse_override geometry_string).x)
            (if (parse_override geometry_string).mask &&& YNegative ≠ 0 then
              max 0 (int_add (int_sub window.screen_height
                (pixel_height_of (terminal_window_update_geometry window).priv
                  (override_grid_height screen (parse_override geometry_string))))
                (parse_override geometry_string).y)
             else max 0 (parse_override geometry_string).y)] := by
  rw [update_size_requests window screen even_if_mapped geometry_string hnm]
  simp only [position_requests, hpos, if_true]
  rw [force_pos_x_of_eq _ _ _ (parse_override_absent geometry_string).1,
    force_pos_y_of_eq _ _ _ (parse_override_absent geometry_string).2,
    update_geometry_screen_width, update_geometry_screen_height]

/-- C11. Resolved position with off-screen clamp: when the override supplies a
position, the move issued after the size call has
`x = max (0, screen_width - pixel_width + xoff)` when the x-negative bit is set
and `max (0, xoff)` otherwise, and `y` likewise from the screen height, the
pixel height and the y-negative bit, in `int` arithmetic (exact whenever the
exact value fits an `int`), with `xoff`, `yoff` as the parser stored them; so
neither coordinate is negative, `"80x24+10+10"` gives the north-west gravity at
(10, 10), and `"80x24-10-10"` on a 1920x1080 screen with a pixel size of 800x600
gives the south-east gravity at (1110, 470). -/
theorem resolved_position (window : TerminalWindow) (screen : TerminalScreen)
    (even_if_mapped : Bool) (geometry_string : Option (List Char))
    (hnm : maximized_or_tiled window = false)
    (hpos : (parse_override geometry_string).mask &&& XValue ≠ 0 ∨
      (parse_override geometry_string).mask &&& YValue ≠ 0) :
    let geom := parse_override geometry_string
    let priv := (terminal_window_update_geometry window).priv
    let pixel_width := pixel_width_of priv (override_grid_width screen geom)
    let pixel_height := pixel_height_of priv (override_grid_height screen geom)
    let x := if geom.mask &&& XNegative ≠ 0 then
        max 0 (int_add (int_sub window.screen_width pixel_width) geom.x)
      else max 0 geom.x
    let y := if geom.mask &&& YNegative ≠ 0 then
        max 0 (int_add (int_sub window.screen_height pixel_height) geom.y)
      else max 0 geom.y
    (∃ size : Request,
      (terminal_window_update_size_set_geometry window screen even_if_mapped
          geometry_string).2.requests =
        (terminal_window_update_geometry window).requests ++
          [size, Request.set_gravity (pos_gravity_of geom.mask), Request.move x y]) ∧
    0 ≤ x ∧ 0 ≤ y ∧
    (-2147483648 ≤ window.screen_width - pixel_width →
      window.screen_width - pixel_width + geom.x < 2147483648 →
      window.screen_width - pixel_width < 2147483648 →
      -2147483648 ≤ window.screen_width - pixel_width + geom.x →
      int_add (int_sub window.screen_width pixel_width) geom.x =
        window.screen_width - pixel_width + geom.x) ∧
    (-2147483648 ≤ window.screen_height - pixel_height →
      window.screen_height - pixel_height + geom.y < 2147483648 →
      window.screen_height - pixel_height < 2147483648 →
      -2147483648 ≤ window.screen_height - pixel_height + geom.y →
      int_add (int_sub window.screen_height pixel_height) geom.y =
        window.screen_height - pixel_height + geom.y) ∧
    (∀ (w2 : TerminalWindow) (s2 : TerminalScreen) (e2 : Bool),
      maximized_or_tiled w2 = false →
      ∃ size : Request,
        (terminal_window_update_size_set_geometry w2 s2 e2
            (some "80x24+10+10".toList)).2.requests =
          (terminal_window_update_geometry w2).requests ++
            [size, Request.set_gravity GdkGravity.GDK_GRAVITY_NORTH_WEST, Request.move 10 10]) ∧
    (∀ (w2 : TerminalWindow) (s2 : TerminalScreen) (e2 : Bool),
      maximized_or_tiled w2 = false →
      w2.screen_width = 1920 → w2.screen_height = 1080 →
      pixel_width_of (terminal_window_update_geometry w2).priv
        (override_grid_width s2 (parse_override (some "80x24-10-10".toList))) = 800 →
      pixel_height_of (terminal_window_update_geometry w2).priv
        (override_grid_height s2 (parse_override (some "80x24-10-10".toList))) = 600 →
      ∃ size : Request,
        (terminal_window_update_size_set_geometry w2 s2 e2
            (some "80x24-10-10".toList)).2.requests =
          (terminal_window_update_geometry w2).requests ++
            [size, Request.set_gravity GdkGravity.GDK_GRAVITY_SOUTH_EAST,
              Request.move 1110 470]) := by
  intro geom priv pixel_width pixel_height x y
  refine ⟨⟨_, update_size_position window screen even_if_mapped geometry_string hnm hpos⟩,
    ?_, ?_, ?_, ?_, ?_, ?_⟩
  · show 0 ≤ (if geom.mask &&& XNegative ≠ 0 then
        max 0 (int_add (int_sub window.screen_width pixel_width) geom.x)
      else max 0 geom.x)
    split <;> exact le_max_left _ _
  · show 0 ≤ (if geom.mask &&& YNegative ≠ 0 then
        max 0 (int_add (int_sub window.screen_height pixel_height) geom.y)
      else max 0 geom.y)
    split <;> exact le_max_left _ _
  · intro h0 h1 h2 h3
    show toInt (toInt (window.screen_width - pixel_width) + geom.x) = _
    rw [toInt_of_range h0 h2, toInt_of_range h3 h1]
  · intro h0 h1 h2 h3
    show toInt (toInt (window.screen_height - pixel_height) + geom.y) = _
    rw [toInt_of_range h0 h2, toInt_of_range h3 h1]
  · intro w2 s2 e2 hnm2
    have hp : parse_override (some "80x24+10+10".toList) = ⟨15, 10, 10, 80, 24⟩ := by decide
    have h := update_size_position w2 s2 e2 (some "80x24+10+10".toList) hnm2
      (by rw [hp]; decide)
    rw [hp] at h
    have hg : pos_gravity_of 15 = GdkGravity.GDK_GRAVITY_NORTH_WEST := by decide
    have h16 : ¬ ((15 : Nat) &&& XNegative ≠ 0) := by decide
    have h32 : ¬ ((15 : Nat) &&& YNegative ≠ 0) := by decide
    have hm : max (0 : Int) 10 = 10 := by decide
    dsimp only at h
    simp only [hg, h16, h32, if_false, hm] at h
    exact ⟨_, h⟩
  · intro w2 s2 e2 hnm2 hsw hsh hpw hph
    have hp : parse_override (some "80x24-10-10".toList) = ⟨63, -10, -10, 80, 24⟩ := by decide
    have h := update_size_position w2 s2 e2 (some "80x24-10-10".toList) hnm2
      (by rw [hp]; decide)
    rw [hpw, hph, hsw, hsh, hp] at h
    have hg : pos_gravity_of 63 = GdkGravity.GDK_GRAVITY_SOUTH_EAST := by decide
    have h16 : (63 : Nat) &&& XNegative ≠ 0 := by decide
    have h32 : (63 : Nat) &&& YNegative ≠ 0 := by decide
    have hx : max 0 (int_add (int_sub 1920 800) (-10)) = 1110 := by decide
    have hy : max 0 (int_add (int_sub 1080 600) (-10)) = 470 := by decide
    dsimp only at h
    simp only [hg, h16, h32, if_true, hx, hy] at h
    exact ⟨_, h⟩

/-- Instance of C11: `wideWindow` (pixel size 800x600 on a 1920x1080 screen)
with the override `"80x24-10-10"` is moved to (1110, 470) with the south-east
gravity. -/
theorem resolved_position_witness :
    ∃ size : Request,
      (terminal_window_update_size_set_geometry wideWindow wideScreen true
          (some "80x24-10-10".toList)).2.requests =
        (terminal_window_update_geometry wideWindow).requests ++
          [size, Request.set_gravity GdkGravity.GDK_GRAVITY_SOUTH_EAST, Request.move 1110 470] :=
  (resolved_position wideWindow wideScreen true (some "80x24-10-10".toList) (by decide)
    (by decide)).2.2.2.2.2.2 wideWindow wideScreen true (by decide) rfl rfl
    (by decide) (by decide)

theorem position_after_append (a b : List Request) :
    ∀ pos : Int × Int, position_after pos (a ++ b) = position_after (position_after pos a) b := by
  induction a with
  | nil => intro pos; rfl
  | cons r a ih =>
    intro pos
    cases r <;> simp only [List.cons_append, position_after] <;> exact ih _

/-- The hint refresh adds at most one request, a `set_geometry_hints`. -/
theorem update_geometry_requests (window : TerminalWindow) :
    (terminal_window_update_geometry window).requests = window.requests ∨
    ∃ hints, (terminal_window_update_geometry window).requests =
      window.requests ++ [Request.set_geometry_hints hints] := by
  unfold terminal_window_update_geometry
  dsimp only
  split
  · exact Or.inl rfl
  · split
    · exact Or.inr ⟨_, rfl⟩
    · exact Or.inl rfl

theorem position_after_update_geometry (window : TerminalWindow) (pos : Int × Int) :
    position_after pos (terminal_window_update_geometry window).requests =
      position_after pos window.requests := by
  rcases update_geometry_requests window with h | ⟨hints, h⟩
  · rw [h]
  · rw [h, position_after_append]
    rfl

theorem position_after_size_request (e m : Bool) (pw ph : Int) (pos : Int × Int)
    (rs : List Request) :
    position_after pos (size_request e m pw ph :: rs) = position_after pos rs := by
  unfold size_request
  split <;> rfl

/-- C12, counterexample to the claim as stated: the override `"+10"` supplies an
x offset and no y offset, and a window standing at (100, 200) is moved to
(10, 0): its y position changes from 200 to 0. -/
theorem absent_component_counterexample :
    (parse_override (some "+10".toList)).mask &&& XValue ≠ 0 ∧
    (parse_override (some "+10".toList)).mask &&& YValue = 0 ∧
    maximized_or_tiled exampleWindow = false ∧
    position_after (100, 200)
      (terminal_window_update_size_set_geometry exampleWindow exampleScreen true
        (some "+10".toList)).2.requests = (10, 0) := by
  decide

/-- C12, amended: for a window that is not maximized or tiled, an override that
supplies an x offset but no y offset makes
`terminal_window_update_size_set_geometry` issue a move whose y coordinate is 0,
so the window ends at y = 0 wherever it stood; an override that supplies neither
offset leaves the window position as it was. -/
theorem absent_y_moves_to_zero (window : TerminalWindow) (screen : TerminalScreen)
    (even_if_mapped : Bool) (geometry_string : Option (List Char))
    (hnm : maximized_or_tiled window = false) (pos : Int × Int) :
    ((parse_override geometry_string).mask &&& XValue ≠ 0 →
      (parse_override geometry_string).mask &&& YValue = 0 →
      (∃ (size : Request) (g : GdkGravity) (x : Int),
        (terminal_window_update_size_set_geometry window screen even_if_mapped
            geometry_string).2.requests =
          (terminal_window_update_geometry window).requests ++
            [size, Request.set_gravity g, Request.move x 0]) ∧
      (position_after pos
        (terminal_window_update_size_set_geometry window screen even_if_mapped
          geometry_string).2.requests).2 = 0) ∧
    ((parse_override geometry_string).mask &&& XValue = 0 →
      (parse_override geometry_string).mask &&& YValue = 0 →
      position_after pos
        (terminal_window_update_size_set_geometry window screen even_if_mapped
          geometry_string).2.requests = position_after pos window.requests) := by
  constructor
  · intro hx hy
    have hbits := validMasks_bits _ (parse_override_mask_mem geometry_string)
    have hyn : ¬ ((parse_override geometry_string).mask &&& YNegative ≠ 0) :=
      fun h => hbits.2.2 h hy
    have hy0 : (parse_override geometry_string).y = 0 :=
      (parse_override_absent geometry_string).2 hy
    have h := update_size_position window screen even_if_mapped geometry_string hnm (Or.inl hx)
    have hm : max (0 : Int) 0 = 0 := by decide
    simp only [hyn, if_false, hy0, hm] at h
    refine ⟨⟨_, _, _, h⟩, ?_⟩
    rw [h, position_after_append]
    unfold size_request
    split <;> rfl
  · intro hx hy
    rw [update_size_requests window screen even_if_mapped geometry_string hnm,
      position_after_append, position_after_size_request]
    have hno : ¬ ((parse_override geometry_string).mask &&& XValue ≠ 0 ∨
        (parse_override geometry_string).mask &&& YValue ≠ 0) := by
      rintro (h | h)
      · exact h hx
      · exact h hy
    simp only [position_requests, hno, if_false, position_after]
    exact position_after_update_geometry window pos

/-- Instance of the amended C12: `exampleWindow`, standing at (100, 200), with
the override `"80x24-10"`. -/
theorem absent_y_moves_to_zero_witness :
    (position_after (100, 200)
      (terminal_window_update_size_set_geometry exampleWindow exampleScreen true
        (some "80x24-10".toList)).2.requests).2 = 0 :=
  ((absent_y_moves_to_zero exampleWindow exampleScreen true (some "80x24-10".toList)
    (by decide) (100, 200)).1 (by decide) (by decide)).2

/-! ## Theorems: a malformed override -/

/-- An override whose parse returns `NoValue` leaves the parse step exactly as
when no override is given. -/
theorem parse_override_of_NoValue (s : List Char)
    (hmask : (terminal_window_XParseGeometry (some s) 0 0 0 0).mask = NoValue) :
    parse_override (some s) = parse_override none := by
  unfold parse_override
  dsimp only
  rcases XParseGeometry_cases (some s) 0 0 0 0 with hfail | ⟨s', l, -, -, -, -, hform⟩
  · rw [hfail]
  · have hl : l.mask = 0 := by
      rw [hform] at hmask
      exact hmask
    rw [hform]
    simp only [hl, Nat.zero_and, ne_eq, not_true_eq_false, if_false]
    rfl

/-- C13. Malformed override falls back to grid-derived sizing: for an
unparseable geometry string, `terminal_window_update_size_set_geometry` leaves
the window exactly as the same call without a geometry string does; when the
window is not maximized or tiled that is the hint refresh followed by one size
call for chrome plus the tab's own grid times the cell size, with no gravity and
no move call, and the flag is FALSE where the call without a string gives TRUE. -/
theorem malformed_override_fallback (window : TerminalWindow) (screen : TerminalScreen)
    (even_if_mapped : Bool) (s : List Char)
    (hmask : (terminal_window_XParseGeometry (some s) 0 0 0 0).mask = NoValue) :
    (terminal_window_update_size_set_geometry window screen even_if_mapped (some s)).2 =
      (terminal_window_update_size_set_geometry window screen even_if_mapped none).2 ∧
    (maximized_or_tiled window = false →
      (terminal_window_update_size_set_geometry window screen even_if_mapped (some s)).2.requests =
        (terminal_window_update_geometry window).requests ++
          [size_request even_if_mapped window.mapped
            (int_add (terminal_window_update_geometry window).priv.old_chrome_width
              (int_mul screen.grid_width
                (terminal_window_update_geometry window).priv.old_char_width))
            (int_add (terminal_window_update_geometry window).priv.old_chrome_height
              (int_mul screen.grid_height
                (terminal_window_update_geometry window).priv.old_char_height))] ∧
      (terminal_window_update_size_set_geometry window screen even_if_mapped (some s)).1 = false ∧
      (terminal_window_update_size_set_geometry window screen even_if_mapped none).1 = true) := by
  have hp := parse_override_of_NoValue s hmask
  have hm : (parse_override (some s)).mask = NoValue := hmask
  refine ⟨?_, ?_⟩
  · unfold terminal_window_update_size_set_geometry
    split
    · rfl
    · simp only [hp]
  · intro hnm
    refine ⟨?_, ?_, ?_⟩
    · rw [update_size_requests window screen even_if_mapped (some s) hnm, hp]
      rfl
    · simp only [terminal_window_update_size_set_geometry, hnm, Bool.false_eq_true, if_false, hm,
        ne_eq, not_false_eq_true, and_self, if_true, reduceCtorEq]
    · simp only [terminal_window_update_size_set_geometry, hnm, Bool.false_eq_true, if_false,
        ne_eq, not_true_eq_false, false_and]

/-- Instance of C13: `exampleWindow` with the unparseable override `"80x24+"`. -/
theorem malformed_override_fallback_witness :
    (terminal_window_update_size_set_geometry exampleWindow exampleScreen true
        (some "80x24+".toList)).2 =
      (terminal_window_update_size_set_geometry exampleWindow exampleScreen true none).2 :=
  (malformed_override_fallback exampleWindow exampleScreen true "80x24+".toList (by decide)).1

/-! ## Theorems: the hint refresh -/

/-- The hint refresh with an active tab, in closed form. -/
theorem update_geometry_of_active (window : TerminalWindow) (a : TerminalScreen)
    (h : window.priv.active_screen = some a) :
    terminal_window_update_geometry window =
      { window with
        requests :=
          if hints_changed window a then
            window.requests ++
              [Request.set_geometry_hints
                (geometry_hints_of (chrome_width_of window a) (chrome_height_of window a)
                  a.char_width a.char_height)]
          else window.requests
        priv :=
          { active_screen := window.priv.active_screen
            old_char_width := a.char_width
            old_char_height := a.char_height
            old_chrome_width := chrome_width_of window a
            old_chrome_height := chrome_height_of window a
            old_padding_width := padding_width_of a
            old_padding_height := padding_height_of a
            old_geometry_widget :=
              if hints_changed window a then some a.widget
              else window.priv.old_geometry_widget } } := by
  unfold terminal_window_update_geometry
  simp only [h]
  by_cases hc : hints_changed window a
  · have hc' := hc
    unfold hints_changed padding_width_of padding_height_of chrome_width_of chrome_height_of
      at hc'
    rw [if_pos hc', if_pos hc, if_pos hc]
    rfl
  · have hc' := hc
    unfold hints_changed padding_width_of padding_height_of chrome_width_of chrome_height_of
      at hc'
    rw [if_neg hc', if_neg hc, if_neg hc]
    rw [h]
    rfl

theorem update_geometry_of_none (window : TerminalWindow)
    (h : window.priv.active_screen = none) :
    terminal_window_update_geometry window = window := by
  unfold terminal_window_update_geometry
  simp only [h]

theorem toInt_sub_toInt (a b : Int) : toInt (a - toInt b) = toInt (a - b) := by
  unfold toInt; omega

/-- Hints are emitted only with an active tab whose values differ from the
cache, and they are the hints computed from that tab. -/
theorem hints_of_emitted (window : TerminalWindow) (hints : GdkGeometry)
    (hemit : (terminal_window_update_geometry window).requests =
      window.requests ++ [Request.set_geometry_hints hints]) :
    ∃ a, window.priv.active_screen = some a ∧ hints_changed window a ∧
      hints = geometry_hints_of (chrome_width_of window a) (chrome_height_of window a)
        a.char_width a.char_height := by
  cases h : window.priv.active_screen with
  | none =>
    rw [update_geometry_of_none window h] at hemit
    exact absurd hemit (by simp)
  | some a =>
    rw [update_geometry_of_active window a h] at hemit
    dsimp only at hemit
    by_cases hc : hints_changed window a
    · rw [if_pos hc] at hemit
      have := List.append_cancel_left hemit
      simp only [List.cons.injEq, Request.set_geometry_hints.injEq, and_true] at this
      exact ⟨a, rfl, hc, this.symm⟩
    · rw [if_neg hc] at hemit
      exact absurd hemit (by simp)

/-- C14. Hint values and minimum size: whenever
`terminal_window_update_geometry` emits hints there is an active tab, and with
its cell size (cw, ch) and grid (cols, rows) and the content-area request
(rw, rh) the hints are `base_width = rw - cw * cols`,
`base_height = rh - ch * rows`, `width_inc = cw`, `height_inc = ch`,
`min_width = base_width + cw * 4` and `min_height = base_height + ch * 1`, in
`int` arithmetic and exactly so whenever the exact values fit an `int`. -/
theorem hint_values (window : TerminalWindow) (hints : GdkGeometry)
    (hemit : (terminal_window_update_geometry window).requests =
      window.requests ++ [Request.set_geometry_hints hints]) :
    ∃ a, window.priv.active_screen = some a ∧
      hints.base_width = int_sub window.vbox_request_width (int_mul a.char_width a.grid_width) ∧
      hints.base_height =
        int_sub window.vbox_request_height (int_mul a.char_height a.grid_height) ∧
      hints.width_inc = a.char_width ∧
      hints.height_inc = a.char_height ∧
      hints.min_width = int_add hints.base_width (int_mul a.char_width 4) ∧
      hints.min_height = int_add hints.base_height (int_mul a.char_height 1) ∧
      (-2147483648 ≤ window.vbox_request_width - a.char_width * a.grid_width →
        window.vbox_request_width - a.char_width * a.grid_width < 2147483648 →
        hints.base_width = window.vbox_request_width - a.char_width * a.grid_width) ∧
      (-2147483648 ≤ window.vbox_request_height - a.char_height * a.grid_height →
        window.vbox_request_height - a.char_height * a.grid_height < 2147483648 →
        hints.base_height = window.vbox_request_height - a.char_height * a.grid_height) ∧
      (-2147483648 ≤ hints.base_width + a.char_width * 4 →
        hints.base_width + a.char_width * 4 < 2147483648 →
        hints.min_width = hints.base_width + a.char_width * 4) ∧
      (-2147483648 ≤ hints.base_height + a.char_height * 1 →
        hints.base_height + a.char_height * 1 < 2147483648 →
        hints.min_height = hints.base_height + a.char_height * 1) := by
  obtain ⟨a, ha, -, rfl⟩ := hints_of_emitted window hints hemit
  refine ⟨a, ha, rfl, rfl, rfl, rfl, rfl, rfl, ?_, ?_, ?_, ?_⟩
  · intro h0 h1
    show toInt (window.vbox_request_width - toInt (a.char_width * a.grid_width)) = _
    rw [toInt_sub_toInt, toInt_of_range h0 h1]
  · intro h0 h1
    show toInt (window.vbox_request_height - toInt (a.char_height * a.grid_height)) = _
    rw [toInt_sub_toInt, toInt_of_range h0 h1]
  · intro h0 h1
    show toInt (chrome_width_of window a + toInt (a.char_width * 4)) = _
    rw [toInt_add_toInt]
    exact toInt_of_range h0 h1
  · intro h0 h1
    show toInt (chrome_height_of window a + toInt (a.char_height * 1)) = _
    rw [toInt_add_toInt]
    exact toInt_of_range h0 h1

/-- Instance of C14: the first refresh of `exampleWindow` (content area 850x520,
80x24 cells of 10x20) emits base 50x40, increments 10x20 and minimum 90x60. -/
theorem hint_values_witness :
    ∃ a, exampleWindow.priv.active_screen = some a ∧
      (50 : Int) = int_sub exampleWindow.vbox_request_width (int_mul a.char_width a.grid_width) ∧
      (40 : Int) =
        int_sub exampleWindow.vbox_request_height (int_mul a.char_height a.grid_height) ∧
      (10 : Int) = a.char_width ∧
      (20 : Int) = a.char_height ∧
      (90 : Int) = int_add 50 (int_mul a.char_width 4) ∧
      (60 : Int) = int_add 40 (int_mul a.char_height 1) ∧
      (-2147483648 ≤ exampleWindow.vbox_request_width - a.char_width * a.grid_width →
        exampleWindow.vbox_request_width - a.char_width * a.grid_width < 2147483648 →
        (50 : Int) = exampleWindow.vbox_request_width - a.char_width * a.grid_width) ∧
      (-2147483648 ≤ exampleWindow.vbox_request_height - a.char_height * a.grid_height →
        exampleWindow.vbox_request_height - a.char_height * a.grid_height < 2147483648 →
        (40 : Int) = exampleWindow.vbox_request_height - a.char_height * a.grid_height) ∧
      (-2147483648 ≤ (50 : Int) + a.char_width * 4 →
        (50 : Int) + a.char_width * 4 < 2147483648 →
        (90 : Int) = 50 + a.char_width * 4) ∧
      (-2147483648 ≤ (40 : Int) + a.char_height * 1 →
        (40 : Int) + a.char_height * 1 < 2147483648 →
        (60 : Int) = 40 + a.char_height * 1) :=
  hint_values exampleWindow ⟨50, 40, 10, 20, 90, 60⟩ (by decide)

/-- After a hint refresh with the active tab `a`, nothing differs from the
cache any more. -/
theorem not_hints_changed_after (window : TerminalWindow) (a : TerminalScreen)
    (h : window.priv.active_screen = some a) :
    ¬ hints_changed (terminal_window_update_geometry window) a := by
  rw [update_geometry_of_active window a h]
  intro hch
  have hw : (if hints_changed window a then some a.widget
      else window.priv.old_geometry_widget) = some a.widget := by
    by_cases hc : hints_changed window a
    · rw [if_pos hc]
    · rw [if_neg hc]
      unfold hints_changed at hc
      simp only [not_or, ne_eq, not_not] at hc
      exact hc.2.2.2.2.2.2.symm
  change (a.char_width ≠ a.char_width ∨ a.char_height ≠ a.char_height ∨
    padding_width_of a ≠ padding_width_of a ∨ padding_height_of a ≠ padding_height_of a ∨
    chrome_width_of window a ≠ chrome_width_of window a ∨
    chrome_height_of window a ≠ chrome_height_of window a ∨
    some a.widget ≠ (if hints_changed window a then some a.widget
      else window.priv.old_geometry_widget)) at hch
  rw [hw] at hch
  simp at hch

theorem update_geometry_active_screen (window : TerminalWindow) :
    (terminal_window_update_geometry window).priv.active_screen = window.priv.active_screen := by
  cases h : window.priv.active_screen with
  | none => rw [update_geometry_of_none window h, h]
  | some a =>
    rw [update_geometry_of_active window a h]
    exact h

/-- A second hint refresh with unchanged inputs changes nothing. -/
theorem update_geometry_idem (window : TerminalWindow) :
    terminal_window_update_geometry (terminal_window_update_geometry window) =
      terminal_window_update_geometry window := by
  cases h : window.priv.active_screen with
  | none => rw [update_geometry_of_none window h, update_geometry_of_none window h]
  | some a =>
    have h1 : (terminal_window_update_geometry window).priv.active_screen = some a := by
      rw [update_geometry_active_screen, h]
    have hnc := not_hints_changed_after window a h
    rw [update_geometry_of_active (terminal_window_update_geometry window) a h1, if_neg hnc,
      if_neg hnc]
    rw [update_geometry_of_active window a h]
    rfl

/-- C15. Idempotence of the hint refresh: with an active tab,
`terminal_window_update_geometry` emits new hints exactly when one of cell
width, cell height, padding width, padding height, chrome width, chrome height
or the active widget differs from its cached value, and otherwise issues
nothing; without an active tab it changes nothing; hence a second call with
unchanged inputs emits no hints and leaves the whole window state equal to the
state after the first call. -/
theorem hints_idempotent (window : TerminalWindow) :
    (∀ a, window.priv.active_screen = some a →
      ((∃ hints, (terminal_window_update_geometry window).requests =
          window.requests ++ [Request.set_geometry_hints hints]) ↔
        (a.char_width ≠ window.priv.old_char_width ∨
          a.char_height ≠ window.priv.old_char_height ∨
          int_add a.padding_left a.padding_right ≠ window.priv.old_padding_width ∨
          int_add a.padding_top a.padding_bottom ≠ window.priv.old_padding_height ∨
          int_sub window.vbox_request_width (int_mul a.char_width a.grid_width) ≠
            window.priv.old_chrome_width ∨
          int_sub window.vbox_request_height (int_mul a.char_height a.grid_height) ≠
            window.priv.old_chrome_height ∨
          some a.widget ≠ window.priv.old_geometry_widget)) ∧
      ((terminal_window_update_geometry window).requests = window.requests ∨
        ∃ hints, (terminal_window_update_geometry window).requests =
          window.requests ++ [Request.set_geometry_hints hints])) ∧
    (window.priv.active_screen = none → terminal_window_update_geometry window = window) ∧
    terminal_window_update_geometry (terminal_window_update_geometry window) =
      terminal_window_update_geometry window ∧
    (terminal_window_update_geometry (terminal_window_update_geometry window)).requests =
      (terminal_window_update_geometry window).requests := by
  refine ⟨?_, update_geometry_of_none window, update_geometry_idem window, ?_⟩
  · intro a ha
    refine ⟨⟨?_, ?_⟩, update_geometry_requests window⟩
    · rintro ⟨hints, hemit⟩
      obtain ⟨a', ha', hc, -⟩ := hints_of_emitted window hints hemit
      rw [ha] at ha'
      cases ha'
      exact hc
    · intro hc
      have hc' : hints_changed window a := hc
      rw [update_geometry_of_active window a ha]
      dsimp only
      rw [if_pos hc']
      exact ⟨_, rfl⟩
  · rw [update_geometry_idem]

/-- Instance of C15: the first refresh of `exampleWindow` emits hints (the
cached widget is still NULL), the second issues nothing more. -/
theorem hints_idempotent_witness :
    (∃ hints, (terminal_window_update_geometry exampleWindow).requests =
      exampleWindow.requests ++ [Request.set_geometry_hints hints]) ∧
    (terminal_window_update_geometry (terminal_window_update_geometry exampleWindow)).requests =
      (terminal_window_update_geometry exampleWindow).requests :=
  ⟨((hints_idempotent exampleWindow).1 exampleScreen rfl).1.mpr (by decide),
   (hints_idempotent exampleWindow).2.2.2⟩

/-! ## Theorems: skipping the hints is an optimisation -/

theorem hints_in_force_append_hints (rs : List Request) (hints : GdkGeometry) :
    hints_in_force (rs ++ [Request.set_geometry_hints hints]) = some hints := by
  simp [hints_in_force, List.foldl_append]

theorem set_inputs_active_screen (window : TerminalWindow) (i : GeometryInputs) :
    (set_inputs window i).priv.active_screen = i.active_screen := rfl

/-- One step of the two runs keeps them in agreement: equal private state,
equal hints in force, and, once a widget is cached, hints in force equal to
those computed from the cache. -/
theorem update_geometry_step (w v : TerminalWindow) (i : GeometryInputs)
    (hpriv : w.priv = v.priv)
    (hhints : hints_in_force w.requests = hints_in_force v.requests)
    (hcache : w.priv.old_geometry_widget ≠ none →
      hints_in_force w.requests =
        some (geometry_hints_of w.priv.old_chrome_width w.priv.old_chrome_height
          w.priv.old_char_width w.priv.old_char_height)) :
    (terminal_window_update_geometry (set_inputs w i)).priv =
      (update_geometry_always_emit (set_inputs v i)).priv ∧
    hints_in_force (terminal_window_update_geometry (set_inputs w i)).requests =
      hints_in_force (update_geometry_always_emit (set_inputs v i)).requests ∧
    ((terminal_window_update_geometry (set_inputs w i)).priv.old_geometry_widget ≠ none →
      hints_in_force (terminal_window_update_geometry (set_inputs w i)).requests =
        some (geometry_hints_of
          (terminal_window_update_geometry (set_inputs w i)).priv.old_chrome_width
          (terminal_window_update_geometry (set_inputs w i)).priv.old_chrome_height
          (terminal_window_update_geometry (set_inputs w i)).priv.old_char_width
          (terminal_window_update_geometry (set_inputs w i)).priv.old_char_height)) := by
  cases hi : i.active_screen with
  | none =>
    have hw : (set_inputs w i).priv.active_screen = none := hi
    have hv : (set_inputs v i).priv.active_screen = none := hi
    rw [update_geometry_of_none _ hw]
    unfold update_geometry_always_emit
    simp only [hv]
    refine ⟨?_, hhints, hcache⟩
    show ({ w.priv with active_screen := i.active_screen } : TerminalWindowPrivate) =
      { v.priv with active_screen := i.active_screen }
    rw [hpriv]
  | some a =>
    have hw : (set_inputs w i).priv.active_screen = some a := hi
    have hv : (set_inputs v i).priv.active_screen = some a := hi
    rw [update_geometry_of_active _ a hw]
    unfold update_geometry_always_emit
    simp only [hv]
    have hchrome_w : chrome_width_of (set_inputs w i) a = chrome_width_of (set_inputs v i) a := rfl
    have hchrome_h : chrome_height_of (set_inputs w i) a = chrome_height_of (set_inputs v i) a :=
      rfl
    by_cases hc : hints_changed (set_inputs w i) a
    · simp only [if_pos hc]
      refine ⟨?_, ?_, fun _ => ?_⟩
      · rw [hw, hchrome_w, hchrome_h]
      · rw [hints_in_force_append_hints, hints_in_force_append_hints, hchrome_w, hchrome_h]
      · rw [hints_in_force_append_hints]
    · simp only [if_neg hc]
      have hc' := hc
      unfold hints_changed at hc'
      simp only [not_or, ne_eq, not_not] at hc'
      obtain ⟨h1, h2, -, -, h5, h6, h7⟩ := hc'
      have h1' : a.char_width = w.priv.old_char_width := h1
      have h2' : a.char_height = w.priv.old_char_height := h2
      have h5' : chrome_width_of (set_inputs w i) a = w.priv.old_chrome_width := h5
      have h6' : chrome_height_of (set_inputs w i) a = w.priv.old_chrome_height := h6
      have h7' : some a.widget = w.priv.old_geometry_widget := h7
      have hin : hints_in_force w.requests =
          some (geometry_hints_of (chrome_width_of (set_inputs w i) a)
            (chrome_height_of (set_inputs w i) a) a.char_width a.char_height) := by
        rw [h1', h2', h5', h6']
        exact hcache (by rw [← h7']; simp)
      refine ⟨?_, ?_, fun _ => ?_⟩
      · rw [hw]
        show ({ active_screen := some a, old_char_width := a.char_width
                old_char_height := a.char_height
                old_chrome_width := chrome_width_of (set_inputs w i) a
                old_chrome_height := chrome_height_of (set_inputs w i) a
                old_padding_width := padding_width_of a
                old_padding_height := padding_height_of a
                old_geometry_widget := w.priv.old_geometry_widget } : TerminalWindowPrivate) = _
        rw [← h7', hchrome_w, hchrome_h]
      · rw [hints_in_force_append_hints]
        exact hin.trans (by rw [hchrome_w, hchrome_h])
      · exact hin

/-- The two runs agree after every sequence of inputs. -/
theorem run_update_geometry_agree (inputs : List GeometryInputs) :
    ∀ w v : TerminalWindow, w.priv = v.priv →
      hints_in_force w.requests = hints_in_force v.requests →
      (w.priv.old_geometry_widget ≠ none →
        hints_in_force w.requests =
          some (geometry_hints_of w.priv.old_chrome_width w.priv.old_chrome_height
            w.priv.old_char_width w.priv.old_char_height)) →
      hints_in_force (run_update_geometry w inputs).requests =
        hints_in_force (run_update_geometry_always_emit v inputs).requests := by
  induction inputs with
  | nil => intro w v _ hh _; exact hh
  | cons i inputs ih =>
    intro w v hp hh hc
    obtain ⟨h1, h2, h3⟩ := update_geometry_step w v i hp hh hc
    exact ih _ _ h1 h2 h3

/-- What the caches hold after a hint refresh with the active tab `a`. -/
theorem update_geometry_caches (window : TerminalWindow) (a : TerminalScreen)
    (h : window.priv.active_screen = some a) :
    (terminal_window_update_geometry window).priv.old_char_width = a.char_width ∧
    (terminal_window_update_geometry window).priv.old_char_height = a.char_height ∧
    (terminal_window_update_geometry window).priv.old_chrome_width =
      int_sub window.vbox_request_width (int_mul a.char_width a.grid_width) ∧
    (terminal_window_update_geometry window).priv.old_chrome_height =
      int_sub window.vbox_request_height (int_mul a.char_height a.grid_height) ∧
    (terminal_window_update_geometry window).priv.old_padding_width =
      int_add a.padding_left a.padding_right ∧
    (terminal_window_update_geometry window).priv.old_padding_height =
      int_add a.padding_top a.padding_bottom ∧
    (terminal_window_update_geometry window).priv.old_geometry_widget = some a.widget := by
  rw [update_geometry_of_active window a h]
  refine ⟨rfl, rfl, rfl, rfl, rfl, rfl, ?_⟩
  dsimp only
  by_cases hc : hints_changed window a
  · rw [if_pos hc]
  · rw [if_neg hc]
    unfold hints_changed at hc
    simp only [not_or, ne_eq, not_not] at hc
    exact hc.2.2.2.2.2.2.symm

/-- C16. The skip is a pure optimisation: starting from a freshly initialised
window (caches -1, no cached widget), after every sequence of
`terminal_window_update_geometry` calls the hints in force on the window equal
those in force under the variant that emits hints on every call with an active
tab; and after a call with an active tab the cached cell, chrome and padding
sizes and the cached widget are the values computed from that call's inputs. -/
theorem skip_is_pure_optimisation (window : TerminalWindow)
    (hfresh : freshly_initialised window) (inputs : List GeometryInputs) :
    hints_in_force (run_update_geometry window inputs).requests =
      hints_in_force (run_update_geometry_always_emit window inputs).requests ∧
    (∀ (pre : List GeometryInputs) (i : GeometryInputs) (a : TerminalScreen),
      inputs = pre ++ [i] → i.active_screen = some a →
      (run_update_geometry window inputs).priv.old_char_width = a.char_width ∧
      (run_update_geometry window inputs).priv.old_char_height = a.char_height ∧
      (run_update_geometry window inputs).priv.old_chrome_width =
        int_sub i.vbox_request_width (int_mul a.char_width a.grid_width) ∧
      (run_update_geometry window inputs).priv.old_chrome_height =
        int_sub i.vbox_request_height (int_mul a.char_height a.grid_height) ∧
      (run_update_geometry window inputs).priv.old_padding_width =
        int_add a.padding_left a.padding_right ∧
      (run_update_geometry window inputs).priv.old_padding_height =
        int_add a.padding_top a.padding_bottom ∧
      (run_update_geometry window inputs).priv.old_geometry_widget = some a.widget) := by
  constructor
  · exact run_update_geometry_agree inputs window window rfl rfl
      (fun hne => absurd hfresh.2.2.2.2.2.2 hne)
  · intro pre i a hin ha
    subst hin
    have hrun : run_update_geometry window (pre ++ [i]) =
        terminal_window_update_geometry (set_inputs (run_update_geometry window pre) i) := by
      simp [run_update_geometry, List.foldl_append]
    rw [hrun]
    exact update_geometry_caches _ a ha

/-- Instance of C16: `exampleWindow` refreshed twice with the same inputs; the
second call skips the hints and the hints in force are those of the variant. -/
theorem skip_is_pure_optimisation_witness :
    hints_in_force (run_update_geometry exampleWindow [exampleInputs, exampleInputs]).requests =
      hints_in_force
        (run_update_geometry_always_emit exampleWindow [exampleInputs, exampleInputs]).requests :=
  (skip_is_pure_optimisation exampleWindow (by decide) [exampleInputs, exampleInputs]).1

/-! ## Theorems: what a size negotiation leaves alone -/

/-- The hint refresh changes only the private caches and the request log. -/
theorem update_geometry_frame (window : TerminalWindow) :
    terminal_window_update_geometry window =
      { window with
        priv := (terminal_window_update_geometry window).priv
        requests := (terminal_window_update_geometry window).requests } := by
  cases h : window.priv.active_screen with
  | none => rw [update_geometry_of_none window h]
  | some a => rw [update_geometry_of_active window a h]

/-- A size negotiation without override changes only the private caches and the
request log, and keeps the active tab. -/
theorem update_size_frame (window : TerminalWindow) (screen : TerminalScreen)
    (even_if_mapped : Bool) :
    (terminal_window_update_size window screen even_if_mapped).gdk_window = window.gdk_window ∧
    (terminal_window_update_size window screen even_if_mapped).mapped = window.mapped ∧
    (terminal_window_update_size window screen even_if_mapped).vbox_request_width =
      window.vbox_request_width ∧
    (terminal_window_update_size window screen even_if_mapped).vbox_request_height =
      window.vbox_request_height ∧
    (terminal_window_update_size window screen even_if_mapped).priv.active_screen =
      window.priv.active_screen := by
  unfold terminal_window_update_size terminal_window_update_size_set_geometry
  by_cases hm : maximized_or_tiled window = true
  · simp only [hm, if_true, and_self]
  · simp only [hm, Bool.false_eq_true, if_false]
    have hf := update_geometry_frame window
    refine ⟨?_, ?_, ?_, ?_, update_geometry_active_screen window⟩ <;> rw [hf]

/-- The size call of a negotiation without override for the active tab `a`:
chrome plus the grid of `screen` times the cell size of `a`. -/
theorem update_size_requests_of_active (window : TerminalWindow) (a screen : TerminalScreen)
    (even_if_mapped : Bool) (hnm : maximized_or_tiled window = false)
    (ha : window.priv.active_screen = some a) :
    (terminal_window_update_size window screen even_if_mapped).requests =
      (terminal_window_update_geometry window).requests ++
        [size_request even_if_mapped window.mapped
          (int_add (int_sub window.vbox_request_width (int_mul a.char_width a.grid_width))
            (int_mul screen.grid_width a.char_width))
          (int_add (int_sub window.vbox_request_height (int_mul a.char_height a.grid_height))
            (int_mul screen.grid_height a.char_height))] := by
  unfold terminal_window_update_size
  rw [update_size_requests window screen even_if_mapped none hnm]
  obtain ⟨h1, h2, h3, h4, -, -, -⟩ := update_geometry_caches window a ha
  unfold pixel_width_of pixel_height_of
  rw [h1, h2, h3, h4]
  rfl

/-! ## Theorems: the tab handlers -/

theorem set_menubar_visible_frame (window : TabbedWindow) (setting : Bool) :
    (terminal_window_set_menubar_visible window setting).gdk_window = window.gdk_window ∧
    (terminal_window_set_menubar_visible window setting).mapped = window.mapped ∧
    (terminal_window_set_menubar_visible window setting).vbox_request_width =
      window.vbox_request_width ∧
    (terminal_window_set_menubar_visible window setting).vbox_request_height =
      window.vbox_request_height ∧
    (terminal_window_set_menubar_visible window setting).priv.active_screen =
      window.priv.active_screen := by
  unfold terminal_window_set_menubar_visible
  dsimp only
  split
  · exact ⟨rfl, rfl, rfl, rfl, rfl⟩
  · split
    · next a ha => exact update_size_frame window.toTerminalWindow a true
    · exact ⟨rfl, rfl, rfl, rfl, rfl⟩

theorem maximized_or_tiled_congr {t u : TerminalWindow} (h : t.gdk_window = u.gdk_window) :
    maximized_or_tiled t = maximized_or_tiled u := by
  unfold maximized_or_tiled
  rw [h]

theorem update_tabs_menu_sensitivity_window (window : TabbedWindow) :
    (terminal_window_update_tabs_menu_sensitivity window).toTerminalWindow =
      window.toTerminalWindow := by
  unfold terminal_window_update_tabs_menu_sensitivity
  split <;> rfl

/-- The tab-selected handler on a live window for a tab that is not the active
one: the tab takes the grid of the previously active tab, if any, becomes the
active tab, and the handler ends with a size negotiation for it followed by the
refresh of the tab actions. -/
theorem page_selected_switch (window : TabbedWindow) (screen : TerminalScreen)
    (default_show_menubar : Bool) (hlive : window.disposed = false)
    (hne : window.priv.active_screen.map TerminalScreen.widget ≠ some screen.widget) :
    ∃ w2 : TabbedWindow,
      w2.gdk_window = window.gdk_window ∧ w2.mapped = window.mapped ∧
      w2.vbox_request_width = window.vbox_request_width ∧
      w2.vbox_request_height = window.vbox_request_height ∧
      w2.priv.active_screen =
        some (match window.priv.active_screen with
          | some a => vte_terminal_set_size screen a.grid_width a.grid_height
          | none => screen) ∧
      notebook_page_selected_callback window screen default_show_menubar =
        (terminal_window_update_tabs_menu_sensitivity
          { w2 with
            toTerminalWindow :=
              terminal_window_update_size w2.toTerminalWindow
                (match window.priv.active_screen with
                  | some a => vte_terminal_set_size screen a.grid_width a.grid_height
                  | none => screen) true },
         match window.priv.active_screen with
          | some a => vte_terminal_set_size screen a.grid_width a.grid_height
          | none => screen) := by
  have hdisp : ¬ (window.disposed = true) := by rw [hlive]; decide
  by_cases hd : window.use_default_menubar_visibility = true
  · refine ⟨terminal_window_set_menubar_visible
      { window with
        priv := { window.priv with
          active_screen :=
            some (match window.priv.active_screen with
              | some a => vte_terminal_set_size screen a.grid_width a.grid_height
              | none => screen) } } default_show_menubar,
      (set_menubar_visible_frame _ _).1, (set_menubar_visible_frame _ _).2.1,
      (set_menubar_visible_frame _ _).2.2.1, (set_menubar_visible_frame _ _).2.2.2.1,
      (set_menubar_visible_frame _ _).2.2.2.2, ?_⟩
    unfold notebook_page_selected_callback
    dsimp only
    rw [if_neg hdisp, if_neg hne, if_pos hd]
  · refine ⟨{ window with
        priv := { window.priv with
          active_screen :=
            some (match window.priv.active_screen with
              | some a => vte_terminal_set_size screen a.grid_width a.grid_height
              | none => screen) } }, rfl, rfl, rfl, rfl, rfl, ?_⟩
    unfold notebook_page_selected_callback
    dsimp only
    rw [if_neg hdisp, if_neg hne, if_neg hd]

/-- C17. Tab-switch size preservation: when the tab-selected handler of a live
window runs for a tab B while a different tab A is active, B's grid is set to
A's current grid (the rest of B is untouched), B becomes the active tab, and,
unless the window is maximized or tiled, the handler's last request is the size
call for chrome plus A's grid times B's cell size; when no tab was active
before, B is left as it was. -/
theorem tab_switch_size_preservation (window : TabbedWindow) (B : TerminalScreen)
    (default_show_menubar : Bool) (hlive : window.disposed = false) :
    (∀ A : TerminalScreen, window.priv.active_screen = some A → A.widget ≠ B.widget →
      (notebook_page_selected_callback window B default_show_menubar).2 =
        { B with grid_width := A.grid_width, grid_height := A.grid_height } ∧
      (notebook_page_selected_callback window B default_show_menubar).1.priv.active_screen =
        some { B with grid_width := A.grid_width, grid_height := A.grid_height } ∧
      (maximized_or_tiled window.toTerminalWindow = false →
        ∃ earlier : List Request,
          (notebook_page_selected_callback window B default_show_menubar).1.requests =
            earlier ++
              [size_request true window.mapped
                (int_add (int_sub window.vbox_request_width (int_mul B.char_width A.grid_width))
                  (int_mul A.grid_width B.char_width))
                (int_add
                  (int_sub window.vbox_request_height (int_mul B.char_height A.grid_height))
                  (int_mul A.grid_height B.char_height))])) ∧
    (window.priv.active_screen = none →
      (notebook_page_selected_callback window B default_show_menubar).2 = B ∧
      (notebook_page_selected_callback window B default_show_menubar).1.priv.active_screen =
        some B) := by
  constructor
  · intro A hA hAB
    have hne : window.priv.active_screen.map TerminalScreen.widget ≠ some B.widget := by
      rw [hA]
      simpa using hAB
    obtain ⟨w2, h1, h2, h3, h4, h5, heq⟩ :=
      page_selected_switch window B default_show_menubar hlive hne
    rw [hA] at h5 heq
    dsimp only at h5 heq
    rw [heq]
    refine ⟨rfl, ?_, ?_⟩
    · show (terminal_window_update_tabs_menu_sensitivity _).toTerminalWindow.priv.active_screen = _
      rw [update_tabs_menu_sensitivity_window]
      exact ((update_size_frame w2.toTerminalWindow _ true).2.2.2.2).trans h5
    · intro hnm
      have hnm2 : maximized_or_tiled w2.toTerminalWindow = false :=
        (maximized_or_tiled_congr h1).trans hnm
      refine ⟨(terminal_window_update_geometry w2.toTerminalWindow).requests, ?_⟩
      show (terminal_window_update_tabs_menu_sensitivity _).toTerminalWindow.requests = _
      rw [update_tabs_menu_sensitivity_window]
      have hreq := update_size_requests_of_active w2.toTerminalWindow
        (vte_terminal_set_size B A.grid_width A.grid_height)
        (vte_terminal_set_size B A.grid_width A.grid_height) true hnm2 h5
      rw [h2, h3, h4] at hreq
      exact hreq
  · intro hnone
    have hne : window.priv.active_screen.map TerminalScreen.widget ≠ some B.widget := by
      rw [hnone]
      simp
    obtain ⟨w2, -, -, -, -, h5, heq⟩ :=
      page_selected_switch window B default_show_menubar hlive hne
    rw [hnone] at h5 heq
    dsimp only at h5 heq
    rw [heq]
    refine ⟨rfl, ?_⟩
    show (terminal_window_update_tabs_menu_sensitivity _).toTerminalWindow.priv.active_screen = _
    rw [update_tabs_menu_sensitivity_window]
    exact ((update_size_frame w2.toTerminalWindow _ true).2.2.2.2).trans h5

/-- Instance of C17: tab A at 80x24 is active and tab B at 100x30 is selected; B
becomes 80x24. -/
theorem tab_switch_size_preservation_witness :
    exampleScreen.grid_width = 80 ∧ exampleScreen.grid_height = 24 ∧
    otherScreen.grid_width = 100 ∧ otherScreen.grid_height = 30 ∧
    (notebook_page_selected_callback (exampleTabbedWindow 2) otherScreen true).2 =
      { otherScreen with grid_width := 80, grid_height := 24 } :=
  ⟨rfl, rfl, rfl, rfl,
   ((tab_switch_size_preservation (exampleTabbedWindow 2) otherScreen true rfl).1
      exampleScreen rfl (by decide)).1⟩

/-- With no change the tab bar is shown exactly when there is more than one
page (page counts are `gint` values). -/
theorem update_tab_visibility_zero (window : TabbedWindow) (hn : window.n_pages < 2147483648) :
    update_tab_visibility window 0 =
      { window with show_tabs := decide (1 < window.n_pages) } := by
  unfold update_tab_visibility
  have h : toUInt (((toUInt (window.n_pages : Int) : Nat) : Int) + 0) = window.n_pages := by
    unfold toUInt; omega
  simp only [h, gt_iff_lt]

/-- Where `num + change` is not negative the unsigned comparison is the integer
one. -/
theorem update_tab_visibility_of_nonneg (window : TabbedWindow) (change : Int)
    (hn : window.n_pages < 2147483648) (h0 : 0 ≤ (window.n_pages : Int) + change)
    (h1 : (window.n_pages : Int) + change < 4294967296) :
    (update_tab_visibility window change).show_tabs = true ↔
      (window.n_pages : Int) + change > 1 := by
  unfold update_tab_visibility
  simp only [decide_eq_true_eq]
  unfold toUInt
  omega

/-- The calls made for a tab dropped on the desktop: one fewer for the source
window, one more for the new window, which is marked to present itself. -/
theorem handle_tab_droped_on_desktop_eq (source_window new_window : TabbedWindow) :
    handle_tab_droped_on_desktop source_window new_window =
      (update_tab_visibility source_window (-1),
        update_tab_visibility { new_window with present_on_insert := true } 1) := rfl

/-- C18. Last tab closes the window: in the tab-removed handler of a live
window, with no tab remaining the window is destroyed and not resized; with
exactly one remaining the window is not destroyed, the tab bar is hidden and the
geometry is re-negotiated for the active tab by
`terminal_window_update_size (window, priv->active_screen, TRUE)`; with two or
more remaining the window is neither destroyed nor resized.  So a window that
was not destroyed before is destroyed exactly when no tab remains. -/
theorem last_tab_closes_window (window : TabbedWindow) (hlive : window.disposed = false) :
    (window.n_pages = 0 →
      ∃ w', notebook_page_removed_callback window = some w' ∧ w'.destroyed = true ∧
        w'.toTerminalWindow = window.toTerminalWindow) ∧
    (window.n_pages = 1 →
      (notebook_page_removed_callback window).map TabbedWindow.toTerminalWindow =
        update_size_for_active window.toTerminalWindow ∧
      (∀ a, window.priv.active_screen = some a →
        ∃ w', notebook_page_removed_callback window = some w' ∧
          w'.toTerminalWindow = terminal_window_update_size window.toTerminalWindow a true) ∧
      (∀ w', notebook_page_removed_callback window = some w' →
        w'.destroyed = window.destroyed ∧ w'.show_tabs = false)) ∧
    (2 ≤ window.n_pages →
      ∃ w', notebook_page_removed_callback window = some w' ∧
        w'.destroyed = window.destroyed ∧ w'.toTerminalWindow = window.toTerminalWindow) ∧
    (∀ w', notebook_page_removed_callback window = some w' → window.destroyed = false →
      (w'.destroyed = true ↔ window.n_pages = 0)) := by
  have hdisp : ¬ (window.disposed = true) := by rw [hlive]; decide
  have hsens : terminal_window_update_tabs_menu_sensitivity window =
      { window with
        tabs_visible := decide ((window.n_pages : Int) > 1)
        tabs_previous_sensitive := decide ((window.n_pages : Int) > 1)
        tabs_next_sensitive := decide ((window.n_pages : Int) > 1)
        tabs_move_left_sensitive := decide (window.current_page > 0)
        tabs_move_right_sensitive := decide (int_add window.current_page 1 < (window.n_pages : Int))
        tabs_detach_sensitive := decide ((window.n_pages : Int) > 1)
        file_close_tab_sensitive := decide ((window.n_pages : Int) > 1) } := by
    unfold terminal_window_update_tabs_menu_sensitivity
    rw [if_neg hdisp]
  have h0 : window.n_pages = 0 →
      ∃ w', notebook_page_removed_callback window = some w' ∧ w'.destroyed = true ∧
        w'.toTerminalWindow = window.toTerminalWindow := by
    intro hn
    unfold notebook_page_removed_callback
    rw [if_neg hdisp, hsens]
    simp only [update_tab_visibility, hn]
    exact ⟨_, rfl, rfl, rfl⟩
  have h1 : window.n_pages = 1 →
      notebook_page_removed_callback window =
        (update_size_for_active window.toTerminalWindow).map fun w =>
          { (update_tab_visibility (terminal_window_update_tabs_menu_sensitivity window) 0) with
            toTerminalWindow := w } := by
    intro hn
    unfold notebook_page_removed_callback
    rw [if_neg hdisp, hsens]
    simp only [update_tab_visibility, hn]
    rfl
  have h2 : 2 ≤ window.n_pages →
      ∃ w', notebook_page_removed_callback window = some w' ∧
        w'.destroyed = window.destroyed ∧ w'.toTerminalWindow = window.toTerminalWindow := by
    intro hn
    have hne1 : ¬ ((window.n_pages : Int) = 1) := by omega
    have hne0 : ¬ ((window.n_pages : Int) = 0) := by omega
    unfold notebook_page_removed_callback
    rw [if_neg hdisp, hsens]
    simp only [update_tab_visibility, hne1, hne0, if_false]
    exact ⟨_, rfl, rfl, rfl⟩
  have h1show : window.n_pages = 1 → ∀ w', notebook_page_removed_callback window = some w' →
      w'.destroyed = window.destroyed ∧ w'.show_tabs = false := by
    intro hn w' hw'
    rw [h1 hn] at hw'
    cases hu : update_size_for_active window.toTerminalWindow with
    | none => rw [hu] at hw'; exact absurd hw' (by simp)
    | some t =>
      rw [hu, Option.map_some'] at hw'
      cases hw'
      rw [hsens]
      refine ⟨rfl, ?_⟩
      simp only [update_tab_visibility, hn]
      decide
  refine ⟨h0, fun hn => ⟨?_, ?_, h1show hn⟩, h2, ?_⟩
  · rw [h1 hn, Option.map_map]
    cases update_size_for_active window.toTerminalWindow <;> rfl
  · intro a ha
    rw [h1 hn]
    unfold update_size_for_active
    rw [ha]
    exact ⟨_, rfl, rfl⟩
  · intro w' hw' hnd
    rcases Nat.lt_or_ge window.n_pages 1 with hlt | hge
    · have hn : window.n_pages = 0 := by omega
      obtain ⟨w'', hw'', hd, -⟩ := h0 hn
      rw [hw'] at hw''
      cases hw''
      exact ⟨fun _ => hn, fun _ => hd⟩
    · rcases Nat.lt_or_ge window.n_pages 2 with hlt2 | hge2
      · have hn : window.n_pages = 1 := by omega
        have hd := (h1show hn w' hw').1
        rw [hd, hnd]
        exact ⟨fun hf => absurd hf (by decide), fun hf => absurd hf (by omega)⟩
      · obtain ⟨w'', hw'', hd, -⟩ := h2 hge2
        rw [hw'] at hw''
        cases hw''
        rw [hd, hnd]
        exact ⟨fun hf => absurd hf (by decide), fun hf => absurd hf (by omega)⟩

/-- Instance of C18: `exampleTabbedWindow 1` after a tab was removed: the tab bar
is hidden and the window lives on, resized for its active tab. -/
theorem last_tab_closes_window_witness :
    ∃ w', notebook_page_removed_callback (exampleTabbedWindow 1) = some w' ∧
      w'.toTerminalWindow =
        terminal_window_update_size (exampleTabbedWindow 1).toTerminalWindow exampleScreen true :=
  ((last_tab_closes_window (exampleTabbedWindow 1) rfl).2.1 rfl).2.1 exampleScreen rfl

/-- C20. Tab-navigation sensitivity: on a live window with `n` pages and current
index `p`, `terminal_window_update_tabs_menu_sensitivity` makes previous-tab and
next-tab sensitive exactly when `n > 1`, whatever `p` is, move-left sensitive
iff `p > 0`, move-right sensitive iff `p + 1 < n` (in `int` arithmetic, exact
for every `p` that `p + 1` does not overflow), detach and close-tab sensitive
and the Tabs menu visible iff `n > 1`, and changes nothing else; on a disposed
window it changes nothing. -/
theorem tab_navigation_sensitivity (window : TabbedWindow) :
    (window.disposed = false →
      ((terminal_window_update_tabs_menu_sensitivity window).tabs_previous_sensitive = true ↔
        1 < window.n_pages) ∧
      ((terminal_window_update_tabs_menu_sensitivity window).tabs_next_sensitive = true ↔
        1 < window.n_pages) ∧
      ((terminal_window_update_tabs_menu_sensitivity window).tabs_move_left_sensitive = true ↔
        0 < window.current_page) ∧
      ((terminal_window_update_tabs_menu_sensitivity window).tabs_move_right_sensitive = true ↔
        int_add window.current_page 1 < (window.n_pages : Int)) ∧
      (-2147483649 ≤ window.current_page → window.current_page < 2147483647 →
        ((terminal_window_update_tabs_menu_sensitivity window).tabs_move_right_sensitive = true ↔
          window.current_page + 1 < (window.n_pages : Int))) ∧
      ((terminal_window_update_tabs_menu_sensitivity window).tabs_detach_sensitive = true ↔
        1 < window.n_pages) ∧
      ((terminal_window_update_tabs_menu_sensitivity window).file_close_tab_sensitive = true ↔
        1 < window.n_pages) ∧
      ((terminal_window_update_tabs_menu_sensitivity window).tabs_visible = true ↔
        1 < window.n_pages) ∧
      terminal_window_update_tabs_menu_sensitivity window =
        { window with
          tabs_visible := (terminal_window_update_tabs_menu_sensitivity window).tabs_visible
          tabs_previous_sensitive :=
            (terminal_window_update_tabs_menu_sensitivity window).tabs_previous_sensitive
          tabs_next_sensitive :=
            (terminal_window_update_tabs_menu_sensitivity window).tabs_next_sensitive
          tabs_move_left_sensitive :=
            (terminal_window_update_tabs_menu_sensitivity window).tabs_move_left_sensitive
          tabs_move_right_sensitive :=
            (terminal_window_update_tabs_menu_sensitivity window).tabs_move_right_sensitive
          tabs_detach_sensitive :=
            (terminal_window_update_tabs_menu_sensitivity window).tabs_detach_sensitive
          file_close_tab_sensitive :=
            (terminal_window_update_tabs_menu_sensitivity window).file_close_tab_sensitive }) ∧
    (window.disposed = true → terminal_window_update_tabs_menu_sensitivity window = window) := by
  constructor
  · intro hlive
    have hdisp : ¬ (window.disposed = true) := by rw [hlive]; decide
    have hsens : terminal_window_update_tabs_menu_sensitivity window =
        { window with
          tabs_visible := decide ((window.n_pages : Int) > 1)
          tabs_previous_sensitive := decide ((window.n_pages : Int) > 1)
          tabs_next_sensitive := decide ((window.n_pages : Int) > 1)
          tabs_move_left_sensitive := decide (window.current_page > 0)
          tabs_move_right_sensitive :=
            decide (int_add window.current_page 1 < (window.n_pages : Int))
          tabs_detach_sensitive := decide ((window.n_pages : Int) > 1)
          file_close_tab_sensitive := decide ((window.n_pages : Int) > 1) } := by
      unfold terminal_window_update_tabs_menu_sensitivity
      rw [if_neg hdisp]
    have hn : ((window.n_pages : Int) > 1) ↔ 1 < window.n_pages := by omega
    rw [hsens]
    refine ⟨?_, ?_, ?_, ?_, ?_, ?_, ?_, ?_, rfl⟩
    · simp only [decide_eq_true_eq]; exact hn
    · simp only [decide_eq_true_eq]; exact hn
    · simp only [decide_eq_true_eq, gt_iff_lt]
    · simp only [decide_eq_true_eq]
    · intro h0 h1
      simp only [decide_eq_true_eq]
      have : int_add window.current_page 1 = window.current_page + 1 :=
        toInt_of_range (by omega) (by omega)
      rw [this]
    · simp only [decide_eq_true_eq]; exact hn
    · simp only [decide_eq_true_eq]; exact hn
    · simp only [decide_eq_true_eq]; exact hn
  · intro hd
    unfold terminal_window_update_tabs_menu_sensitivity
    rw [if_pos hd]

/-- Instance of C20: three tabs with the first one current: previous-tab is
sensitive although there is no tab to the left, move-left is not. -/
theorem tab_navigation_sensitivity_witness :
    ((terminal_window_update_tabs_menu_sensitivity
        (exampleTabbedWindow 3)).tabs_previous_sensitive = true ↔
      1 < (exampleTabbedWindow 3).n_pages) ∧
    ((terminal_window_update_tabs_menu_sensitivity
        (exampleTabbedWindow 3)).tabs_move_left_sensitive = true ↔
      0 < (exampleTabbedWindow 3).current_page) :=
  ⟨((tab_navigation_sensitivity (exampleTabbedWindow 3)).1 rfl).1,
   ((tab_navigation_sensitivity (exampleTabbedWindow 3)).1 rfl).2.2.1⟩

/-! ## Theorems: the menubar on a tab switch -/

/-- After `terminal_window_set_menubar_visible (window, setting)` the menubar
visibility is `setting` and the window no longer uses the default. -/
theorem set_menubar_visible_result (window : TabbedWindow) (setting : Bool) :
    (terminal_window_set_menubar_visible window setting).menubar_visible = setting ∧
    (terminal_window_set_menubar_visible window setting).use_default_menubar_visibility =
      false := by
  unfold terminal_window_set_menubar_visible
  dsimp only
  split
  · next h => exact ⟨h.symm, rfl⟩
  · split <;> exact ⟨rfl, rfl⟩

theorem update_tabs_menu_sensitivity_menubar (window : TabbedWindow) :
    (terminal_window_update_tabs_menu_sensitivity window).menubar_visible =
      window.menubar_visible ∧
    (terminal_window_update_tabs_menu_sensitivity window).use_default_menubar_visibility =
      window.use_default_menubar_visibility := by
  unfold terminal_window_update_tabs_menu_sensitivity
  split <;> exact ⟨rfl, rfl⟩

/-- The menubar fields after the tab-selected handler on a live window for a
tab that is not the active one. -/
theorem page_selected_menubar (window : TabbedWindow) (screen : TerminalScreen)
    (default_show_menubar : Bool) (hlive : window.disposed = false)
    (hne : window.priv.active_screen.map TerminalScreen.widget ≠ some screen.widget) :
    (window.use_default_menubar_visibility = true →
      (notebook_page_selected_callback window screen default_show_menubar).1.menubar_visible =
        default_show_menubar ∧
      (notebook_page_selected_callback window screen
        default_show_menubar).1.use_default_menubar_visibility = false) ∧
    (window.use_default_menubar_visibility = false →
      (notebook_page_selected_callback window screen default_show_menubar).1.menubar_visible =
        window.menubar_visible ∧
      (notebook_page_selected_callback window screen
        default_show_menubar).1.use_default_menubar_visibility = false) := by
  have hdisp : ¬ (window.disposed = true) := by rw [hlive]; decide
  constructor
  · intro hd
    unfold notebook_page_selected_callback
    dsimp only
    rw [if_neg hdisp, if_neg hne, if_pos hd]
    dsimp only
    rw [(update_tabs_menu_sensitivity_menubar _).1, (update_tabs_menu_sensitivity_menubar _).2]
    exact set_menubar_visible_result _ _
  · intro hd
    have hd' : ¬ (window.use_default_menubar_visibility = true) := by rw [hd]; decide
    unfold notebook_page_selected_callback
    dsimp only
    rw [if_neg hdisp, if_neg hne, if_neg hd']
    dsimp only
    rw [(update_tabs_menu_sensitivity_menubar _).1, (update_tabs_menu_sensitivity_menubar _).2]
    exact ⟨rfl, hd⟩

/-- C21, counterexample to the claim as stated: on a window on which nobody has
set the menubar visibility, a first switch to a tab whose profile shows the
menubar and then a switch to a tab whose profile hides it leaves the menubar
visible: the second switch does not adopt the profile default. -/
theorem menubar_default_counterexample :
    (exampleTabbedWindow 2).use_default_menubar_visibility = true ∧
    (notebook_page_selected_callback (exampleTabbedWindow 2) otherScreen
      true).1.menubar_visible = true ∧
    (notebook_page_selected_callback
      (notebook_page_selected_callback (exampleTabbedWindow 2) otherScreen true).1
      exampleScreen false).1.menubar_visible = true ∧
    (notebook_page_selected_callback
      (notebook_page_selected_callback (exampleTabbedWindow 2) otherScreen true).1
      exampleScreen false).1.priv.active_screen.map TerminalScreen.widget =
        some exampleScreen.widget := by
  decide

/-- C21, amended: for every tab switch on a live window to a tab that is not
already active, if `use_default_menubar_visibility` is still set (as
`terminal_window_init` leaves it) the menubar visibility after the handler is
the new tab's profile-default show-menubar setting, and the handler clears the
flag; once the flag is clear, as it is after the first switch, the handler
leaves the menubar visibility as it was. -/
theorem menubar_default_adoption (window : TabbedWindow) (screen : TerminalScreen)
    (default_show_menubar : Bool) (hlive : window.disposed = false)
    (hne : window.priv.active_screen.map TerminalScreen.widget ≠ some screen.widget) :
    (window.use_default_menubar_visibility = true →
      (notebook_page_selected_callback window screen default_show_menubar).1.menubar_visible =
        default_show_menubar) ∧
    (notebook_page_selected_callback window screen
      default_show_menubar).1.use_default_menubar_visibility = false ∧
    (window.use_default_menubar_visibility = false →
      (notebook_page_selected_callback window screen default_show_menubar).1.menubar_visible =
        window.menubar_visible) := by
  obtain ⟨h1, h2⟩ := page_selected_menubar window screen default_show_menubar hlive hne
  refine ⟨fun hd => (h1 hd).1, ?_, fun hd => (h2 hd).1⟩
  cases hd : window.use_default_menubar_visibility
  · exact (h2 hd).2
  · exact (h1 hd).2

/-- Instance of the amended C21: the first switch of `exampleTabbedWindow 2`, to
a tab whose profile hides the menubar, hides it. -/
theorem menubar_default_adoption_witness :
    (notebook_page_selected_callback (exampleTabbedWindow 2) otherScreen
      false).1.menubar_visible = false :=
  (menubar_default_adoption (exampleTabbedWindow 2) otherScreen false rfl (by decide)).1 rfl

/-! ## Theorems: signed numbers and the shape of the mask -/

theorem digits_append_ne (ds rest : List Char) (hne : ds ≠ []) : ds ++ rest ≠ rest := by
  intro h
  have hlen := congrArg List.length h
  have hpos := List.length_pos.mpr hne
  simp only [List.length_append] at hlen
  omega

/-- The x offset written as `-` and an unsigned run of digits. -/
theorem parse_x_minus_digits (l : Locals) (ds rest : List Char)
    (hs : l.strind = '-' :: (ds ++ rest)) (hne : ds ≠ []) (hds : ∀ c ∈ ds, IsDigit c)
    (hrest : ¬ IsDigit (deref rest)) (hlt : digitsVal 0 ds < 2147483648) :
    parse_x l =
      some { l with tempX := -((digitsVal 0 ds : Nat) : Int), strind := rest,
                    mask := (l.mask ||| XNegative) ||| XValue } := by
  have hn : ¬ (ds ++ rest = rest) := digits_append_ne ds rest hne
  have hneg : toInt (-((digitsVal 0 ds : Nat) : Int)) = -((digitsVal 0 ds : Nat) : Int) :=
    toInt_of_range (by omega) (by omega)
  simp only [parse_x, hs, deref_cons, List.tail_cons, if_true,
    ReadInteger_digits ds rest hne hds hrest hlt, hn, if_false, hneg]

/-- The y offset written as `-` and an unsigned run of digits. -/
theorem parse_y_minus_digits (l : Locals) (ds rest : List Char)
    (hs : l.strind = '-' :: (ds ++ rest)) (hne : ds ≠ []) (hds : ∀ c ∈ ds, IsDigit c)
    (hrest : ¬ IsDigit (deref rest)) (hlt : digitsVal 0 ds < 2147483648) :
    parse_y l =
      some { l with tempY := -((digitsVal 0 ds : Nat) : Int), strind := rest,
                    mask := (l.mask ||| YNegative) ||| YValue } := by
  have hn : ¬ (ds ++ rest = rest) := digits_append_ne ds rest hne
  have hneg : toInt (-((digitsVal 0 ds : Nat) : Int)) = -((digitsVal 0 ds : Nat) : Int) :=
    toInt_of_range (by omega) (by omega)
  simp only [parse_y, hs, deref_cons, List.tail_cons, or_true, if_true,
    ReadInteger_digits ds rest hne hds hrest hlt, hn, if_false, hneg]

/-- The y-offset block leaves the x offset alone. -/
theorem parse_y_tempX {l l' : Locals} (h : parse_y l = some l') : l'.tempX = l.tempX := by
  unfold parse_y at h
  dsimp only at h
  split at h
  · split at h <;> split at h
    · exact absurd h (by simp)
    · cases h; rfl
    · exact absurd h (by simp)
    · cases h; rfl
  · cases h; rfl

/-- A set bit means that the parse succeeded. -/
theorem mask_ne_NoValue_of_bit {m b : Nat} (h : m &&& b ≠ 0) : m ≠ NoValue := by
  intro hm
  rw [hm] at h
  exact h (Nat.zero_and b)

/-- C27, counterexample to the claim as stated: `"80x+24"`, whose height carries
its own sign, is accepted with the height 24, and `"--5"`, whose x offset
carries its own sign, is accepted with the x-negative bit set and the positive
offset 5. -/
theorem unsigned_numbers_counterexample :
    terminal_window_XParseGeometry (some "80x+24".toList) 0 0 0 0 =
      ⟨WidthValue ||| HeightValue, 0, 0, 80, 24⟩ ∧
    WidthValue ||| HeightValue ≠ NoValue ∧
    terminal_window_XParseGeometry (some "--5".toList) 0 0 0 0 =
      ⟨XNegative ||| XValue, 5, 0, 0, 0⟩ ∧
    (XNegative ||| XValue) &&& XNegative ≠ 0 ∧ ¬ ((5 : Int) ≤ 0) := by
  decide

/-- C27, amended: `terminal_window_XParseGeometry` reads each number with
`terminal_window_ReadInteger`, which accepts an optional `+` or `-` in front of
the digits, so a number may carry its own sign: `"80x+24"` gives the height 24,
`"80x24+-5+7"` gives the x offset -5 without the x-negative bit and `"80x24--5"`
gives the x offset 5 with it.  For every string, whenever the x-negative
(y-negative) bit is set and the x (y) offset is written after its `-` as an
unsigned decimal digit sequence of value below `2^31`, so without a sign of its
own, the stored x (y) offset is minus that value and so `<= 0`.  Here the x
offset is the text at which the parser stands after the height block
(`afterHeight`) and the y offset the text at which it stands after the x offset
(`afterX`). -/
theorem numbers_may_be_signed (s : List Char) (x0 y0 : Int) (w0 h0 : Nat) :
    terminal_window_XParseGeometry (some "80x+24".toList) x0 y0 w0 h0 =
      ⟨WidthValue ||| HeightValue, x0, y0, 80, 24⟩ ∧
    terminal_window_XParseGeometry (some "80x24+-5+7".toList) x0 y0 w0 h0 =
      ⟨((WidthValue ||| HeightValue) ||| XValue) ||| YValue, -5, 7, 80, 24⟩ ∧
    terminal_window_XParseGeometry (some "80x24--5".toList) x0 y0 w0 h0 =
      ⟨((WidthValue ||| HeightValue) ||| XNegative) ||| XValue, 5, y0, 80, 24⟩ ∧
    ((terminal_window_XParseGeometry (some s) x0 y0 w0 h0).mask &&& XNegative ≠ 0 →
      ∀ (l : Locals) (ds rest : List Char), afterHeight s = some l →
        l.strind = '-' :: (ds ++ rest) → ds ≠ [] → (∀ c ∈ ds, IsDigit c) →
        ¬ IsDigit (deref rest) → digitsVal 0 ds < 2147483648 →
        (terminal_window_XParseGeometry (some s) x0 y0 w0 h0).x =
          -((digitsVal 0 ds : Nat) : Int) ∧
        (terminal_window_XParseGeometry (some s) x0 y0 w0 h0).x ≤ 0) ∧
    ((terminal_window_XParseGeometry (some s) x0 y0 w0 h0).mask &&& YNegative ≠ 0 →
      ∀ (l : Locals) (ds rest : List Char), afterX s = some l →
        l.strind = '-' :: (ds ++ rest) → ds ≠ [] → (∀ c ∈ ds, IsDigit c) →
        ¬ IsDigit (deref rest) → digitsVal 0 ds < 2147483648 →
        (terminal_window_XParseGeometry (some s) x0 y0 w0 h0).y =
          -((digitsVal 0 ds : Nat) : Int) ∧
        (terminal_window_XParseGeometry (some s) x0 y0 w0 h0).y ≤ 0) := by
  have hex : ∀ (s : List Char) (l : Locals), afterOffsets s = some l →
      deref s ≠ Char.ofNat 0 → deref l.strind = Char.ofNat 0 →
      terminal_window_XParseGeometry (some s) x0 y0 w0 h0 =
        { mask := l.mask
          x := if l.mask &&& XValue ≠ 0 then l.tempX else x0
          y := if l.mask &&& YValue ≠ 0 then l.tempY else y0
          width := if l.mask &&& WidthValue ≠ 0 then l.tempWidth else w0
          height := if l.mask &&& HeightValue ≠ 0 then l.tempHeight else h0 } := by
    intro s l hA h0' hend
    unfold terminal_window_XParseGeometry
    simp only [h0', if_false, hA, storeResult, hend, ne_eq, not_true_eq_false]
  refine ⟨?_, ?_, ?_, ?_, ?_⟩
  · rw [hex "80x+24".toList ⟨12, [], 80, 24, 0, 0⟩ (by decide) (by decide) (by decide)]
    rfl
  · rw [hex "80x24+-5+7".toList ⟨15, [], 80, 24, -5, 7⟩ (by decide) (by decide) (by decide)]
    rfl
  · rw [hex "80x24--5".toList ⟨29, [], 80, 24, 5, 0⟩ (by decide) (by decide) (by decide)]
    rfl
  · intro hbit l ds rest hA hs hne hds hrest hlt
    obtain ⟨-, l', hO, -, hform⟩ := XParseGeometry_success (mask_ne_NoValue_of_bit hbit)
    rw [hform] at hbit ⊢
    have hX := parse_x_minus_digits l ds rest hs hne hds hrest hlt
    have hsign : deref l.strind = '+' ∨ deref l.strind = '-' := by
      rw [hs, deref_cons]; exact Or.inr rfl
    have hO2 := hO
    unfold afterOffsets at hO2
    rw [hA, Option.some_bind] at hO2
    unfold parse_offsets at hO2
    rw [if_pos hsign, hX, Option.some_bind] at hO2
    have hx : l'.tempX = -((digitsVal 0 ds : Nat) : Int) := parse_y_tempX hO2
    have hXV : l'.mask &&& XValue ≠ 0 :=
      (validMasks_bits _ (afterOffsets_mask_mem hO)).2.1 hbit
    have hval : (if l'.mask &&& XValue ≠ 0 then l'.tempX else x0) =
        -((digitsVal 0 ds : Nat) : Int) := by
      rw [if_pos hXV, hx]
    exact ⟨hval, by show (if l'.mask &&& XValue ≠ 0 then l'.tempX else x0) ≤ 0; rw [hval]; omega⟩
  · intro hbit l ds rest hA hs hne hds hrest hlt
    obtain ⟨-, l', hO, -, hform⟩ := XParseGeometry_success (mask_ne_NoValue_of_bit hbit)
    rw [hform] at hbit ⊢
    have hYd := parse_y_minus_digits l ds rest hs hne hds hrest hlt
    have hO2 : parse_y l = some l' := by
      have hO3 := hO
      unfold afterX at hA
      unfold afterOffsets at hO3
      cases hH : afterHeight s with
      | none => rw [hH] at hA; exact absurd hA (by simp)
      | some l0 =>
        rw [hH, Option.some_bind] at hA hO3
        by_cases hsign : deref l0.strind = '+' ∨ deref l0.strind = '-'
        · rw [if_pos hsign] at hA
          unfold parse_offsets at hO3
          rw [if_pos hsign, hA, Option.some_bind] at hO3
          exact hO3
        · rw [if_neg hsign] at hA
          exact absurd hA (by simp)
    rw [hYd] at hO2
    have hl' := Option.some.inj hO2
    have hy : l'.tempY = -((digitsVal 0 ds : Nat) : Int) := by rw [← hl']
    have hYV : l'.mask &&& YValue ≠ 0 :=
      (validMasks_bits _ (afterOffsets_mask_mem hO)).2.2 hbit
    have hval : (if l'.mask &&& YValue ≠ 0 then l'.tempY else y0) =
        -((digitsVal 0 ds : Nat) : Int) := by
      rw [if_pos hYV, hy]
    exact ⟨hval, by show (if l'.mask &&& YValue ≠ 0 then l'.tempY else y0) ≤ 0; rw [hval]; omega⟩

/-- Instance of the amended C27 at `"0080x0024-007-008"`: the x-negative bit is
set, the x offset is written `-007`, and the stored x offset is -7. -/
theorem numbers_may_be_signed_witness :
    (terminal_window_XParseGeometry (some "0080x0024-007-008".toList) 1 2 3 4).mask
      &&& XNegative ≠ 0 ∧
    (terminal_window_XParseGeometry (some "0080x0024-007-008".toList) 1 2 3 4).x = -7 :=
  ⟨by decide,
   ((numbers_may_be_signed "0080x0024-007-008".toList 1 2 3 4).2.2.2.1 (by decide)
      ⟨12, "-007-008".toList, 80, 24, 0, 0⟩ "007".toList "-008".toList (by decide) rfl
      (by decide) (by decide) (by decide) (by decide)).1.trans (by decide)⟩

/-- What holds of every mask in `validMasks`: only the six defined bits are
used, and a gravity other than north-west comes with the x bit. -/
theorem validMasks_gravity : ∀ m ∈ validMasks,
    m < 64 ∧
    m &&& (((((XValue ||| YValue) ||| WidthValue) ||| HeightValue) ||| XNegative) ||| YNegative)
      = m ∧
    (pos_gravity_of m ≠ GdkGravity.GDK_GRAVITY_NORTH_WEST → m &&& XValue ≠ 0) := by
  decide

/-- C29. Well-formed parse mask: for every input string the mask returned by
`terminal_window_XParseGeometry` uses only the six defined bits, y-present
implies x-present, x-negative implies x-present and y-negative implies
y-present; hence whenever the gravity chosen by
`terminal_window_update_size_set_geometry` is not north-west the mask has the x
bit, and a negotiation that is not skipped then issues that gravity together
with a move. -/
theorem well_formed_parse_mask (string : Option (List Char)) (x y : Int) (w h : Nat)
    (window : TerminalWindow) (screen : TerminalScreen) (even_if_mapped : Bool)
    (geometry_string : Option (List Char)) :
    (terminal_window_XParseGeometry string x y w h).mask < 64 ∧
    (terminal_window_XParseGeometry string x y w h).mask &&&
      (((((XValue ||| YValue) ||| WidthValue) ||| HeightValue) ||| XNegative) ||| YNegative)
      = (terminal_window_XParseGeometry string x y w h).mask ∧
    ((terminal_window_XParseGeometry string x y w h).mask &&& YValue ≠ 0 →
      (terminal_window_XParseGeometry string x y w h).mask &&& XValue ≠ 0) ∧
    ((terminal_window_XParseGeometry string x y w h).mask &&& XNegative ≠ 0 →
      (terminal_window_XParseGeometry string x y w h).mask &&& XValue ≠ 0) ∧
    ((terminal_window_XParseGeometry string x y w h).mask &&& YNegative ≠ 0 →
      (terminal_window_XParseGeometry string x y w h).mask &&& YValue ≠ 0) ∧
    (pos_gravity_of (parse_override geometry_string).mask ≠ GdkGravity.GDK_GRAVITY_NORTH_WEST →
      (parse_override geometry_string).mask &&& XValue ≠ 0) ∧
    (maximized_or_tiled window = false →
      pos_gravity_of (parse_override geometry_string).mask ≠ GdkGravity.GDK_GRAVITY_NORTH_WEST →
      ∃ (size : Request) (px py : Int),
        (terminal_window_update_size_set_geometry window screen even_if_mapped
            geometry_string).2.requests =
          (terminal_window_update_geometry window).requests ++
            [size, Request.set_gravity (pos_gravity_of (parse_override geometry_string).mask),
              Request.move px py]) := by
  have hm := XParseGeometry_mask_mem string x y w h
  obtain ⟨h1, h2, h3⟩ := validMasks_bits _ hm
  obtain ⟨h4, h5, -⟩ := validMasks_gravity _ hm
  have hg := (validMasks_gravity _ (parse_override_mask_mem geometry_string)).2.2
  refine ⟨h4, h5, h1, h2, h3, hg, ?_⟩
  intro hnm hne
  exact ⟨_, _, _, update_size_position window screen even_if_mapped geometry_string hnm
    (Or.inl (hg hne))⟩

/-- Instance of C29: the mask of `"80x24-10"` has the x-negative bit and so the
x bit. -/
theorem well_formed_parse_mask_witness :
    (terminal_window_XParseGeometry (some "80x24-10".toList) 0 0 0 0).mask &&& XValue ≠ 0 :=
  (well_formed_parse_mask (some "80x24-10".toList) 0 0 0 0 exampleWindow exampleScreen true
    none).2.2.2.1 (by decide)

/-! ## Theorems: the saved geometry string -/

theorem formatInt_of_nonneg (z : Int) (hz : 0 ≤ z) : formatInt z = Nat.toDigits 10 z.toNat := by
  have h : z.natAbs = z.toNat := by omega
  simp only [formatInt, show ¬ z < 0 by omega, if_false, h]

/-- Reading back a `%d` text, up to the first non-digit. -/
theorem ReadInteger_formatInt (z : Int) (rest : List Char) (hz : z.natAbs < 2147483648)
    (hrest : ¬ IsDigit (deref rest)) :
    terminal_window_ReadInteger (formatInt z ++ rest) = (z, rest) := by
  by_cases hneg : z < 0
  · obtain ⟨-, hall, hval⟩ := toDigits_decimal z.natAbs
    have hl := ReadInteger_loop_digits (Nat.toDigits 10 z.natAbs) rest hall hrest 0
      (by rw [hval]; exact hz)
    rw [hval] at hl
    simp only [Nat.cast_zero] at hl
    simp only [formatInt, hneg, if_true, List.cons_append, ReadInteger_minus, hl]
    have : toInt (-((z.natAbs : Nat) : Int)) = z := by
      rw [toInt_of_range (by omega) (by omega)]; omega
    rw [this]
  · rw [formatInt_of_nonneg z (by omega), ReadInteger_toDigits z.toNat rest (by omega) hrest]
    have : ((z.toNat : Nat) : Int) = z := by omega
    rw [this]

theorem formatInt_append_ne (z : Int) (rest : List Char) : formatInt z ++ rest ≠ rest := by
  intro h
  have hlen := congrArg List.length h
  have hpos := List.length_pos.mpr (toDigits_decimal z.natAbs).1
  unfold formatInt at hlen
  split at hlen <;> simp only [List.length_append, List.length_cons] at hlen <;> omega

theorem parse_x_formatInt (l : Locals) (z : Int) (rest : List Char)
    (hs : l.strind = '+' :: (formatInt z ++ rest)) (hz : z.natAbs < 2147483648)
    (hrest : ¬ IsDigit (deref rest)) :
    parse_x l = some { l with tempX := z, strind := rest, mask := l.mask ||| XValue } := by
  have h1 : ¬ ('+' = '-') := by decide
  simp only [parse_x, hs, deref_cons, List.tail_cons, h1, if_false,
    ReadInteger_formatInt z rest hz hrest, formatInt_append_ne z rest]

theorem parse_y_formatInt (l : Locals) (z : Int) (rest : List Char)
    (hs : l.strind = '+' :: (formatInt z ++ rest)) (hz : z.natAbs < 2147483648)
    (hrest : ¬ IsDigit (deref rest)) :
    parse_y l = some { l with tempY := z, strind := rest, mask := l.mask ||| YValue } := by
  have h1 : ¬ ('+' = '-') := by decide
  simp only [parse_y, hs, deref_cons, List.tail_cons, true_or, if_true, h1, if_false,
    ReadInteger_formatInt z rest hz hrest, formatInt_append_ne z rest]

/-- The locals at the end of the parse of a saved geometry string. -/
theorem afterOffsets_save_state_geometry (cols rows x y : Int)
    (hc0 : 0 ≤ cols) (hc : cols < 2147483648) (hr0 : 0 ≤ rows) (hr : rows < 2147483648)
    (hx : x.natAbs < 2147483648) (hy : y.natAbs < 2147483648) :
    afterOffsets (save_state_geometry cols rows x y) =
      some { mask := (((NoValue ||| WidthValue) ||| HeightValue) ||| XValue) ||| YValue
             strind := []
             tempWidth := cols.toNat, tempHeight := rows.toNat, tempX := x, tempY := y } := by
  have hplus : ∀ t : List Char, ¬ IsDigit (deref ('+' :: t)) := by
    intro t; rw [deref_cons]; decide
  have hxd : ∀ t : List Char, ¬ IsDigit (deref ('x' :: t)) := by
    intro t; rw [deref_cons]; decide
  have hd := deref_toDigits_append cols.toNat
    ('x' :: (Nat.toDigits 10 rows.toNat ++ '+' :: (formatInt x ++ '+' :: formatInt y)))
  have hform : save_state_geometry cols rows x y =
      Nat.toDigits 10 cols.toNat ++
        'x' :: (Nat.toDigits 10 rows.toNat ++ '+' :: (formatInt x ++ '+' :: formatInt y)) := by
    unfold save_state_geometry
    rw [formatInt_of_nonneg cols hc0, formatInt_of_nonneg rows hr0]
  have hW := parse_width_toDigits (initLocals (save_state_geometry cols rows x y)) cols.toNat
    ('x' :: (Nat.toDigits 10 rows.toNat ++ '+' :: (formatInt x ++ '+' :: formatInt y)))
    (by simp only [initLocals, hform, hd.ne_eq, if_false]) (by omega) (hxd _)
  have hH := parse_height_toDigits
    { initLocals (save_state_geometry cols rows x y) with
      tempWidth := cols.toNat
      strind := 'x' :: (Nat.toDigits 10 rows.toNat ++ '+' :: (formatInt x ++ '+' :: formatInt y))
      mask := (initLocals (save_state_geometry cols rows x y)).mask ||| WidthValue }
    'x' rows.toNat _ rfl (Or.inl rfl) (by omega) (hplus _)
  have hX := parse_x_formatInt
    { mask := (NoValue ||| WidthValue) ||| HeightValue
      strind := '+' :: (formatInt x ++ '+' :: formatInt y)
      tempWidth := cols.toNat, tempHeight := rows.toNat, tempX := 0, tempY := 0 }
    x _ rfl hx (hplus _)
  have hY := parse_y_formatInt
    { mask := ((NoValue ||| WidthValue) ||| HeightValue) ||| XValue
      strind := '+' :: (formatInt y ++ [])
      tempWidth := cols.toNat, tempHeight := rows.toNat, tempX := x, tempY := 0 }
    y [] rfl hy not_isDigit_nul
  rw [List.append_nil] at hY
  unfold afterOffsets afterHeight afterWidth
  rw [hW, Option.some_bind, hH, Option.some_bind]
  simp only [initLocals] at hX ⊢
  simp only [parse_offsets, deref_cons, true_or, if_true]
  rw [hX, Option.some_bind, hY]

/-- C25. Saved geometry string round trip: the string `<cols>x<rows>+<x>+<y>`
that `terminal_window_save_state` writes with `%d` conversions, parsed by
`terminal_window_XParseGeometry`, gives back width `cols`, height `rows` and the
offsets `x` and `y`, with all four components present and neither negative bit
set, for `0 <= cols, rows < 2^31` and `|x|, |y| < 2^31`, negative window
positions included. -/
theorem saved_geometry_round_trip (cols rows x y : Int)
    (hc0 : 0 ≤ cols) (hc : cols < 2147483648) (hr0 : 0 ≤ rows) (hr : rows < 2147483648)
    (hx : x.natAbs < 2147483648) (hy : y.natAbs < 2147483648)
    (x0 y0 : Int) (w0 h0 : Nat) :
    terminal_window_XParseGeometry (some (save_state_geometry cols rows x y)) x0 y0 w0 h0 =
      { mask := ((XValue ||| YValue) ||| WidthValue) ||| HeightValue
        x := x, y := y, width := cols.toNat, height := rows.toNat } ∧
    ((cols.toNat : Nat) : Int) = cols ∧ ((rows.toNat : Nat) : Int) = rows ∧
    (terminal_window_XParseGeometry (some (save_state_geometry cols rows x y)) x0 y0 w0 h0).mask
      &&& XNegative = 0 ∧
    (terminal_window_XParseGeometry (some (save_state_geometry cols rows x y)) x0 y0 w0 h0).mask
      &&& YNegative = 0 := by
  have hA := afterOffsets_save_state_geometry cols rows x y hc0 hc hr0 hr hx hy
  have hnn : deref (save_state_geometry cols rows x y) ≠ Char.ofNat 0 := by
    unfold save_state_geometry
    rw [formatInt_of_nonneg cols hc0]
    exact (deref_toDigits_append cols.toNat _).ne_nul
  have hP : terminal_window_XParseGeometry (some (save_state_geometry cols rows x y))
      x0 y0 w0 h0 =
      { mask := ((XValue ||| YValue) ||| WidthValue) ||| HeightValue
        x := x, y := y, width := cols.toNat, height := rows.toNat } := by
    simp only [terminal_window_XParseGeometry, hnn, if_false, hA, storeResult, deref_nil,
      ne_eq, not_true_eq_false]
    simp [NoValue, WidthValue, HeightValue, XValue, YValue]
  rw [hP]
  refine ⟨rfl, by omega, by omega, ?_, ?_⟩
  · show (((XValue ||| YValue) ||| WidthValue) ||| HeightValue) &&& XNegative = 0
    decide
  · show (((XValue ||| YValue) ||| WidthValue) ||| HeightValue) &&& YNegative = 0
    decide

/-- Instance of C25: an 80x24 tab in a window at (-5, 7) is saved as
`80x24+-5+7` and read back as such. -/
theorem saved_geometry_round_trip_witness :
    save_state_geometry 80 24 (-5) 7 = "80x24+-5+7".toList ∧
    terminal_window_XParseGeometry (some (save_state_geometry 80 24 (-5) 7)) 0 0 0 0 =
      { mask := ((XValue ||| YValue) ||| WidthValue) ||| HeightValue
        x := -5, y := 7, width := 80, height := 24 } :=
  ⟨by decide,
   (saved_geometry_round_trip 80 24 (-5) 7 (by decide) (by decide) (by decide) (by decide)
    (by decide) (by decide) 0 0 0 0).1⟩

/-! ## Theorems: the close-confirmation gate -/

/-- The loop over a non-empty tab list assigns `has_processes`: it ends with
whether some tab has a foreground process. -/
theorem has_processes_loop_eq : ∀ (tabs : List Tab) (acc : Option Bool), tabs ≠ [] →
    has_processes_loop acc tabs = some (tabs.any Tab.has_foreground_process) := by
  intro tabs
  induction tabs with
  | nil => intro acc h; exact absurd rfl h
  | cons t ts ih =>
    intro acc _
    unfold has_processes_loop
    by_cases ht : t.has_foreground_process = true
    · simp only [ht, if_true, List.any_cons, Bool.true_or]
    · have hf : t.has_foreground_process = false := by simpa using ht
      simp only [hf, Bool.false_eq_true, if_false, List.any_cons, Bool.false_or]
      cases ts with
      | nil => rfl
      | cons u us => exact ih (some false) (List.cons_ne_nil u us)

/-- The dialog `confirm_close_window_or_tab` builds when it defers the close. -/
theorem confirm_close_deferred (window : NotebookWindow) (screen : Option Tab)
    (has_processes : Bool) (n_tabs : Int)
    (hprobe : close_probe window screen = (some has_processes, n_tabs))
    (hneed : has_processes = true ∨ n_tabs > 1) :
    ∃ msg : ConfirmMessage,
      confirm_close_window_or_tab true window screen =
        some (true,
          { window with
            confirm_close_dialog := some window.dialogs_created
            dialogs := window.dialogs ++
              [{ id := window.dialogs_created, close_screen := screen.map Tab.screen
                 close_window_question := decide (n_tabs > 1), description_text := msg }]
            dialogs_created := window.dialogs_created + 1 }) := by
  unfold confirm_close_window_or_tab
  simp only [Bool.not_true, Bool.false_eq_true, if_false, hprobe]
  cases has_processes with
  | true =>
    by_cases hn : n_tabs > 1
    · exact ⟨ConfirmMessage.processes_in_window, by simp only [hn, if_true]⟩
    · exact ⟨ConfirmMessage.process_in_terminal, by simp only [hn, if_true, if_false]⟩
  | false =>
    have hn : n_tabs > 1 := hneed.resolve_left (by decide)
    exact ⟨ConfirmMessage.multiple_tabs,
      by simp only [hn, Bool.false_eq_true, if_true, if_false]⟩

/-- Without a process and with at most one tab affected the close is immediate. -/
theorem confirm_close_immediate (window : NotebookWindow) (screen : Option Tab)
    (n_tabs : Int)
    (hprobe : close_probe window screen = (some false, n_tabs))
    (hn : ¬ n_tabs > 1) :
    confirm_close_window_or_tab true window screen = some (false, window) := by
  unfold confirm_close_window_or_tab
  simp only [Bool.not_true, Bool.false_eq_true, if_false, hprobe, hn]

/-- What `confirm_close_window_or_tab` reads before it decides: whether an
affected tab has a foreground process, and how many tabs are affected. -/
theorem confirm_close_probe (window : NotebookWindow) (screen : Option Tab)
    (hlen : window.notebook.pages.length < 2147483648)
    (hne : screen = none → window.notebook.pages ≠ []) :
    close_probe window screen =
      (some ((affected_tabs window screen).any Tab.has_foreground_process),
        ((affected_tabs window screen).length : Int)) := by
  cases screen with
  | some s => simp [close_probe, affected_tabs]
  | none =>
    simp only [close_probe, affected_tabs]
    rw [has_processes_loop_eq _ none (hne rfl), toInt_of_range (by omega) (by omega)]

/-- C22. Close-confirmation gate: `confirm_close_window_or_tab` returns TRUE
(close deferred, a prompt for the request shown and recorded in
`priv->confirm_close_dialog`) exactly when the confirm-window-close setting is
on and either some affected tab has a foreground process or more than one tab is
affected, the affected tabs being the given tab for a tab close and all tabs of
a window holding at least one tab for a window close; otherwise it returns FALSE
and leaves the window as it was. -/
theorem close_confirmation_gate (confirm_window_close : Bool) (window : NotebookWindow)
    (screen : Option Tab) (hlen : window.notebook.pages.length < 2147483648)
    (hne : screen = none → window.notebook.pages ≠ []) :
    ∃ (r : Bool) (w2 : NotebookWindow),
      confirm_close_window_or_tab confirm_window_close window screen = some (r, w2) ∧
      (r = true ↔ confirm_window_close = true ∧
        ((affected_tabs window screen).any Tab.has_foreground_process = true ∨
          1 < (affected_tabs window screen).length)) ∧
      (r = true → ∃ d : ConfirmDialog,
        d.close_screen = screen.map Tab.screen ∧ w2.dialogs = window.dialogs ++ [d] ∧
        w2.confirm_close_dialog = some d.id ∧ w2.notebook = window.notebook ∧
        w2.destroyed = window.destroyed) ∧
      (r = false → w2 = window) := by
  cases confirm_window_close with
  | false =>
    refine ⟨false, window, by simp [confirm_close_window_or_tab], ?_, ?_, fun _ => rfl⟩
    · simp
    · intro h; exact absurd h (by decide)
  | true =>
    have hprobe := confirm_close_probe window screen hlen hne
    by_cases hneed : (affected_tabs window screen).any Tab.has_foreground_process = true ∨
        1 < (affected_tabs window screen).length
    · obtain ⟨msg, hmsg⟩ := confirm_close_deferred window screen _ _ hprobe
        (hneed.imp id (fun h => by omega))
      refine ⟨true, _, hmsg, ?_, ?_, ?_⟩
      · simp only [true_and, true_iff]; exact hneed
      · intro _
        exact ⟨_, rfl, rfl, rfl, rfl, rfl⟩
      · intro h; exact absurd h (by decide)
    · have hnp : (affected_tabs window screen).any Tab.has_foreground_process = false := by
        cases hb : (affected_tabs window screen).any Tab.has_foreground_process
        · rfl
        · exact absurd (Or.inl hb) hneed
      have hn : ¬ ((affected_tabs window screen).length : Int) > 1 := by
        intro h; exact hneed (Or.inr (by omega))
      rw [hnp] at hprobe
      refine ⟨false, window, confirm_close_immediate window screen _ hprobe hn, ?_, ?_,
        fun _ => rfl⟩
      · constructor
        · intro h; exact absurd h (by decide)
        · intro h; exact absurd h.2 hneed
      · intro h; exact absurd h (by decide)

/-- Instance of C22: closing a window of three idle tabs is deferred, with the
setting on. -/
theorem close_confirmation_gate_witness :
    ∃ (r : Bool) (w2 : NotebookWindow),
      confirm_close_window_or_tab true (exampleNotebookWindow idleTabs 0) none = some (r, w2) ∧
      (r = true ↔ true = true ∧
        ((affected_tabs (exampleNotebookWindow idleTabs 0) none).any
            Tab.has_foreground_process = true ∨
          1 < (affected_tabs (exampleNotebookWindow idleTabs 0) none).length)) ∧
      (r = true → ∃ d : ConfirmDialog,
        d.close_screen = (none : Option Tab).map Tab.screen ∧
        w2.dialogs = (exampleNotebookWindow idleTabs 0).dialogs ++ [d] ∧
        w2.confirm_close_dialog = some d.id ∧
        w2.notebook = (exampleNotebookWindow idleTabs 0).notebook ∧
        w2.destroyed = (exampleNotebookWindow idleTabs 0).destroyed) ∧
      (r = false → w2 = exampleNotebookWindow idleTabs 0) :=
  close_confirmation_gate true (exampleNotebookWindow idleTabs 0) none (by decide)
    (fun _ => by decide)

/-- C28, counterexample to the claim as stated: on a window of three idle tabs
a window-close request is deferred with the prompt 0, and a second window-close
request made while that prompt is unanswered (it is still among the dialogs and
still `priv->confirm_close_dialog`) creates the prompt 1 next to it. -/
theorem second_prompt_counterexample :
    (confirm_close_window_or_tab true (exampleNotebookWindow idleTabs 0) none).map
        (fun r => (r.1, r.2.dialogs.map ConfirmDialog.id, r.2.confirm_close_dialog)) =
      some (true, [0], some 0) ∧
    ((confirm_close_window_or_tab true (exampleNotebookWindow idleTabs 0) none).bind
        (fun r => confirm_close_window_or_tab true r.2 none)).map
        (fun r => (r.1, r.2.dialogs.map ConfirmDialog.id, r.2.confirm_close_dialog)) =
      some (true, [0, 1], some 1) := by
  decide

/-- C28, amended: `confirm_close_window_or_tab` does not look at
`priv->confirm_close_dialog`; every call that needs confirmation creates a new
prompt, also while the prompt of an earlier request is unanswered, and
`priv->confirm_close_dialog` then refers to the newest prompt: after two such
requests on one window two more prompts exist, next to all earlier ones. -/
theorem each_request_creates_prompt (window : NotebookWindow) (screen : Option Tab)
    (hlen : window.notebook.pages.length < 2147483648)
    (hne : screen = none → window.notebook.pages ≠ [])
    (hneed : (affected_tabs window screen).any Tab.has_foreground_process = true ∨
      1 < (affected_tabs window screen).length) :
    ∃ (w2 w3 : NotebookWindow) (d2 d3 : ConfirmDialog),
      confirm_close_window_or_tab true window screen = some (true, w2) ∧
      confirm_close_window_or_tab true w2 screen = some (true, w3) ∧
      w2.dialogs = window.dialogs ++ [d2] ∧ w2.confirm_close_dialog = some d2.id ∧
      w3.dialogs = window.dialogs ++ [d2, d3] ∧ w3.confirm_close_dialog = some d3.id ∧
      d2.id = window.dialogs_created ∧ d3.id = window.dialogs_created + 1 := by
  have hprobe := confirm_close_probe window screen hlen hne
  obtain ⟨msg, hmsg⟩ := confirm_close_deferred window screen _ _ hprobe
    (hneed.imp id (fun h => by omega))
  have hprobe2 : close_probe
      { window with
        confirm_close_dialog := some window.dialogs_created
        dialogs := window.dialogs ++
          [{ id := window.dialogs_created, close_screen := screen.map Tab.screen
             close_window_question :=
               decide (((affected_tabs window screen).length : Int) > 1)
             description_text := msg }]
        dialogs_created := window.dialogs_created + 1 } screen =
      (some ((affected_tabs window screen).any Tab.has_foreground_process),
        ((affected_tabs window screen).length : Int)) := hprobe
  obtain ⟨msg2, hmsg2⟩ := confirm_close_deferred _ screen _ _ hprobe2
    (hneed.imp id (fun h => by omega))
  refine ⟨_, _,
    ⟨window.dialogs_created, screen.map Tab.screen,
      decide (((affected_tabs window screen).length : Int) > 1), msg⟩,
    ⟨window.dialogs_created + 1, screen.map Tab.screen,
      decide (((affected_tabs window screen).length : Int) > 1), msg2⟩,
    hmsg, hmsg2, rfl, rfl, ?_, rfl, rfl, rfl⟩
  simp only [List.append_assoc, List.singleton_append]

/-- Instance of the amended C28: closing the busy middle tab twice. -/
theorem each_request_creates_prompt_witness :
    ∃ (w2 w3 : NotebookWindow) (d2 d3 : ConfirmDialog),
      confirm_close_window_or_tab true (exampleNotebookWindow busyTabs 1) (some ⟨11, true⟩) =
        some (true, w2) ∧
      confirm_close_window_or_tab true w2 (some ⟨11, true⟩) = some (true, w3) ∧
      w2.dialogs = (exampleNotebookWindow busyTabs 1).dialogs ++ [d2] ∧
      w2.confirm_close_dialog = some d2.id ∧
      w3.dialogs = (exampleNotebookWindow busyTabs 1).dialogs ++ [d2, d3] ∧
      w3.confirm_close_dialog = some d3.id ∧
      d2.id = (exampleNotebookWindow busyTabs 1).dialogs_created ∧
      d3.id = (exampleNotebookWindow busyTabs 1).dialogs_created + 1 :=
  each_request_creates_prompt (exampleNotebookWindow busyTabs 1) (some ⟨11, true⟩) (by decide)
    (fun h => by cases h) (Or.inl (by decide))

/-! ## Theorems: pages of the notebook -/

theorem page_num_of_mem (notebook : GtkNotebook) (s : Nat)
    (h : s ∈ notebook.pages.map Tab.screen) :
    ∃ (i : Nat) (t : Tab), gtk_notebook_page_num notebook s = (i : Int) ∧
      i < notebook.pages.length ∧ notebook.pages[i]? = some t ∧ t.screen = s := by
  unfold gtk_notebook_page_num
  cases hf : notebook.pages.findIdx? (fun t => t.screen == s) with
  | none =>
    rw [List.findIdx?_eq_none_iff] at hf
    obtain ⟨t, ht, rfl⟩ := List.mem_map.mp h
    have := hf t ht
    simp at this
  | some i =>
    obtain ⟨hi, hp, -⟩ := List.findIdx?_eq_some_iff_getElem.mp hf
    exact ⟨i, notebook.pages[i], rfl, hi, List.getElem?_eq_getElem hi, by simpa using hp⟩

theorem page_num_of_not_mem (notebook : GtkNotebook) (s : Nat)
    (h : s ∉ notebook.pages.map Tab.screen) : gtk_notebook_page_num notebook s = -1 := by
  unfold gtk_notebook_page_num
  cases hf : notebook.pages.findIdx? (fun t => t.screen == s) with
  | none => rfl
  | some i =>
    obtain ⟨hi, hp, -⟩ := List.findIdx?_eq_some_iff_getElem.mp hf
    exact absurd (List.mem_map.mpr ⟨notebook.pages[i], List.getElem_mem hi, by simpa using hp⟩) h

/-- Selecting a page that exists makes it current. -/
theorem set_current_page_of_lt (notebook : GtkNotebook) (i : Nat)
    (hi : i < notebook.pages.length) :
    gtk_notebook_set_current_page notebook (i : Int) = { notebook with current_page := (i : Int) } := by
  unfold gtk_notebook_set_current_page
  have h0 : ¬ ((i : Int) < 0) := by omega
  have h1 : 0 ≤ (i : Int) ∧ (i : Int) < (notebook.pages.length : Int) := ⟨by omega, by omega⟩
  simp only [h0, if_false, h1, and_self, if_true]

/-- Removing a page that exists: the notebook afterwards. -/
theorem remove_page_of_lt (prefer_next : Bool) (notebook : GtkNotebook) (i : Nat)
    (hi : i < notebook.pages.length) :
    (gtk_notebook_remove_page prefer_next notebook (i : Int)).pages = notebook.pages.eraseIdx i ∧
    (gtk_notebook_remove_page prefer_next notebook (i : Int)).show_tabs = notebook.show_tabs ∧
    (notebook.current_page < (i : Int) →
      (gtk_notebook_remove_page prefer_next notebook (i : Int)).current_page =
        notebook.current_page) ∧
    ((i : Int) < notebook.current_page →
      (gtk_notebook_remove_page prefer_next notebook (i : Int)).current_page =
        notebook.current_page - 1) := by
  unfold gtk_notebook_remove_page
  have h0 : ¬ ((i : Int) < 0) := by omega
  have h1 : 0 ≤ (i : Int) ∧ (i : Int) < (notebook.pages.length : Int) := ⟨by omega, by omega⟩
  simp only [h0, if_false, h1, and_self, if_true, Int.toNat_ofNat, true_and]
  constructor
  · intro h
    have h2 : ¬ (notebook.current_page = (i : Int)) := by omega
    have h3 : ¬ ((i : Int) < notebook.current_page) := by omega
    simp only [h2, h3, if_false]
  · intro h
    have h2 : ¬ (notebook.current_page = (i : Int)) := by omega
    simp only [h2, h, if_false, if_true]

/-- What `notebook_page_removed_callback` leaves alone in this state. -/
theorem notebook_page_removed_frame (window : NotebookWindow) :
    (notebook_page_removed window).notebook.pages = window.notebook.pages ∧
    (notebook_page_removed window).notebook.current_page = window.notebook.current_page ∧
    (notebook_page_removed window).dialogs = window.dialogs ∧
    (notebook_page_removed window).confirm_close_dialog = window.confirm_close_dialog ∧
    (notebook_page_removed window).dialogs_created = window.dialogs_created ∧
    (notebook_page_removed window).detach_tab = window.detach_tab := by
  rw [notebook_page_removed]
  split <;> exact ⟨rfl, rfl, rfl, rfl, rfl, rfl⟩

/-- Removing a page that exists, with the signal handler run. -/
theorem remove_page_and_notify_of_lt (prefer_next : Bool) (window : NotebookWindow) (i : Nat)
    (hi : i < window.notebook.pages.length) :
    remove_page_and_notify prefer_next window (i : Int) =
      notebook_page_removed
        { window with notebook := gtk_notebook_remove_page prefer_next window.notebook (i : Int) } := by
  unfold remove_page_and_notify
  have h := (remove_page_of_lt prefer_next window.notebook i hi).1
  have hl : (gtk_notebook_remove_page prefer_next window.notebook (i : Int)).pages.length <
      window.notebook.pages.length := by
    rw [h, List.length_eraseIdx_of_lt hi]; omega
  simp only [hl, if_true]

/-- Removing a page that exists, with the signal handler run: what is left. -/
theorem remove_page_and_notify_frame (prefer_next : Bool) (window : NotebookWindow) (i : Nat)
    (hi : i < window.notebook.pages.length) :
    (remove_page_and_notify prefer_next window (i : Int)).notebook.pages =
      window.notebook.pages.eraseIdx i ∧
    (remove_page_and_notify prefer_next window (i : Int)).dialogs = window.dialogs ∧
    (remove_page_and_notify prefer_next window (i : Int)).confirm_close_dialog =
      window.confirm_close_dialog := by
  rw [remove_page_and_notify_of_lt prefer_next window i hi]
  have f := notebook_page_removed_frame
    { window with notebook := gtk_notebook_remove_page prefer_next window.notebook (i : Int) }
  exact ⟨f.1.trans (remove_page_of_lt prefer_next window.notebook i hi).1, f.2.2.1, f.2.2.2.1⟩

/-- The closed form of `terminal_window_remove_screen` for a screen of the
window: the page that holds it leaves the notebook. -/
theorem remove_screen_of_mem (prefer_next : Bool) (window : NotebookWindow) (s : Nat)
    (h : s ∈ window.notebook.pages.map Tab.screen) :
    ∃ (i : Nat) (t : Tab), window.notebook.pages[i]? = some t ∧ t.screen = s ∧
      (terminal_window_remove_screen prefer_next window s).notebook.pages =
        window.notebook.pages.eraseIdx i ∧
      (terminal_window_remove_screen prefer_next window s).dialogs = window.dialogs ∧
      (terminal_window_remove_screen prefer_next window s).confirm_close_dialog =
        window.confirm_close_dialog := by
  obtain ⟨i, t, hnum, hi, hget, hs⟩ := page_num_of_mem window.notebook s h
  refine ⟨i, t, hget, hs, ?_⟩
  have h0 : ¬ ((i : Int) < 0) := by omega
  have hnum2 : gtk_notebook_page_num (notebook_update_tab_visibility window (-1)).notebook s =
      (i : Int) := hnum
  have hcb : terminal_window_remove_screen prefer_next window s =
      remove_page_and_notify prefer_next
        { notebook_update_tab_visibility window (-1) with detach_tab := false } (i : Int) := by
    rw [terminal_window_remove_screen]
    simp only [hnum, h0, if_false, hnum2]
  rw [hcb]
  exact remove_page_and_notify_frame prefer_next
    { notebook_update_tab_visibility window (-1) with detach_tab := false } i hi

/-- A screen that is not in the window fails the `g_return_if_fail`. -/
theorem remove_screen_of_not_mem (prefer_next : Bool) (window : NotebookWindow) (s : Nat)
    (h : s ∉ window.notebook.pages.map Tab.screen) :
    terminal_window_remove_screen prefer_next window s = window := by
  unfold terminal_window_remove_screen
  rw [page_num_of_not_mem window.notebook s h]
  simp

/-! ## Theorems: answering the close prompt -/

/-- C23. Answering the close prompt: for every response other than accept,
`confirm_close_response_cb` leaves the window and its tabs as they were, only
the dialog is destroyed (and with it `priv->confirm_close_dialog` cleared); for
the accept response it removes exactly the tab recorded on the dialog (one page,
the one holding that screen, when the screen is still in the window, and none
otherwise), or destroys the window when no tab was recorded. -/
theorem close_prompt_answer (prefer_next : Bool) (dialog : ConfirmDialog) (response : Int)
    (window : NotebookWindow) :
    (response ≠ GTK_RESPONSE_ACCEPT →
      confirm_close_response_cb prefer_next dialog response window =
        { window with
          dialogs := window.dialogs.filter (fun d => d.id != dialog.id)
          confirm_close_dialog := none }) ∧
    (response = GTK_RESPONSE_ACCEPT → ∀ s : Nat, dialog.close_screen = some s →
      (s ∈ window.notebook.pages.map Tab.screen →
        ∃ (i : Nat) (t : Tab), window.notebook.pages[i]? = some t ∧ t.screen = s ∧
          (confirm_close_response_cb prefer_next dialog response window).notebook.pages =
            window.notebook.pages.eraseIdx i ∧
          (confirm_close_response_cb prefer_next dialog response window).dialogs =
            window.dialogs.filter (fun d => d.id != dialog.id)) ∧
      (s ∉ window.notebook.pages.map Tab.screen →
        confirm_close_response_cb prefer_next dialog response window =
          { window with
            dialogs := window.dialogs.filter (fun d => d.id != dialog.id)
            confirm_close_dialog := none })) ∧
    (response = GTK_RESPONSE_ACCEPT → dialog.close_screen = none →
      confirm_close_response_cb prefer_next dialog response window =
        { window with
          dialogs := window.dialogs.filter (fun d => d.id != dialog.id)
          confirm_close_dialog := none
          destroyed := true }) := by
  refine ⟨?_, ?_, ?_⟩
  · intro hr
    unfold confirm_close_response_cb destroy_dialog
    simp only [hr, ne_eq, not_false_eq_true, if_true]
  · intro hr s hs
    have hcb : confirm_close_response_cb prefer_next dialog response window =
        terminal_window_remove_screen prefer_next (destroy_dialog window dialog) s := by
      unfold confirm_close_response_cb
      simp only [hr, ne_eq, not_true_eq_false, if_false, hs]
    rw [hcb]
    constructor
    · intro hmem
      obtain ⟨i, t, hget, hts, hpages, hdial, -⟩ :=
        remove_screen_of_mem prefer_next (destroy_dialog window dialog) s hmem
      exact ⟨i, t, hget, hts, hpages, hdial⟩
    · intro hmem
      exact remove_screen_of_not_mem prefer_next (destroy_dialog window dialog) s hmem
  · intro hr hs
    unfold confirm_close_response_cb destroy_dialog
    simp only [hr, ne_eq, not_true_eq_false, if_false, hs]

/-- Instance of C23: the prompt for the busy middle tab, answered with cancel
and with accept. -/
theorem close_prompt_answer_witness :
    confirm_close_response_cb true ⟨0, some 11, false, ConfirmMessage.process_in_terminal⟩
        GTK_RESPONSE_CANCEL
        { exampleNotebookWindow busyTabs 1 with
          dialogs := [⟨0, some 11, false, ConfirmMessage.process_in_terminal⟩]
          confirm_close_dialog := some 0, dialogs_created := 1 } =
      { exampleNotebookWindow busyTabs 1 with dialogs_created := 1 } ∧
    (confirm_close_response_cb true ⟨0, some 11, false, ConfirmMessage.process_in_terminal⟩
        GTK_RESPONSE_ACCEPT
        { exampleNotebookWindow busyTabs 1 with
          dialogs := [⟨0, some 11, false, ConfirmMessage.process_in_terminal⟩]
          confirm_close_dialog := some 0, dialogs_created := 1 }).notebook.pages =
      [⟨10, false⟩, ⟨12, false⟩] :=
  ⟨((close_prompt_answer true ⟨0, some 11, false, ConfirmMessage.process_in_terminal⟩
      GTK_RESPONSE_CANCEL
      { exampleNotebookWindow busyTabs 1 with
        dialogs := [⟨0, some 11, false, ConfirmMessage.process_in_terminal⟩]
        confirm_close_dialog := some 0, dialogs_created := 1 }).1 (by decide)).trans
      (by decide),
   by decide⟩

/-! ## Theorems: the middle-click close -/

/-- The tab of the current page, when the current page exists. -/
theorem active_screen_of_current (window : NotebookWindow) (i : Nat)
    (h : window.notebook.current_page = (i : Int)) :
    active_screen_of window = window.notebook.pages[i]? := by
  have h0 : (0 : Int) ≤ (i : Int) := by omega
  rw [active_screen_of, h]
  simp only [h0, if_true, Int.toNat_ofNat]

theorem get_n_pages_eq (notebook : GtkNotebook) (hlen : notebook.pages.length < 2147483648) :
    gtk_notebook_get_n_pages notebook = (notebook.pages.length : Int) := by
  rw [gtk_notebook_get_n_pages]
  exact toInt_of_range (by omega) (by omega)

/-- After a page has left, the page current before the click is selected at its
new index. -/
theorem restore_after_removal (notebook : GtkNotebook) (n t p : Nat)
    (hn : n < 2147483648) (hlen : notebook.pages.length + 1 = n) (ht : t < n) (hp : p < n)
    (htp : t ≠ p) :
    restore_current_page notebook (n : Int) (p : Int) (t : Int) =
      { notebook with current_page := if t > p then (p : Int) else (p : Int) - 1 } := by
  have hlater := get_n_pages_eq notebook (by omega)
  have hgt : (n : Int) > (notebook.pages.length : Int) := by omega
  rw [restore_current_page]
  simp only [hlater, hgt, if_true]
  by_cases hgtp : t > p
  · have hc : (t : Int) > (p : Int) := by omega
    simp only [hc, hgtp, if_true, set_current_page_of_lt notebook p (by omega)]
  · have hc : ¬ ((t : Int) > (p : Int)) := by omega
    have hc2 : (t : Int) < (p : Int) := by omega
    have hsub : int_sub (p : Int) 1 = ((p - 1 : Nat) : Int) := by
      rw [int_sub, toInt_of_range (by omega) (by omega)]
      omega
    have hcast : ((p - 1 : Nat) : Int) = (p : Int) - 1 := by omega
    simp only [hc, hgtp, hc2, if_true, if_false, hsub]
    rw [set_current_page_of_lt notebook (p - 1) (by omega), hcast]

/-- When no page has left, the page current before the click is selected
again. -/
theorem restore_after_deferral (notebook : GtkNotebook) (t : Int) (p : Nat)
    (hn : notebook.pages.length < 2147483648) (hp : p < notebook.pages.length) :
    restore_current_page notebook (notebook.pages.length : Int) (p : Int) t =
      { notebook with current_page := (p : Int) } := by
  have hlater := get_n_pages_eq notebook hn
  have hgt : ¬ ((notebook.pages.length : Int) > (notebook.pages.length : Int)) := by omega
  rw [restore_current_page]
  simp only [hlater, hgt, if_false, set_current_page_of_lt notebook p hp]

/-- The middle click once `confirm_close_window_or_tab` has let the close go
ahead: the clicked page is removed and the page current before the click is
selected again at its new index. -/
theorem button_press_removed (confirm_window_close prefer_next : Bool)
    (window : NotebookWindow) (t p : Nat) (tab : Tab)
    (hlen : window.notebook.pages.length < 2147483648)
    (hp : p < window.notebook.pages.length)
    (hcur : window.notebook.current_page = (p : Int))
    (htab : window.notebook.pages[t]? = some tab) (htp : t ≠ p)
    (hconf : confirm_close_window_or_tab confirm_window_close
      { window with notebook := { window.notebook with current_page := (t : Int) } } (some tab) =
      some (false,
        { window with notebook := { window.notebook with current_page := (t : Int) } })) :
    ∃ w2 : NotebookWindow,
      notebook_button_press_cb true confirm_window_close prefer_next window (t : Int) = some w2 ∧
      w2.notebook.pages = window.notebook.pages.eraseIdx t ∧
      w2.notebook.current_page = (if t > p then (p : Int) else (p : Int) - 1) ∧
      w2.dialogs = window.dialogs := by
  have ht : t < window.notebook.pages.length := by
    by_contra hge
    rw [List.getElem?_eq_none (by omega)] at htab
    cases htab
  have hset := set_current_page_of_lt window.notebook t ht
  have hact : active_screen_of
      { window with notebook := { window.notebook with current_page := (t : Int) } } =
      some tab := by
    rw [active_screen_of_current _ t rfl]; exact htab
  have hbefore := get_n_pages_eq window.notebook hlen
  have hfr := remove_page_and_notify_frame prefer_next
    (notebook_update_tab_visibility
      { window with notebook := { window.notebook with current_page := (t : Int) } } (-1)) t ht
  have hclose : close_clicked_tab confirm_window_close prefer_next
      { window with notebook := { window.notebook with current_page := (t : Int) } } (t : Int) =
      some (remove_page_and_notify prefer_next
        (notebook_update_tab_visibility
          { window with notebook := { window.notebook with current_page := (t : Int) } } (-1))
        (t : Int)) := by
    rw [close_clicked_tab, hact, hconf]
    rfl
  obtain ⟨W, hW⟩ : ∃ W : NotebookWindow, W = remove_page_and_notify prefer_next
      (notebook_update_tab_visibility
        { window with notebook := { window.notebook with current_page := (t : Int) } } (-1))
      (t : Int) := ⟨_, rfl⟩
  rw [← hW] at hfr hclose
  obtain ⟨hpages, hdial, -⟩ := hfr
  have hpages2 : W.notebook.pages = window.notebook.pages.eraseIdx t := hpages
  have hWlen : W.notebook.pages.length + 1 = window.notebook.pages.length := by
    rw [hpages2, List.length_eraseIdx_of_lt ht]; omega
  have h0 : (t : Int) ≥ 0 := by omega
  have hcb : notebook_button_press_cb true confirm_window_close prefer_next window (t : Int) =
      some { W with
             notebook := restore_current_page W.notebook (window.notebook.pages.length : Int)
               (p : Int) (t : Int) } := by
    rw [notebook_button_press_cb]
    simp only [true_and, h0, if_true, hset, hclose, hbefore, hcur, Option.map_some']
  rw [hcb, restore_after_removal W.notebook _ t p hlen hWlen ht hp htp]
  exact ⟨_, rfl, hpages2, rfl, hdial⟩

/-- The middle click when `confirm_close_window_or_tab` defers the close: no
page leaves and the page current before the click is selected again. -/
theorem button_press_deferred (prefer_next : Bool)
    (window : NotebookWindow) (t p : Nat) (tab : Tab)
    (hlen : window.notebook.pages.length < 2147483648)
    (hp : p < window.notebook.pages.length)
    (hcur : window.notebook.current_page = (p : Int))
    (htab : window.notebook.pages[t]? = some tab)
    (hfg : tab.has_foreground_process = true) :
    ∃ (w2 : NotebookWindow) (d : ConfirmDialog),
      notebook_button_press_cb true true prefer_next window (t : Int) = some w2 ∧
      w2.notebook.pages = window.notebook.pages ∧
      w2.notebook.current_page = (p : Int) ∧
      d.close_screen = some tab.screen ∧ w2.dialogs = window.dialogs ++ [d] := by
  have ht : t < window.notebook.pages.length := by
    by_contra hge
    rw [List.getElem?_eq_none (by omega)] at htab
    cases htab
  have hset := set_current_page_of_lt window.notebook t ht
  have hact : active_screen_of
      { window with notebook := { window.notebook with current_page := (t : Int) } } =
      some tab := by
    rw [active_screen_of_current _ t rfl]; exact htab
  have hbefore := get_n_pages_eq window.notebook hlen
  obtain ⟨msg, hmsg⟩ := confirm_close_deferred
    { window with notebook := { window.notebook with current_page := (t : Int) } } (some tab)
    tab.has_foreground_process 1 rfl (Or.inl hfg)
  obtain ⟨W, hW⟩ : ∃ W : NotebookWindow, W =
      { window with
        notebook := { window.notebook with current_page := (t : Int) }
        confirm_close_dialog := some window.dialogs_created
        dialogs := window.dialogs ++
          [{ id := window.dialogs_created, close_screen := some tab.screen
             close_window_question := decide ((1 : Int) > 1), description_text := msg }]
        dialogs_created := window.dialogs_created + 1 } := ⟨_, rfl⟩
  have hmsg2 : confirm_close_window_or_tab true
      { window with notebook := { window.notebook with current_page := (t : Int) } } (some tab) =
      some (true, W) := by rw [hmsg, hW]; rfl
  have hclose : close_clicked_tab true prefer_next
      { window with notebook := { window.notebook with current_page := (t : Int) } } (t : Int) =
      some W := by
    rw [close_clicked_tab, hact, hmsg2]
    rfl
  have hWpages : W.notebook.pages = window.notebook.pages := by rw [hW]
  have hWdial : W.dialogs = window.dialogs ++
      [{ id := window.dialogs_created, close_screen := some tab.screen
         close_window_question := decide ((1 : Int) > 1), description_text := msg }] := by
    rw [hW]
  have h0 : (t : Int) ≥ 0 := by omega
  have hcb : notebook_button_press_cb true true prefer_next window (t : Int) =
      some { W with
             notebook := restore_current_page W.notebook (window.notebook.pages.length : Int)
               (p : Int) (t : Int) } := by
    rw [notebook_button_press_cb]
    simp only [true_and, h0, if_true, hset, hclose, hbefore, hcur, Option.map_some']
  have hrest := restore_after_deferral W.notebook (t : Int) p (by rw [hWpages]; exact hlen)
    (by rw [hWpages]; exact hp)
  rw [hWpages] at hrest
  rw [hcb, hrest]
  exact ⟨_, ⟨window.dialogs_created, some tab.screen, decide ((1 : Int) > 1), msg⟩, rfl, rfl, rfl,
    rfl, hWdial⟩

/-- C26. Middle-click close keeps the current tab: in `notebook_button_press_cb`
with middle-click-closes-tabs on, for a notebook with current index `p` and
clicked index `t` different from `p`, when the clicked tab is removed without a
confirmation prompt the current index afterwards is `p` if `t > p` and `p - 1`
if `t < p`, so that the tab that was current before the click is still the
current tab; when the removal is deferred by a confirmation prompt the page
count is unchanged and the current index is restored to `p`. -/
theorem middle_click_keeps_current_tab (confirm_window_close prefer_next : Bool)
    (window : NotebookWindow) (t p : Nat) (tab : Tab)
    (hlen : window.notebook.pages.length < 2147483648)
    (hp : p < window.notebook.pages.length)
    (hcur : window.notebook.current_page = (p : Int))
    (htab : window.notebook.pages[t]? = some tab) (htp : t ≠ p) :
    ∃ w2 : NotebookWindow,
      notebook_button_press_cb true confirm_window_close prefer_next window (t : Int) = some w2 ∧
      ((confirm_window_close = false ∨ tab.has_foreground_process = false) →
        w2.notebook.pages = window.notebook.pages.eraseIdx t ∧
        w2.notebook.current_page = (if t > p then (p : Int) else (p : Int) - 1) ∧
        active_screen_of w2 = window.notebook.pages[p]? ∧
        w2.dialogs = window.dialogs) ∧
      ((confirm_window_close = true ∧ tab.has_foreground_process = true) →
        w2.notebook.pages = window.notebook.pages ∧
        w2.notebook.current_page = (p : Int) ∧
        active_screen_of w2 = window.notebook.pages[p]? ∧
        ∃ d : ConfirmDialog, d.close_screen = some tab.screen ∧
          w2.dialogs = window.dialogs ++ [d]) := by
  by_cases hneed : confirm_window_close = true ∧ tab.has_foreground_process = true
  · obtain ⟨hc, hfg⟩ := hneed
    subst hc
    obtain ⟨w2, d, hw, hpages, hcur2, hd, hdial⟩ :=
      button_press_deferred prefer_next window t p tab hlen hp hcur htab hfg
    refine ⟨w2, hw, ?_, ?_⟩
    · intro h
      rcases h with h | h
      · cases h
      · rw [hfg] at h; cases h
    · intro _
      refine ⟨hpages, hcur2, ?_, d, hd, hdial⟩
      rw [active_screen_of_current w2 p hcur2, hpages]
  · have hconf : confirm_close_window_or_tab confirm_window_close
        { window with notebook := { window.notebook with current_page := (t : Int) } }
        (some tab) =
        some (false,
          { window with notebook := { window.notebook with current_page := (t : Int) } }) := by
      cases confirm_window_close with
      | false => simp [confirm_close_window_or_tab]
      | true =>
        have hfg : tab.has_foreground_process = false := by
          cases hb : tab.has_foreground_process
          · rfl
          · exact absurd ⟨rfl, hb⟩ hneed
        exact confirm_close_immediate _ (some tab) 1
          (by simp only [close_probe, hfg]) (by decide)
    obtain ⟨w2, hw, hpages, hcur2, hdial⟩ :=
      button_press_removed confirm_window_close prefer_next window t p tab hlen hp hcur htab htp
        hconf
    refine ⟨w2, hw, ?_, ?_⟩
    · intro _
      refine ⟨hpages, hcur2, ?_, hdial⟩
      by_cases hgtp : t > p
      · have hc : w2.notebook.current_page = ((p : Nat) : Int) := by
          rw [hcur2]; simp only [hgtp, if_true]
        rw [active_screen_of_current w2 p hc, hpages,
          List.getElem?_eraseIdx_of_lt _ _ _ hgtp]
      · have hc : w2.notebook.current_page = ((p - 1 : Nat) : Int) := by
          rw [hcur2]; simp only [hgtp, if_false]; omega
        rw [active_screen_of_current w2 (p - 1) hc, hpages,
          List.getElem?_eraseIdx_of_ge _ _ _ (by omega)]
        have : p - 1 + 1 = p := by omega
        rw [this]
    · intro h
      exact absurd h hneed

/-- Instance of C26: with the third of three idle tabs current, a middle click on
the first tab removes it and the tab with screen 12 stays current, now at index
1. -/
theorem middle_click_keeps_current_tab_witness :
    ∃ w2 : NotebookWindow,
      notebook_button_press_cb true true true (exampleNotebookWindow idleTabs 2) ((0 : Nat) : Int) =
        some w2 ∧
      w2.notebook.pages = [⟨11, false⟩, ⟨12, false⟩] ∧ w2.notebook.current_page = 1 ∧
      active_screen_of w2 = some ⟨12, false⟩ := by
  obtain ⟨w2, hw, h, -⟩ := middle_click_keeps_current_tab true true
    (exampleNotebookWindow idleTabs 2) 0 2 ⟨10, false⟩ (by decide) (by decide) rfl rfl (by decide)
  obtain ⟨h1, h2, h3, -⟩ := h (Or.inr rfl)
  exact ⟨w2, hw, h1, h2, h3⟩

/-! ## Theorems: Ctrl+Tab -/

/-- The Tab key with Control held and the setting on: the next page, or the
first one after the last. -/
theorem key_press_tab (state : Nat) (window : NotebookWindow) (p : Nat)
    (hlen : window.notebook.pages.length < 2147483648)
    (hp : p < window.notebook.pages.length)
    (hcur : window.notebook.current_page = (p : Int))
    (hctrl : state &&& GDK_CONTROL_MASK ≠ 0) :
    window_key_press_cb true state GDK_KEY_Tab window =
      (true, { window with
               notebook := { window.notebook with
                 current_page := ((p : Int) + 1) % (window.notebook.pages.length : Int) } }) := by
  have hpages := get_n_pages_eq window.notebook hlen
  have hsub : int_sub (window.notebook.pages.length : Int) 1 =
      (window.notebook.pages.length : Int) - 1 := by
    rw [int_sub]
    exact toInt_of_range (by omega) (by omega)
  have hk : ¬ (GDK_KEY_Tab = GDK_KEY_ISO_Left_Tab) := by decide
  rw [window_key_press_cb]
  simp only [true_and, hctrl, ne_eq, not_false_eq_true, if_true, hk, if_false, hpages, hsub, hcur]
  by_cases hlast : (p : Int) = (window.notebook.pages.length : Int) - 1
  · have hmod : ((p : Int) + 1) % (window.notebook.pages.length : Int) = ((0 : Nat) : Int) := by
      have : (p : Int) + 1 = (window.notebook.pages.length : Int) := by omega
      rw [this, Int.emod_self]; rfl
    have h0 := set_current_page_of_lt window.notebook 0 (by omega)
    simp only [Nat.cast_zero] at h0 hmod
    simp only [hlast, not_true_eq_false, if_false, h0]
    rw [← hlast, hmod]
  · have hmod : ((p : Int) + 1) % (window.notebook.pages.length : Int) = (p : Int) + 1 :=
      Int.emod_eq_of_lt (by omega) (by omega)
    have hnext : gtk_notebook_next_page window.notebook =
        { window.notebook with current_page := (p : Int) + 1 } := by
      have hc : 0 ≤ (p : Int) ∧ (p : Int) + 1 < (window.notebook.pages.length : Int) :=
        ⟨by omega, by omega⟩
      rw [gtk_notebook_next_page, hcur, if_pos hc]
    simp only [hlast, not_false_eq_true, if_true, hnext, hmod]

/-- The ISO_Left_Tab key with Control held and the setting on: the previous
page, or the last one before the first. -/
theorem key_press_left_tab (state : Nat) (window : NotebookWindow) (p : Nat)
    (hlen : window.notebook.pages.length < 2147483648)
    (hp : p < window.notebook.pages.length)
    (hcur : window.notebook.current_page = (p : Int))
    (hctrl : state &&& GDK_CONTROL_MASK ≠ 0) :
    window_key_press_cb true state GDK_KEY_ISO_Left_Tab window =
      (true, { window with
               notebook := { window.notebook with
                 current_page := ((p : Int) - 1 + (window.notebook.pages.length : Int)) %
                   (window.notebook.pages.length : Int) } }) := by
  have hpages := get_n_pages_eq window.notebook hlen
  have hsub : int_sub (window.notebook.pages.length : Int) 1 =
      ((window.notebook.pages.length - 1 : Nat) : Int) := by
    rw [int_sub, toInt_of_range (by omega) (by omega)]
    omega
  rw [window_key_press_cb]
  simp only [true_and, hctrl, ne_eq, not_false_eq_true, if_true, hpages, hsub, hcur]
  by_cases hfirst : (p : Int) = 0
  · have hmod : ((p : Int) - 1 + (window.notebook.pages.length : Int)) %
        (window.notebook.pages.length : Int) = ((window.notebook.pages.length - 1 : Nat) : Int) := by
      rw [Int.emod_eq_of_lt (by omega) (by omega)]; omega
    have hl := set_current_page_of_lt window.notebook (window.notebook.pages.length - 1)
      (by omega)
    simp only [hfirst, not_true_eq_false, if_false, hl]
    rw [← hfirst, hmod]
  · have hmod : ((p : Int) - 1 + (window.notebook.pages.length : Int)) %
        (window.notebook.pages.length : Int) = (p : Int) - 1 := by
      rw [Int.add_emod_self]
      exact Int.emod_eq_of_lt (by omega) (by omega)
    have hprev : gtk_notebook_prev_page window.notebook =
        { window.notebook with current_page := (p : Int) - 1 } := by
      have hc : 0 < (p : Int) ∧ (p : Int) < (window.notebook.pages.length : Int) :=
        ⟨by omega, by omega⟩
      rw [gtk_notebook_prev_page, hcur, if_pos hc]
    simp only [hfirst, not_false_eq_true, if_true, hprev, hmod]

/-- C30. Ctrl+Tab cycles with wrap-around: in `window_key_press_cb` with
ctrl-tab-switch-tabs on and Control held, for a notebook of `n >= 1` tabs with
current index `p` (`0 <= p < n`), the Tab key selects index `(p + 1) mod n` and
the ISO_Left_Tab key selects index `(p - 1 + n) mod n`, the tabs themselves
unchanged, and the handler returns TRUE; every other key, and every key when the
setting is off or Control is not held, returns FALSE and changes nothing. -/
theorem ctrl_tab_cycles (ctrl_tab_switch_tabs : Bool) (state keyval : Nat)
    (window : NotebookWindow) (p : Nat)
    (hlen : window.notebook.pages.length < 2147483648)
    (hp : p < window.notebook.pages.length)
    (hcur : window.notebook.current_page = (p : Int)) :
    (ctrl_tab_switch_tabs = true → state &&& GDK_CONTROL_MASK ≠ 0 →
      window_key_press_cb ctrl_tab_switch_tabs state GDK_KEY_Tab window =
        (true, { window with
                 notebook := { window.notebook with
                   current_page :=
                     ((p : Int) + 1) % (window.notebook.pages.length : Int) } }) ∧
      window_key_press_cb ctrl_tab_switch_tabs state GDK_KEY_ISO_Left_Tab window =
        (true, { window with
                 notebook := { window.notebook with
                   current_page :=
                     ((p : Int) - 1 + (window.notebook.pages.length : Int)) %
                       (window.notebook.pages.length : Int) } }) ∧
      (keyval ≠ GDK_KEY_Tab → keyval ≠ GDK_KEY_ISO_Left_Tab →
        window_key_press_cb ctrl_tab_switch_tabs state keyval window = (false, window))) ∧
    ((ctrl_tab_switch_tabs = false ∨ state &&& GDK_CONTROL_MASK = 0) →
      window_key_press_cb ctrl_tab_switch_tabs state keyval window = (false, window)) := by
  constructor
  · intro hs hctrl
    subst hs
    refine ⟨key_press_tab state window p hlen hp hcur hctrl,
      key_press_left_tab state window p hlen hp hcur hctrl, ?_⟩
    intro h1 h2
    unfold window_key_press_cb
    simp only [true_and, hctrl, ne_eq, not_false_eq_true, if_true, h1, h2, if_false]
  · intro h
    unfold window_key_press_cb
    rcases h with h | h
    · simp only [h, Bool.false_eq_true, false_and, if_false]
    · simp only [h, ne_eq, not_true_eq_false, and_false, if_false]

/-- Instance of C30: on the last of three tabs, Ctrl+Tab wraps to the first. -/
theorem ctrl_tab_cycles_witness :
    window_key_press_cb true GDK_CONTROL_MASK GDK_KEY_Tab (exampleNotebookWindow idleTabs 2) =
      (true, exampleNotebookWindow idleTabs 0) :=
  ((ctrl_tab_cycles true GDK_CONTROL_MASK 0 (exampleNotebookWindow idleTabs 2) 2 (by decide)
    (by decide) rfl).1 rfl (by decide)).1.trans (by decide)

/-! ## Theorems: actions without an active tab -/

/-- C24. Missing active tab is a silent no-op: when the window has no active
tab, `terminal_window_update_geometry`, the size-to action, the zoom in, out and
normal actions, the search next, previous and clear actions and the two
profile-switch callbacks each return with the window state, the tab state, the
toolkit requests and the terminal calls all as they were. -/
theorem missing_active_tab_noop {Scale : Type}
    (find_larger_zoom_factor find_smaller_zoom_factor : Scale → Option Scale)
    (current medium : Scale) (width height : Nat) (action_active forgotten backwards : Bool)
    (profile active_profile : Nat) (profiles : List Nat) (window : ActionWindow Scale)
    (h : window.priv.active_screen = none) :
    terminal_window_update_geometry window.toTerminalWindow = window.toTerminalWindow ∧
    terminal_size_to_cb width height window = window ∧
    view_zoom_in_callback find_larger_zoom_factor find_smaller_zoom_factor current window =
      window ∧
    view_zoom_out_callback find_larger_zoom_factor find_smaller_zoom_factor current window =
      window ∧
    view_zoom_normal_callback find_larger_zoom_factor find_smaller_zoom_factor medium window =
      window ∧
    search_find_next_callback window = window ∧
    search_find_prev_callback window = window ∧
    search_clear_highlight_callback window = window ∧
    terminal_set_profile_toggled_callback action_active profile forgotten window = window ∧
    terminal_next_or_previous_profile_cb profiles active_profile backwards window = window := by
  refine ⟨update_geometry_of_none window.toTerminalWindow h, ?_, ?_, ?_, ?_, ?_, ?_, ?_, ?_, ?_⟩
  · simp only [terminal_size_to_cb, h]
  · simp only [view_zoom_in_callback, h]
  · simp only [view_zoom_out_callback, h]
  · simp only [view_zoom_normal_callback, h]
  · simp only [search_find_next_callback, h]
  · simp only [search_find_prev_callback, h]
  · simp only [search_clear_highlight_callback, h]
  · simp only [terminal_set_profile_toggled_callback, h, ite_self]
  · simp only [terminal_next_or_previous_profile_cb, h, ite_self]

/-- Instance of C24: the zoom-in action on a window without an active tab, with
a zoom table that always has a larger factor. -/
theorem missing_active_tab_noop_witness :
    view_zoom_in_callback (fun s : Nat => some (s + 1)) (fun _ => none) 3
      (exampleActionWindow none) = exampleActionWindow none :=
  (missing_active_tab_noop (fun s : Nat => some (s + 1)) (fun _ => none) 3 3 80 24 true false
    false 1 1 [1, 2] (exampleActionWindow none) rfl).2.2.1

end MateTerminal
